import Mathlib

/-!
Shallow embedding of the `resast` crate (JavaScript AST data model),
from `src/lib.rs` and `src/pat.rs`, together with the node families the
crate's other modules declare (modelled from the spec where the module
source is absent), and a model of the serialization adapter's supported
two-way configuration.

Conventions of the embedding:
* Rust `u32` fields are `Nat`; the only arithmetic performed on them is
  the `- 1` in `Ident::from_with_pos`, where underflow matters, so that
  subtraction is modelled as checked subtraction returning `Option`
  (a Rust debug-mode panic on underflow becomes `none`).
* Rust `Cow<str>` is the two-variant `Cow` type below; the derived
  `PartialEq` on `Cow<str>` compares string contents, not the
  borrowed/owned tag, so Rust tree equality is modelled by `norm`alizing
  every `Cow` to its owned form and comparing structurally.
* `Box` is pure memory indirection and is erased; `Vec` is `List`;
  Rust `Option` is `Option`.
-/

set_option maxHeartbeats 4000000

namespace Resast

/-- Rust `Cow<'a, str>`: a borrowed or owned string. -/
inductive Cow where
  | borrowed (s : String)
  | owned (s : String)
deriving Repr, DecidableEq

/-- The string contents a `Cow` dereferences to; Rust `PartialEq` for
`Cow<str>` compares exactly this. -/
def Cow.value : Cow → String
  | .borrowed s => s
  | .owned s => s

/-- Rust `Cow::into_owned` / the owned normal form of a `Cow`. -/
def Cow.toOwned (c : Cow) : Cow := .owned c.value

/-- Checked `u32` subtraction: Rust `a - b` panics on underflow
(debug mode), modelled as `none`. -/
def checkedSub (a b : Nat) : Option Nat :=
  if b ≤ a then some (a - b) else none

/-- `SourcePos` from src/lib.rs: line and column, both `u32`. -/
structure SourcePos where
  line : Nat
  col : Nat
deriving Repr, DecidableEq

/-- `#[derive(Default)]` for `SourcePos`: `u32` defaults to 0. -/
def SourcePos.default : SourcePos := { line := 0, col := 0 }

/-- `SourceSpan` from src/lib.rs: a start position and the `in_map`
reliability flag; no end position is tracked. -/
structure SourceSpan where
  start : SourcePos
  in_map : Bool
deriving Repr, DecidableEq

/-- `#[derive(Default)]` for `SourceSpan`: default position, `false` flag. -/
def SourceSpan.default : SourceSpan := { start := SourcePos.default, in_map := false }

/-- `Ident` from src/lib.rs: a name (`Cow<str>`) and a span. -/
structure Ident where
  name : Cow
  s_loc : SourceSpan
deriving Repr, DecidableEq

/-- `Ident::new` from src/lib.rs: wraps an owned `String`. -/
def Ident.new (s : String) (s_loc : SourceSpan) : Ident :=
  { name := .owned s, s_loc := s_loc }

/-- `Ident::from_with_span` from src/lib.rs: borrows the slice, keeps the
given span. -/
def Ident.from_with_span (s : String) (s_loc : SourceSpan) : Ident :=
  { name := .borrowed s, s_loc := s_loc }

/-- `Ident::from` from src/lib.rs: borrows the slice, default span. -/
def Ident.from (s : String) : Ident :=
  { name := .borrowed s, s_loc := SourceSpan.default }

/-- `Ident::from_with_pos` from src/lib.rs: borrows the slice and stores
`SourcePos` with `line - 1`, `column - 1` (u32 subtraction, which
underflows when the argument is 0) and `in_map = true`. -/
def Ident.from_with_pos (s : String) (line column : Nat) : Option Ident := do
  let l ← checkedSub line 1
  let c ← checkedSub column 1
  pure { name := .borrowed s
         s_loc := { start := { line := l, col := c }, in_map := true } }

/-- The derived `PartialEq` for `Ident`: field-wise, with `Cow<str>`
comparing string contents. -/
def Ident.rustEq (a b : Ident) : Bool :=
  a.name.value == b.name.value && a.s_loc == b.s_loc

/-- A JSON-like document, the target of the serialization adapter. -/
inductive Doc where
  | null
  | boolean (b : Bool)
  | num (n : Nat)
  | str (s : String)
  | arr (items : List Doc)
  | obj (fields : List (String × Doc))
deriving Repr

/-- `VarKind` from src/lib.rs: the kind of variable being defined. -/
inductive VarKind where
  | Var
  | Let
  | Const
deriving Repr, DecidableEq

/-- The Rust variant name of a `VarKind` value. -/
def VarKind.variantName : VarKind → String
  | .Var => "Var"
  | .Let => "Let"
  | .Const => "Const"

/-- serde's `rename_all = "camelCase"` applied to a single-word PascalCase
variant name (the attribute on `VarKind` in src/lib.rs): lowercase the
first character. -/
def renameCamelCase (s : String) : String :=
  match s.data with
  | [] => ""
  | c :: rest => String.mk (c.toLower :: rest)

/-- Modelled from the spec: the external-schema (esprima) serializer for
`VarKind` lives in the crate's `serde` module, which is absent from src/;
per the spec and the `serde(rename_all = "camelCase")` attribute in
src/lib.rs it renders the camelCase-renamed variant name as the keyword
string. -/
def VarKind.serializeEsprima (k : VarKind) : String :=
  renameCamelCase k.variantName

/-- `AssignOp` from src/lib.rs. -/
inductive AssignOp where
  | Equal
  | PlusEqual
  | MinusEqual
  | TimesEqual
  | DivEqual
  | ModEqual
  | LeftShiftEqual
  | RightShiftEqual
  | UnsignedRightShiftEqual
  | OrEqual
  | XOrEqual
  | AndEqual
  | PowerOfEqual
deriving Repr, DecidableEq

/-- `LogicalOp` from src/lib.rs. -/
inductive LogicalOp where
  | Or
  | And
deriving Repr, DecidableEq

/-- `BinaryOp` from src/lib.rs. -/
inductive BinaryOp where
  | Equal
  | NotEqual
  | StrictEqual
  | StrictNotEqual
  | LessThan
  | GreaterThan
  | LessThanEqual
  | GreaterThanEqual
  | LeftShift
  | RightShift
  | UnsignedRightShift
  | Plus
  | Minus
  | Times
  | Over
  | Mod
  | Or
  | XOr
  | And
  | In
  | InstanceOf
  | PowerOf
deriving Repr, DecidableEq

/-- `UpdateOp` from src/lib.rs. -/
inductive UpdateOp where
  | Increment
  | Decrement
deriving Repr, DecidableEq

/-- `UnaryOp` from src/lib.rs. -/
inductive UnaryOp where
  | Minus
  | Plus
  | Not
  | Tilde
  | TypeOf
  | Void
  | Delete
deriving Repr, DecidableEq

/-- `PropKind` from src/lib.rs. -/
inductive PropKind where
  | Init
  | Get
  | Set
  | Ctor
  | Method
deriving Repr, DecidableEq

/-- Modelled from the spec: a named import specifier binding a local name
to an external name (the `decl` module is absent from src/). -/
inductive NormalImportSpec where
  | mk (localId : Ident) (imported : Ident)
deriving Repr, DecidableEq

/-- Modelled from the spec: a named export specifier binding a local name
to an exported name (the `decl` module is absent from src/). -/
inductive ExportSpecifier where
  | mk (localId : Ident) (exported : Ident)
deriving Repr, DecidableEq

mutual

/-- Modelled from the spec: the expression tree (the `expr` module is
absent from src/); one variant per expression form the spec lists.
Rust boxes recursive occurrences; `Box` is erased here.  The Rust field
named after the unary/update operator placement is called `pre` here
because its Rust name is not a legal Lean identifier. -/
inductive Expr where
  | Ident (i : Ident)
  | Lit (l : Lit)
  | This
  | Array (elems : List (Option Expr))
  | Obj (props : List ObjProp)
  | Func (f : Func)
  | Class (c : Class)
  | Unary (op : UnaryOp) (pre : Bool) (argument : Expr)
  | Update (op : UpdateOp) (pre : Bool) (argument : Expr)
  | Binary (op : BinaryOp) (left : Expr) (right : Expr)
  | Logical (op : LogicalOp) (left : Expr) (right : Expr)
  | Assign (op : AssignOp) (left : AssignLeft) (right : Expr)
  | Conditional (test : Expr) (alternate : Expr) (consequent : Expr)
  | Call (callee : Expr) (arguments : List Expr)
  | New (callee : Expr) (arguments : List Expr)
  | Member (object : Expr) (property : Expr) (computed : Bool)
  | Sequence (exprs : List Expr)
  | Spread (e : Expr)
  | ArrowFunc (params : List FuncArg) (body : ArrowFuncBody) (is_async : Bool)
  | Yield (argument : Option Expr) (delegate : Bool)
  | TaggedTemplate (tag : Expr) (quasi : TemplateLit)
  | MetaProp (meta : Ident) (property : Ident)

/-- Modelled from the spec: literal expressions (the `expr` module is
absent from src/): null, boolean, number, string, regex, template. -/
inductive Lit where
  | Null
  | Boolean (b : Bool)
  | Number (n : Cow)
  | String (s : Cow)
  | RegEx (pattern : Cow) (flags : Cow)
  | Template (t : TemplateLit)

/-- Modelled from the spec: a template literal: quasis interleaved with
substituted expressions. -/
inductive TemplateLit where
  | mk (quasis : List Cow) (expressions : List Expr)

/-- Modelled from the spec: the left side of an assignment expression is
either a pattern or an expression. -/
inductive AssignLeft where
  | Pat (p : Pat)
  | Expr (e : Expr)

/-- Modelled from the spec: an object/class property (Rust `Prop`, a name
reserved in Lean): key, optional-shaped value, kind and flags. -/
inductive ObjProp where
  | mk (key : PropKey) (value : PropValue) (kind : PropKind)
      (computed : Bool) (is_static : Bool)

/-- Modelled from the spec: a property key. -/
inductive PropKey where
  | Lit (l : Lit)
  | Expr (e : Expr)
  | Pat (p : Pat)

/-- Modelled from the spec: a property value; absence is explicit. -/
inductive PropValue where
  | Expr (e : Expr)
  | Pat (p : Pat)
  | None

/-- `Func` from src/lib.rs: optional id, ordered params, body and the
generator/async flags. -/
inductive Func where
  | mk (id : Option Ident) (params : List FuncArg) (body : FuncBody)
      (generator : Bool) (is_async : Bool)

/-- `FuncArg` from src/lib.rs: a single function argument. -/
inductive FuncArg where
  | Expr (e : Expr)
  | Pat (p : Pat)

/-- `FuncBody` from src/lib.rs: the block statement making up a function
body. -/
inductive FuncBody where
  | mk (parts : List ProgramPart)

/-- Modelled from the spec: an arrow function body is either a full
function body or a bare expression — two distinct shapes. -/
inductive ArrowFuncBody where
  | FuncBody (b : FuncBody)
  | Expr (e : Expr)

/-- `Class` from src/lib.rs: optional id, optional (boxed in Rust)
super class expression, and a class body. -/
inductive Class where
  | mk (id : Option Ident) (super_class : Option Expr) (body : ClassBody)

/-- `ClassBody` from src/lib.rs: a wrapper around the property list. -/
inductive ClassBody where
  | mk (props : List ObjProp)

/-- `Pat` from src/pat.rs: the destructuring pattern tree.  An array
pattern is an ordered sequence of optional parts: a hole is a `none`
element. -/
inductive Pat where
  | Ident (i : Ident)
  | Obj (parts : List ObjPatPart)
  | Array (parts : List (Option ArrayPatPart))
  | RestElement (p : Pat)
  | Assign (a : AssignPat)

/-- `ArrayPatPart` from src/pat.rs. -/
inductive ArrayPatPart where
  | Pat (p : Pat)
  | Expr (e : Expr)

/-- `ObjPatPart` from src/pat.rs. -/
inductive ObjPatPart where
  | Assign (p : ObjProp)
  | Rest (p : Pat)

/-- `AssignPat` from src/pat.rs: an assignment as a pattern. -/
inductive AssignPat where
  | mk (left : Pat) (right : Expr)

/-- Modelled from the spec: one declarator of a variable declaration:
a pattern id and an optional initializer. -/
inductive VarDecl where
  | mk (id : Pat) (init : Option Expr)

/-- Modelled from the spec: declarations (the `decl` module is absent
from src/): variable/function/class declarations and module forms. -/
inductive Decl where
  | Var (kind : VarKind) (decls : List VarDecl)
  | Func (f : Func)
  | Class (c : Class)
  | Import (m : ModImport)
  | Export (m : ModExport)

/-- Modelled from the spec: an import declaration: specifiers plus the
source module string literal. -/
inductive ModImport where
  | mk (specifiers : List ImportSpecifier) (source : Lit)

/-- Modelled from the spec: default, namespace or named import
specifiers. -/
inductive ImportSpecifier where
  | Default (i : Ident)
  | Namespace (i : Ident)
  | Normal (specs : List NormalImportSpec)

/-- Modelled from the spec: export forms — export-all, default export,
named export — each with its source where the grammar has one. -/
inductive ModExport where
  | All (source : Lit)
  | Default (d : DefaultExportDecl)
  | Named (n : NamedExportDecl)

/-- Modelled from the spec: what a default export carries. -/
inductive DefaultExportDecl where
  | Decl (d : Decl)
  | Expr (e : Expr)

/-- Modelled from the spec: a named export: either a declaration or a
specifier list with an optional source module string. -/
inductive NamedExportDecl where
  | Decl (d : Decl)
  | Specifier (specs : List ExportSpecifier) (source : Option Lit)

/-- Modelled from the spec: the statement tree (the `stmt` module is
absent from src/); one variant per statement form the spec lists. -/
inductive Stmt where
  | Expr (e : Expr)
  | Block (parts : List ProgramPart)
  | Empty
  | Debugger
  | With (object : Expr) (body : Stmt)
  | Return (argument : Option Expr)
  | Labeled (label : Ident) (body : Stmt)
  | Break (label : Option Ident)
  | Continue (label : Option Ident)
  | If (test : Expr) (consequent : Stmt) (alternate : Option Stmt)
  | Switch (discriminant : Expr) (cases : List SwitchCase)
  | Throw (argument : Expr)
  | Try (block : List ProgramPart) (handler : Option CatchClause)
      (finalizer : Option (List ProgramPart))
  | While (test : Expr) (body : Stmt)
  | DoWhile (body : Stmt) (test : Expr)
  | For (init : Option LoopInit) (test : Option Expr)
      (update : Option Expr) (body : Stmt)
  | ForIn (left : LoopLeft) (right : Expr) (body : Stmt)
  | ForOf (left : LoopLeft) (right : Expr) (body : Stmt)
  | Var (decls : List VarDecl)

/-- Modelled from the spec: one switch case: an optional test (`none`
marks the default case) and ordered consequent parts. -/
inductive SwitchCase where
  | mk (test : Option Expr) (consequent : List ProgramPart)

/-- Modelled from the spec: a catch clause: optional parameter pattern
and a body. -/
inductive CatchClause where
  | mk (param : Option Pat) (body : List ProgramPart)

/-- Modelled from the spec: the init slot of a classic for loop. -/
inductive LoopInit where
  | Variable (kind : VarKind) (decls : List VarDecl)
  | Expr (e : Expr)

/-- Modelled from the spec: the left slot of a for-in/for-of loop. -/
inductive LoopLeft where
  | Variable (kind : VarKind) (v : VarDecl)
  | Pat (p : Pat)
  | Expr (e : Expr)

/-- `ProgramPart` from src/lib.rs: a single part of a program —
directive, declaration or statement. -/
inductive ProgramPart where
  | Dir (d : Dir)
  | Decl (d : Decl)
  | Stmt (s : Stmt)

/-- `Dir` from src/lib.rs: a directive — a string literal expression and
its normalized directive text. -/
inductive Dir where
  | mk (expr : Lit) (dir : Cow)

end

/-- `Program` from src/lib.rs: a fully parsed javascript program — an
ordered collection of parts, tagged as an ES6 module or a script. -/
inductive Program where
  | Mod (parts : List ProgramPart)
  | Script (parts : List ProgramPart)

/-!
Normalization: replace every `Cow` by its owned form, leaving all other
structure untouched.  Rust's derived `PartialEq` compares `Cow<str>` by
contents and everything else field-by-field, so two trees are equal in
the Rust sense exactly when their normal forms are structurally equal;
the `rustEq` relations below are defined that way.
-/

/-- Owned normal form of an `Ident`: the span is kept as is. -/
def Ident.norm (i : Ident) : Ident :=
  { name := i.name.toOwned, s_loc := i.s_loc }

/-- Owned normal form of an optional `Ident`. -/
def normOptIdent : Option Ident → Option Ident
  | none => none
  | some i => some i.norm

/-- Owned normal form of a `Cow` list. -/
def normCowList : List Cow → List Cow
  | [] => []
  | c :: cs => c.toOwned :: normCowList cs

/-- Owned normal form of a `NormalImportSpec`. -/
def NormalImportSpec.norm : NormalImportSpec → NormalImportSpec
  | .mk l i => .mk l.norm i.norm

/-- Owned normal form of a `NormalImportSpec` list. -/
def normNormalImportSpecList : List NormalImportSpec → List NormalImportSpec
  | [] => []
  | s :: ss => s.norm :: normNormalImportSpecList ss

/-- Owned normal form of an `ExportSpecifier`. -/
def ExportSpecifier.norm : ExportSpecifier → ExportSpecifier
  | .mk l e => .mk l.norm e.norm

/-- Owned normal form of an `ExportSpecifier` list. -/
def normExportSpecifierList : List ExportSpecifier → List ExportSpecifier
  | [] => []
  | s :: ss => s.norm :: normExportSpecifierList ss

mutual

/-- Owned normal form of an `Expr`. -/
def normExpr : Expr → Expr
  | .Ident i => .Ident i.norm
  | .Lit l => .Lit (normLit l)
  | .This => .This
  | .Array es => .Array (normOptExprList es)
  | .Obj ps => .Obj (normObjPropList ps)
  | .Func f => .Func (normFunc f)
  | .Class c => .Class (normClass c)
  | .Unary op pre a => .Unary op pre (normExpr a)
  | .Update op pre a => .Update op pre (normExpr a)
  | .Binary op l r => .Binary op (normExpr l) (normExpr r)
  | .Logical op l r => .Logical op (normExpr l) (normExpr r)
  | .Assign op l r => .Assign op (normAssignLeft l) (normExpr r)
  | .Conditional t a c => .Conditional (normExpr t) (normExpr a) (normExpr c)
  | .Call c args => .Call (normExpr c) (normExprList args)
  | .New c args => .New (normExpr c) (normExprList args)
  | .Member o p c => .Member (normExpr o) (normExpr p) c
  | .Sequence es => .Sequence (normExprList es)
  | .Spread e => .Spread (normExpr e)
  | .ArrowFunc ps b a => .ArrowFunc (normFuncArgList ps) (normArrowFuncBody b) a
  | .Yield a d => .Yield (normOptExpr a) d
  | .TaggedTemplate t q => .TaggedTemplate (normExpr t) (normTemplateLit q)
  | .MetaProp m p => .MetaProp m.norm p.norm

/-- Owned normal form of an `Expr` list. -/
def normExprList : List Expr → List Expr
  | [] => []
  | e :: es => normExpr e :: normExprList es

/-- Owned normal form of an optional `Expr`. -/
def normOptExpr : Option Expr → Option Expr
  | none => none
  | some e => some (normExpr e)

/-- Owned normal form of a list of optional `Expr`s (array literal
elements; holes kept). -/
def normOptExprList : List (Option Expr) → List (Option Expr)
  | [] => []
  | e :: es => normOptExpr e :: normOptExprList es

/-- Owned normal form of a `Lit`. -/
def normLit : Lit → Lit
  | .Null => .Null
  | .Boolean b => .Boolean b
  | .Number n => .Number n.toOwned
  | .String s => .String s.toOwned
  | .RegEx p f => .RegEx p.toOwned f.toOwned
  | .Template t => .Template (normTemplateLit t)

/-- Owned normal form of an optional `Lit`. -/
def normOptLit : Option Lit → Option Lit
  | none => none
  | some l => some (normLit l)

/-- Owned normal form of a `TemplateLit`. -/
def normTemplateLit : TemplateLit → TemplateLit
  | .mk qs es => .mk (normCowList qs) (normExprList es)

/-- Owned normal form of an `AssignLeft`. -/
def normAssignLeft : AssignLeft → AssignLeft
  | .Pat p => .Pat (normPat p)
  | .Expr e => .Expr (normExpr e)

/-- Owned normal form of an `ObjProp`. -/
def normObjProp : ObjProp → ObjProp
  | .mk k v kd c s => .mk (normPropKey k) (normPropValue v) kd c s

/-- Owned normal form of an `ObjProp` list. -/
def normObjPropList : List ObjProp → List ObjProp
  | [] => []
  | p :: ps => normObjProp p :: normObjPropList ps

/-- Owned normal form of a `PropKey`. -/
def normPropKey : PropKey → PropKey
  | .Lit l => .Lit (normLit l)
  | .Expr e => .Expr (normExpr e)
  | .Pat p => .Pat (normPat p)

/-- Owned normal form of a `PropValue`. -/
def normPropValue : PropValue → PropValue
  | .Expr e => .Expr (normExpr e)
  | .Pat p => .Pat (normPat p)
  | .None => .None

/-- Owned normal form of a `Func`. -/
def normFunc : Func → Func
  | .mk id ps b g a => .mk (normOptIdent id) (normFuncArgList ps) (normFuncBody b) g a

/-- Owned normal form of a `FuncArg`. -/
def normFuncArg : FuncArg → FuncArg
  | .Expr e => .Expr (normExpr e)
  | .Pat p => .Pat (normPat p)

/-- Owned normal form of a `FuncArg` list. -/
def normFuncArgList : List FuncArg → List FuncArg
  | [] => []
  | a :: as => normFuncArg a :: normFuncArgList as

/-- Owned normal form of a `FuncBody`. -/
def normFuncBody : FuncBody → FuncBody
  | .mk ps => .mk (normProgramPartList ps)

/-- Owned normal form of an `ArrowFuncBody`. -/
def normArrowFuncBody : ArrowFuncBody → ArrowFuncBody
  | .FuncBody b => .FuncBody (normFuncBody b)
  | .Expr e => .Expr (normExpr e)

/-- Owned normal form of a `Class`. -/
def normClass : Class → Class
  | .mk id sc b => .mk (normOptIdent id) (normOptExpr sc) (normClassBody b)

/-- Owned normal form of a `ClassBody`. -/
def normClassBody : ClassBody → ClassBody
  | .mk ps => .mk (normObjPropList ps)

/-- Owned normal form of a `Pat`. -/
def normPat : Pat → Pat
  | .Ident i => .Ident i.norm
  | .Obj ps => .Obj (normObjPatPartList ps)
  | .Array ps => .Array (normOptArrayPatPartList ps)
  | .RestElement p => .RestElement (normPat p)
  | .Assign a => .Assign (normAssignPat a)

/-- Owned normal form of an optional `Pat`. -/
def normOptPat : Option Pat → Option Pat
  | none => none
  | some p => some (normPat p)

/-- Owned normal form of an `ObjPatPart` list. -/
def normObjPatPartList : List ObjPatPart → List ObjPatPart
  | [] => []
  | p :: ps => normObjPatPart p :: normObjPatPartList ps

/-- Owned normal form of an `ObjPatPart`. -/
def normObjPatPart : ObjPatPart → ObjPatPart
  | .Assign p => .Assign (normObjProp p)
  | .Rest p => .Rest (normPat p)

/-- Owned normal form of an optional `ArrayPatPart`: a hole stays a
hole. -/
def normOptArrayPatPart : Option ArrayPatPart → Option ArrayPatPart
  | none => none
  | some p => some (normArrayPatPart p)

/-- Owned normal form of a list of optional `ArrayPatPart`s. -/
def normOptArrayPatPartList : List (Option ArrayPatPart) → List (Option ArrayPatPart)
  | [] => []
  | p :: ps => normOptArrayPatPart p :: normOptArrayPatPartList ps

/-- Owned normal form of an `ArrayPatPart`. -/
def normArrayPatPart : ArrayPatPart → ArrayPatPart
  | .Pat p => .Pat (normPat p)
  | .Expr e => .Expr (normExpr e)

/-- Owned normal form of an `AssignPat`. -/
def normAssignPat : AssignPat → AssignPat
  | .mk l r => .mk (normPat l) (normExpr r)

/-- Owned normal form of a `VarDecl`. -/
def normVarDecl : VarDecl → VarDecl
  | .mk id init => .mk (normPat id) (normOptExpr init)

/-- Owned normal form of a `VarDecl` list. -/
def normVarDeclList : List VarDecl → List VarDecl
  | [] => []
  | d :: ds => normVarDecl d :: normVarDeclList ds

/-- Owned normal form of a `Decl`. -/
def normDecl : Decl → Decl
  | .Var k ds => .Var k (normVarDeclList ds)
  | .Func f => .Func (normFunc f)
  | .Class c => .Class (normClass c)
  | .Import m => .Import (normModImport m)
  | .Export m => .Export (normModExport m)

/-- Owned normal form of a `ModImport`. -/
def normModImport : ModImport → ModImport
  | .mk ss src => .mk (normImportSpecifierList ss) (normLit src)

/-- Owned normal form of an `ImportSpecifier`. -/
def normImportSpecifier : ImportSpecifier → ImportSpecifier
  | .Default i => .Default i.norm
  | .Namespace i => .Namespace i.norm
  | .Normal ss => .Normal (normNormalImportSpecList ss)

/-- Owned normal form of an `ImportSpecifier` list. -/
def normImportSpecifierList : List ImportSpecifier → List ImportSpecifier
  | [] => []
  | s :: ss => normImportSpecifier s :: normImportSpecifierList ss

/-- Owned normal form of a `ModExport`. -/
def normModExport : ModExport → ModExport
  | .All src => .All (normLit src)
  | .Default d => .Default (normDefaultExportDecl d)
  | .Named n => .Named (normNamedExportDecl n)

/-- Owned normal form of a `DefaultExportDecl`. -/
def normDefaultExportDecl : DefaultExportDecl → DefaultExportDecl
  | .Decl d => .Decl (normDecl d)
  | .Expr e => .Expr (normExpr e)

/-- Owned normal form of a `NamedExportDecl`. -/
def normNamedExportDecl : NamedExportDecl → NamedExportDecl
  | .Decl d => .Decl (normDecl d)
  | .Specifier ss src => .Specifier (normExportSpecifierList ss) (normOptLit src)

/-- Owned normal form of a `Stmt`. -/
def normStmt : Stmt → Stmt
  | .Expr e => .Expr (normExpr e)
  | .Block ps => .Block (normProgramPartList ps)
  | .Empty => .Empty
  | .Debugger => .Debugger
  | .With o b => .With (normExpr o) (normStmt b)
  | .Return a => .Return (normOptExpr a)
  | .Labeled l b => .Labeled l.norm (normStmt b)
  | .Break l => .Break (normOptIdent l)
  | .Continue l => .Continue (normOptIdent l)
  | .If t c a => .If (normExpr t) (normStmt c) (normOptStmt a)
  | .Switch d cs => .Switch (normExpr d) (normSwitchCaseList cs)
  | .Throw a => .Throw (normExpr a)
  | .Try b h f => .Try (normProgramPartList b) (normOptCatchClause h) (normOptProgramPartList f)
  | .While t b => .While (normExpr t) (normStmt b)
  | .DoWhile b t => .DoWhile (normStmt b) (normExpr t)
  | .For i t u b => .For (normOptLoopInit i) (normOptExpr t) (normOptExpr u) (normStmt b)
  | .ForIn l r b => .ForIn (normLoopLeft l) (normExpr r) (normStmt b)
  | .ForOf l r b => .ForOf (normLoopLeft l) (normExpr r) (normStmt b)
  | .Var ds => .Var (normVarDeclList ds)

/-- Owned normal form of an optional `Stmt`. -/
def normOptStmt : Option Stmt → Option Stmt
  | none => none
  | some s => some (normStmt s)

/-- Owned normal form of a `SwitchCase`. -/
def normSwitchCase : SwitchCase → SwitchCase
  | .mk t c => .mk (normOptExpr t) (normProgramPartList c)

/-- Owned normal form of a `SwitchCase` list. -/
def normSwitchCaseList : List SwitchCase → List SwitchCase
  | [] => []
  | c :: cs => normSwitchCase c :: normSwitchCaseList cs

/-- Owned normal form of a `CatchClause`. -/
def normCatchClause : CatchClause → CatchClause
  | .mk p b => .mk (normOptPat p) (normProgramPartList b)

/-- Owned normal form of an optional `CatchClause`. -/
def normOptCatchClause : Option CatchClause → Option CatchClause
  | none => none
  | some c => some (normCatchClause c)

/-- Owned normal form of a `LoopInit`. -/
def normLoopInit : LoopInit → LoopInit
  | .Variable k ds => .Variable k (normVarDeclList ds)
  | .Expr e => .Expr (normExpr e)

/-- Owned normal form of an optional `LoopInit`. -/
def normOptLoopInit : Option LoopInit → Option LoopInit
  | none => none
  | some i => some (normLoopInit i)

/-- Owned normal form of a `LoopLeft`. -/
def normLoopLeft : LoopLeft → LoopLeft
  | .Variable k v => .Variable k (normVarDecl v)
  | .Pat p => .Pat (normPat p)
  | .Expr e => .Expr (normExpr e)

/-- Owned normal form of a `ProgramPart`. -/
def normProgramPart : ProgramPart → ProgramPart
  | .Dir d => .Dir (normDir d)
  | .Decl d => .Decl (normDecl d)
  | .Stmt s => .Stmt (normStmt s)

/-- Owned normal form of a `ProgramPart` list. -/
def normProgramPartList : List ProgramPart → List ProgramPart
  | [] => []
  | p :: ps => normProgramPart p :: normProgramPartList ps

/-- Owned normal form of an optional `ProgramPart` list. -/
def normOptProgramPartList : Option (List ProgramPart) → Option (List ProgramPart)
  | none => none
  | some ps => some (normProgramPartList ps)

/-- Owned normal form of a `Dir`. -/
def normDir : Dir → Dir
  | .mk e d => .mk (normLit e) d.toOwned

end

/-- Owned normal form of a `Program`. -/
def normProgram : Program → Program
  | .Mod ps => .Mod (normProgramPartList ps)
  | .Script ps => .Script (normProgramPartList ps)

/-- Rust tree equality (derived `PartialEq`) for `Program`: structural
equality of owned normal forms. -/
def Program.rustEq (a b : Program) : Prop := normProgram a = normProgram b

/-- Rust tree equality (derived `PartialEq`) for `Pat`. -/
def Pat.rustEq (a b : Pat) : Prop := normPat a = normPat b

/-- Rust tree equality (derived `PartialEq`) for `Expr`. -/
def Expr.rustEq (a b : Expr) : Prop := normExpr a = normExpr b

/-- Rust tree equality (derived `PartialEq`) for `Stmt`. -/
def Stmt.rustEq (a b : Stmt) : Prop := normStmt a = normStmt b

/-- Rust tree equality (derived `PartialEq`) for `Decl`. -/
def Decl.rustEq (a b : Decl) : Prop := normDecl a = normDecl b

/-- `Program::module` from src/lib.rs. -/
def Program.module (parts : List ProgramPart) : Program := .Mod parts

/-- `Program::script` from src/lib.rs. -/
def Program.script (parts : List ProgramPart) : Program := .Script parts

/-- `ProgramPart::decl` from src/lib.rs. -/
def ProgramPart.decl (inner : Resast.Decl) : ProgramPart := .Decl inner

/-- `ProgramPart::stmt` from src/lib.rs. -/
def ProgramPart.stmt (inner : Resast.Stmt) : ProgramPart := .Stmt inner

/-- `Func::new` from src/lib.rs: direct field assembly. -/
def Func.new (id : Option Ident) (params : List FuncArg) (body : FuncBody)
    (generator : Bool) (is_async : Bool) : Func :=
  .mk id params body generator is_async

/-- `FuncArg::expr` from src/lib.rs. -/
def FuncArg.expr (e : Resast.Expr) : FuncArg := .Expr e

/-- `FuncArg::pat` from src/lib.rs. -/
def FuncArg.pat (p : Resast.Pat) : FuncArg := .Pat p

/-- `Class::new` from src/lib.rs: wraps the property list in `ClassBody`
and boxes `super_class` (`super_class.map(Box::new)`; `Box` is erased in
this embedding). -/
def Class.new (id : Option Ident) (super_class : Option Expr)
    (body : List ObjProp) : Class :=
  .mk id super_class (ClassBody.mk body)

/-- `Pat::ident_from` from src/pat.rs. -/
def Pat.ident_from (s : String) : Pat := .Ident (Ident.from s)

/-- `Pat::ident_from_with_span` from src/pat.rs. -/
def Pat.ident_from_with_span (s : String) (s_loc : SourceSpan) : Pat :=
  .Ident (Ident.from_with_span s s_loc)

/-!
The serialization adapter, modelled from the spec: the crate's two-way
supported configuration (`serde` without `esprima`) derives
`Serialize`/`Deserialize`, i.e. the default externally tagged encoding:
a unit variant is its name string, a data variant is a one-field object
keyed by the variant name, structs are field maps, sequences are arrays,
`Option` is `null`-or-value, and `Cow<str>` is a plain string (and so
deserializes to the owned variant).  The decoder takes a fuel argument
bounding recursion depth; `sizeOf` of the encoded node always suffices.
-/

/-- Encode a `Cow` as a plain string document. -/
def encodeCow (c : Cow) : Doc := .str c.value

/-- Decode a string document to an (owned) `Cow`. -/
def decodeCow : Doc → Option Cow
  | .str s => some (.owned s)
  | _ => none

/-- Encode a `Cow` list. -/
def encodeCowList : List Cow → List Doc
  | [] => []
  | c :: cs => encodeCow c :: encodeCowList cs

/-- Decode a `Cow` list. -/
def decodeCowList : List Doc → Option (List Cow)
  | [] => some []
  | d :: ds => do pure ((← decodeCow d) :: (← decodeCowList ds))

/-- Encode a `SourcePos` as a field map. -/
def encodeSourcePos (p : SourcePos) : Doc :=
  .obj [("line", .num p.line), ("col", .num p.col)]

/-- Decode a `SourcePos`. -/
def decodeSourcePos : Doc → Option SourcePos
  | .obj [("line", .num l), ("col", .num c)] => some { line := l, col := c }
  | _ => none

/-- Encode a `SourceSpan` as a field map. -/
def encodeSourceSpan (s : SourceSpan) : Doc :=
  .obj [("start", encodeSourcePos s.start), ("in_map", .boolean s.in_map)]

/-- Decode a `SourceSpan`. -/
def decodeSourceSpan : Doc → Option SourceSpan
  | .obj [("start", d), ("in_map", .boolean b)] => do
    pure { start := ← decodeSourcePos d, in_map := b }
  | _ => none

/-- Encode an `Ident` as a field map. -/
def encodeIdent (i : Ident) : Doc :=
  .obj [("name", encodeCow i.name), ("s_loc", encodeSourceSpan i.s_loc)]

/-- Decode an `Ident`; the name comes back owned. -/
def decodeIdent : Doc → Option Ident
  | .obj [("name", dn), ("s_loc", dl)] => do
    pure { name := ← decodeCow dn, s_loc := ← decodeSourceSpan dl }
  | _ => none

/-- Encode an optional `Ident`. -/
def encodeOptIdent : Option Ident → Doc
  | none => .null
  | some i => encodeIdent i

/-- Decode an optional `Ident`. -/
def decodeOptIdent : Doc → Option (Option Ident)
  | .null => some none
  | d => (decodeIdent d).map some

/-- Encode a `VarKind` in the tagged configuration: its variant name. -/
def encodeVarKind (k : VarKind) : Doc := .str k.variantName

/-- Decode a `VarKind`. -/
def decodeVarKind : Doc → Option VarKind
  | .str "Var" => some .Var
  | .str "Let" => some .Let
  | .str "Const" => some .Const
  | _ => none

/-- Encode an `AssignOp` as its variant name. -/
def encodeAssignOp : AssignOp → Doc
  | .Equal => .str "Equal"
  | .PlusEqual => .str "PlusEqual"
  | .MinusEqual => .str "MinusEqual"
  | .TimesEqual => .str "TimesEqual"
  | .DivEqual => .str "DivEqual"
  | .ModEqual => .str "ModEqual"
  | .LeftShiftEqual => .str "LeftShiftEqual"
  | .RightShiftEqual => .str "RightShiftEqual"
  | .UnsignedRightShiftEqual => .str "UnsignedRightShiftEqual"
  | .OrEqual => .str "OrEqual"
  | .XOrEqual => .str "XOrEqual"
  | .AndEqual => .str "AndEqual"
  | .PowerOfEqual => .str "PowerOfEqual"

/-- Decode an `AssignOp`. -/
def decodeAssignOp : Doc → Option AssignOp
  | .str "Equal" => some .Equal
  | .str "PlusEqual" => some .PlusEqual
  | .str "MinusEqual" => some .MinusEqual
  | .str "TimesEqual" => some .TimesEqual
  | .str "DivEqual" => some .DivEqual
  | .str "ModEqual" => some .ModEqual
  | .str "LeftShiftEqual" => some .LeftShiftEqual
  | .str "RightShiftEqual" => some .RightShiftEqual
  | .str "UnsignedRightShiftEqual" => some .UnsignedRightShiftEqual
  | .str "OrEqual" => some .OrEqual
  | .str "XOrEqual" => some .XOrEqual
  | .str "AndEqual" => some .AndEqual
  | .str "PowerOfEqual" => some .PowerOfEqual
  | _ => none

/-- Encode a `LogicalOp` as its variant name. -/
def encodeLogicalOp : LogicalOp → Doc
  | .Or => .str "Or"
  | .And => .str "And"

/-- Decode a `LogicalOp`. -/
def decodeLogicalOp : Doc → Option LogicalOp
  | .str "Or" => some .Or
  | .str "And" => some .And
  | _ => none

/-- Encode a `BinaryOp` as its variant name. -/
def encodeBinaryOp : BinaryOp → Doc
  | .Equal => .str "Equal"
  | .NotEqual => .str "NotEqual"
  | .StrictEqual => .str "StrictEqual"
  | .StrictNotEqual => .str "StrictNotEqual"
  | .LessThan => .str "LessThan"
  | .GreaterThan => .str "GreaterThan"
  | .LessThanEqual => .str "LessThanEqual"
  | .GreaterThanEqual => .str "GreaterThanEqual"
  | .LeftShift => .str "LeftShift"
  | .RightShift => .str "RightShift"
  | .UnsignedRightShift => .str "UnsignedRightShift"
  | .Plus => .str "Plus"
  | .Minus => .str "Minus"
  | .Times => .str "Times"
  | .Over => .str "Over"
  | .Mod => .str "Mod"
  | .Or => .str "Or"
  | .XOr => .str "XOr"
  | .And => .str "And"
  | .In => .str "In"
  | .InstanceOf => .str "InstanceOf"
  | .PowerOf => .str "PowerOf"

/-- Decode a `BinaryOp`. -/
def decodeBinaryOp : Doc → Option BinaryOp
  | .str "Equal" => some .Equal
  | .str "NotEqual" => some .NotEqual
  | .str "StrictEqual" => some .StrictEqual
  | .str "StrictNotEqual" => some .StrictNotEqual
  | .str "LessThan" => some .LessThan
  | .str "GreaterThan" => some .GreaterThan
  | .str "LessThanEqual" => some .LessThanEqual
  | .str "GreaterThanEqual" => some .GreaterThanEqual
  | .str "LeftShift" => some .LeftShift
  | .str "RightShift" => some .RightShift
  | .str "UnsignedRightShift" => some .UnsignedRightShift
  | .str "Plus" => some .Plus
  | .str "Minus" => some .Minus
  | .str "Times" => some .Times
  | .str "Over" => some .Over
  | .str "Mod" => some .Mod
  | .str "Or" => some .Or
  | .str "XOr" => some .XOr
  | .str "And" => some .And
  | .str "In" => some .In
  | .str "InstanceOf" => some .InstanceOf
  | .str "PowerOf" => some .PowerOf
  | _ => none

/-- Encode an `UpdateOp` as its variant name. -/
def encodeUpdateOp : UpdateOp → Doc
  | .Increment => .str "Increment"
  | .Decrement => .str "Decrement"

/-- Decode an `UpdateOp`. -/
def decodeUpdateOp : Doc → Option UpdateOp
  | .str "Increment" => some .Increment
  | .str "Decrement" => some .Decrement
  | _ => none

/-- Encode a `UnaryOp` as its variant name. -/
def encodeUnaryOp : UnaryOp → Doc
  | .Minus => .str "Minus"
  | .Plus => .str "Plus"
  | .Not => .str "Not"
  | .Tilde => .str "Tilde"
  | .TypeOf => .str "TypeOf"
  | .Void => .str "Void"
  | .Delete => .str "Delete"

/-- Decode a `UnaryOp`. -/
def decodeUnaryOp : Doc → Option UnaryOp
  | .str "Minus" => some .Minus
  | .str "Plus" => some .Plus
  | .str "Not" => some .Not
  | .str "Tilde" => some .Tilde
  | .str "TypeOf" => some .TypeOf
  | .str "Void" => some .Void
  | .str "Delete" => some .Delete
  | _ => none

/-- Encode a `PropKind` as its variant name. -/
def encodePropKind : PropKind → Doc
  | .Init => .str "Init"
  | .Get => .str "Get"
  | .Set => .str "Set"
  | .Ctor => .str "Ctor"
  | .Method => .str "Method"

/-- Decode a `PropKind`. -/
def decodePropKind : Doc → Option PropKind
  | .str "Init" => some .Init
  | .str "Get" => some .Get
  | .str "Set" => some .Set
  | .str "Ctor" => some .Ctor
  | .str "Method" => some .Method
  | _ => none

/-- Encode a `NormalImportSpec` as a field map. -/
def encodeNormalImportSpec : NormalImportSpec → Doc
  | .mk l i => .obj [("local", encodeIdent l), ("imported", encodeIdent i)]

/-- Decode a `NormalImportSpec`. -/
def decodeNormalImportSpec : Doc → Option NormalImportSpec
  | .obj [("local", dl), ("imported", di)] => do
    pure (.mk (← decodeIdent dl) (← decodeIdent di))
  | _ => none

/-- Encode a `NormalImportSpec` list. -/
def encodeNormalImportSpecList : List NormalImportSpec → List Doc
  | [] => []
  | s :: ss => encodeNormalImportSpec s :: encodeNormalImportSpecList ss

/-- Decode a `NormalImportSpec` list. -/
def decodeNormalImportSpecList : List Doc → Option (List NormalImportSpec)
  | [] => some []
  | d :: ds => do pure ((← decodeNormalImportSpec d) :: (← decodeNormalImportSpecList ds))

/-- Encode an `ExportSpecifier` as a field map. -/
def encodeExportSpecifier : ExportSpecifier → Doc
  | .mk l e => .obj [("local", encodeIdent l), ("exported", encodeIdent e)]

/-- Decode an `ExportSpecifier`. -/
def decodeExportSpecifier : Doc → Option ExportSpecifier
  | .obj [("local", dl), ("exported", de)] => do
    pure (.mk (← decodeIdent dl) (← decodeIdent de))
  | _ => none

/-- Encode an `ExportSpecifier` list. -/
def encodeExportSpecifierList : List ExportSpecifier → List Doc
  | [] => []
  | s :: ss => encodeExportSpecifier s :: encodeExportSpecifierList ss

/-- Decode an `ExportSpecifier` list. -/
def decodeExportSpecifierList : List Doc → Option (List ExportSpecifier)
  | [] => some []
  | d :: ds => do pure ((← decodeExportSpecifier d) :: (← decodeExportSpecifierList ds))

mutual

/-- Tagged encoding of an `Expr`. -/
def encodeExpr : Expr → Doc
  | .Ident i => .obj [("Ident", encodeIdent i)]
  | .Lit l => .obj [("Lit", encodeLit l)]
  | .This => .str "This"
  | .Array es => .obj [("Array", .arr (encodeOptExprList es))]
  | .Obj ps => .obj [("Obj", .arr (encodeObjPropList ps))]
  | .Func f => .obj [("Func", encodeFunc f)]
  | .Class c => .obj [("Class", encodeClass c)]
  | .Unary op pre a => .obj [("Unary", .arr [encodeUnaryOp op, .boolean pre, encodeExpr a])]
  | .Update op pre a => .obj [("Update", .arr [encodeUpdateOp op, .boolean pre, encodeExpr a])]
  | .Binary op l r => .obj [("Binary", .arr [encodeBinaryOp op, encodeExpr l, encodeExpr r])]
  | .Logical op l r => .obj [("Logical", .arr [encodeLogicalOp op, encodeExpr l, encodeExpr r])]
  | .Assign op l r => .obj [("Assign", .arr [encodeAssignOp op, encodeAssignLeft l, encodeExpr r])]
  | .Conditional t a c => .obj [("Conditional", .arr [encodeExpr t, encodeExpr a, encodeExpr c])]
  | .Call c args => .obj [("Call", .arr [encodeExpr c, .arr (encodeExprList args)])]
  | .New c args => .obj [("New", .arr [encodeExpr c, .arr (encodeExprList args)])]
  | .Member o p c => .obj [("Member", .arr [encodeExpr o, encodeExpr p, .boolean c])]
  | .Sequence es => .obj [("Sequence", .arr (encodeExprList es))]
  | .Spread e => .obj [("Spread", encodeExpr e)]
  | .ArrowFunc ps b a =>
    .obj [("ArrowFunc", .arr [.arr (encodeFuncArgList ps), encodeArrowFuncBody b, .boolean a])]
  | .Yield a d => .obj [("Yield", .arr [encodeOptExpr a, .boolean d])]
  | .TaggedTemplate t q => .obj [("TaggedTemplate", .arr [encodeExpr t, encodeTemplateLit q])]
  | .MetaProp m p => .obj [("MetaProp", .arr [encodeIdent m, encodeIdent p])]

/-- Tagged encoding of an `Expr` list. -/
def encodeExprList : List Expr → List Doc
  | [] => []
  | e :: es => encodeExpr e :: encodeExprList es

/-- Tagged encoding of an optional `Expr`. -/
def encodeOptExpr : Option Expr → Doc
  | none => .null
  | some e => encodeExpr e

/-- Tagged encoding of a list of optional `Expr`s. -/
def encodeOptExprList : List (Option Expr) → List Doc
  | [] => []
  | e :: es => encodeOptExpr e :: encodeOptExprList es

/-- Tagged encoding of a `Lit`. -/
def encodeLit : Lit → Doc
  | .Null => .str "Null"
  | .Boolean b => .obj [("Boolean", .boolean b)]
  | .Number n => .obj [("Number", encodeCow n)]
  | .String s => .obj [("String", encodeCow s)]
  | .RegEx p f => .obj [("RegEx", .arr [encodeCow p, encodeCow f])]
  | .Template t => .obj [("Template", encodeTemplateLit t)]

/-- Tagged encoding of an optional `Lit`. -/
def encodeOptLit : Option Lit → Doc
  | none => .null
  | some l => encodeLit l

/-- Tagged encoding of a `TemplateLit`. -/
def encodeTemplateLit : TemplateLit → Doc
  | .mk qs es =>
    .obj [("quasis", .arr (encodeCowList qs)), ("expressions", .arr (encodeExprList es))]

/-- Tagged encoding of an `AssignLeft`. -/
def encodeAssignLeft : AssignLeft → Doc
  | .Pat p => .obj [("Pat", encodePat p)]
  | .Expr e => .obj [("Expr", encodeExpr e)]

/-- Tagged encoding of an `ObjProp`. -/
def encodeObjProp : ObjProp → Doc
  | .mk k v kd c s =>
    .obj [("key", encodePropKey k), ("value", encodePropValue v),
          ("kind", encodePropKind kd), ("computed", .boolean c),
          ("is_static", .boolean s)]

/-- Tagged encoding of an `ObjProp` list. -/
def encodeObjPropList : List ObjProp → List Doc
  | [] => []
  | p :: ps => encodeObjProp p :: encodeObjPropList ps

/-- Tagged encoding of a `PropKey`. -/
def encodePropKey : PropKey → Doc
  | .Lit l => .obj [("Lit", encodeLit l)]
  | .Expr e => .obj [("Expr", encodeExpr e)]
  | .Pat p => .obj [("Pat", encodePat p)]

/-- Tagged encoding of a `PropValue`. -/
def encodePropValue : PropValue → Doc
  | .Expr e => .obj [("Expr", encodeExpr e)]
  | .Pat p => .obj [("Pat", encodePat p)]
  | .None => .str "None"

/-- Tagged encoding of a `Func`. -/
def encodeFunc : Func → Doc
  | .mk id ps b g a =>
    .obj [("id", encodeOptIdent id), ("params", .arr (encodeFuncArgList ps)),
          ("body", encodeFuncBody b), ("generator", .boolean g),
          ("is_async", .boolean a)]

/-- Tagged encoding of a `FuncArg`. -/
def encodeFuncArg : FuncArg → Doc
  | .Expr e => .obj [("Expr", encodeExpr e)]
  | .Pat p => .obj [("Pat", encodePat p)]

/-- Tagged encoding of a `FuncArg` list. -/
def encodeFuncArgList : List FuncArg → List Doc
  | [] => []
  | a :: as => encodeFuncArg a :: encodeFuncArgList as

/-- Tagged encoding of a `FuncBody`: the array of its parts. -/
def encodeFuncBody : FuncBody → Doc
  | .mk ps => .arr (encodeProgramPartList ps)

/-- Tagged encoding of an `ArrowFuncBody`. -/
def encodeArrowFuncBody : ArrowFuncBody → Doc
  | .FuncBody b => .obj [("FuncBody", encodeFuncBody b)]
  | .Expr e => .obj [("Expr", encodeExpr e)]

/-- Tagged encoding of a `Class`. -/
def encodeClass : Class → Doc
  | .mk id sc b =>
    .obj [("id", encodeOptIdent id), ("super_class", encodeOptExpr sc),
          ("body", encodeClassBody b)]

/-- Tagged encoding of a `ClassBody`: the array of its properties. -/
def encodeClassBody : ClassBody → Doc
  | .mk ps => .arr (encodeObjPropList ps)

/-- Tagged encoding of a `Pat`. -/
def encodePat : Pat → Doc
  | .Ident i => .obj [("Ident", encodeIdent i)]
  | .Obj ps => .obj [("Obj", .arr (encodeObjPatPartList ps))]
  | .Array ps => .obj [("Array", .arr (encodeOptArrayPatPartList ps))]
  | .RestElement p => .obj [("RestElement", encodePat p)]
  | .Assign a => .obj [("Assign", encodeAssignPat a)]

/-- Tagged encoding of an optional `Pat`. -/
def encodeOptPat : Option Pat → Doc
  | none => .null
  | some p => encodePat p

/-- Tagged encoding of an `ObjPatPart` list. -/
def encodeObjPatPartList : List ObjPatPart → List Doc
  | [] => []
  | p :: ps => encodeObjPatPart p :: encodeObjPatPartList ps

/-- Tagged encoding of an `ObjPatPart`. -/
def encodeObjPatPart : ObjPatPart → Doc
  | .Assign p => .obj [("Assign", encodeObjProp p)]
  | .Rest p => .obj [("Rest", encodePat p)]

/-- Tagged encoding of an optional `ArrayPatPart`: a hole is `null`. -/
def encodeOptArrayPatPart : Option ArrayPatPart → Doc
  | none => .null
  | some p => encodeArrayPatPart p

/-- Tagged encoding of a list of optional `ArrayPatPart`s. -/
def encodeOptArrayPatPartList : List (Option ArrayPatPart) → List Doc
  | [] => []
  | p :: ps => encodeOptArrayPatPart p :: encodeOptArrayPatPartList ps

/-- Tagged encoding of an `ArrayPatPart`. -/
def encodeArrayPatPart : ArrayPatPart → Doc
  | .Pat p => .obj [("Pat", encodePat p)]
  | .Expr e => .obj [("Expr", encodeExpr e)]

/-- Tagged encoding of an `AssignPat`. -/
def encodeAssignPat : AssignPat → Doc
  | .mk l r => .obj [("left", encodePat l), ("right", encodeExpr r)]

/-- Tagged encoding of a `VarDecl`. -/
def encodeVarDecl : VarDecl → Doc
  | .mk id init => .obj [("id", encodePat id), ("init", encodeOptExpr init)]

/-- Tagged encoding of a `VarDecl` list. -/
def encodeVarDeclList : List VarDecl → List Doc
  | [] => []
  | d :: ds => encodeVarDecl d :: encodeVarDeclList ds

/-- Tagged encoding of a `Decl`. -/
def encodeDecl : Decl → Doc
  | .Var k ds => .obj [("Var", .arr [encodeVarKind k, .arr (encodeVarDeclList ds)])]
  | .Func f => .obj [("Func", encodeFunc f)]
  | .Class c => .obj [("Class", encodeClass c)]
  | .Import m => .obj [("Import", encodeModImport m)]
  | .Export m => .obj [("Export", encodeModExport m)]

/-- Tagged encoding of a `ModImport`. -/
def encodeModImport : ModImport → Doc
  | .mk ss src =>
    .obj [("specifiers", .arr (encodeImportSpecifierList ss)), ("source", encodeLit src)]

/-- Tagged encoding of an `ImportSpecifier`. -/
def encodeImportSpecifier : ImportSpecifier → Doc
  | .Default i => .obj [("Default", encodeIdent i)]
  | .Namespace i => .obj [("Namespace", encodeIdent i)]
  | .Normal ss => .obj [("Normal", .arr (encodeNormalImportSpecList ss))]

/-- Tagged encoding of an `ImportSpecifier` list. -/
def encodeImportSpecifierList : List ImportSpecifier → List Doc
  | [] => []
  | s :: ss => encodeImportSpecifier s :: encodeImportSpecifierList ss

/-- Tagged encoding of a `ModExport`. -/
def encodeModExport : ModExport → Doc
  | .All src => .obj [("All", encodeLit src)]
  | .Default d => .obj [("Default", encodeDefaultExportDecl d)]
  | .Named n => .obj [("Named", encodeNamedExportDecl n)]

/-- Tagged encoding of a `DefaultExportDecl`. -/
def encodeDefaultExportDecl : DefaultExportDecl → Doc
  | .Decl d => .obj [("Decl", encodeDecl d)]
  | .Expr e => .obj [("Expr", encodeExpr e)]

/-- Tagged encoding of a `NamedExportDecl`. -/
def encodeNamedExportDecl : NamedExportDecl → Doc
  | .Decl d => .obj [("Decl", encodeDecl d)]
  | .Specifier ss src =>
    .obj [("Specifier", .arr [.arr (encodeExportSpecifierList ss), encodeOptLit src])]

/-- Tagged encoding of a `Stmt`. -/
def encodeStmt : Stmt → Doc
  | .Expr e => .obj [("Expr", encodeExpr e)]
  | .Block ps => .obj [("Block", .arr (encodeProgramPartList ps))]
  | .Empty => .str "Empty"
  | .Debugger => .str "Debugger"
  | .With o b => .obj [("With", .arr [encodeExpr o, encodeStmt b])]
  | .Return a => .obj [("Return", encodeOptExpr a)]
  | .Labeled l b => .obj [("Labeled", .arr [encodeIdent l, encodeStmt b])]
  | .Break l => .obj [("Break", encodeOptIdent l)]
  | .Continue l => .obj [("Continue", encodeOptIdent l)]
  | .If t c a => .obj [("If", .arr [encodeExpr t, encodeStmt c, encodeOptStmt a])]
  | .Switch d cs => .obj [("Switch", .arr [encodeExpr d, .arr (encodeSwitchCaseList cs)])]
  | .Throw a => .obj [("Throw", encodeExpr a)]
  | .Try b h f =>
    .obj [("Try", .arr [.arr (encodeProgramPartList b), encodeOptCatchClause h,
                        encodeOptProgramPartList f])]
  | .While t b => .obj [("While", .arr [encodeExpr t, encodeStmt b])]
  | .DoWhile b t => .obj [("DoWhile", .arr [encodeStmt b, encodeExpr t])]
  | .For i t u b =>
    .obj [("For", .arr [encodeOptLoopInit i, encodeOptExpr t, encodeOptExpr u, encodeStmt b])]
  | .ForIn l r b => .obj [("ForIn", .arr [encodeLoopLeft l, encodeExpr r, encodeStmt b])]
  | .ForOf l r b => .obj [("ForOf", .arr [encodeLoopLeft l, encodeExpr r, encodeStmt b])]
  | .Var ds => .obj [("Var", .arr (encodeVarDeclList ds))]

/-- Tagged encoding of an optional `Stmt`. -/
def encodeOptStmt : Option Stmt → Doc
  | none => .null
  | some s => encodeStmt s

/-- Tagged encoding of a `SwitchCase`. -/
def encodeSwitchCase : SwitchCase → Doc
  | .mk t c => .obj [("test", encodeOptExpr t), ("consequent", .arr (encodeProgramPartList c))]

/-- Tagged encoding of a `SwitchCase` list. -/
def encodeSwitchCaseList : List SwitchCase → List Doc
  | [] => []
  | c :: cs => encodeSwitchCase c :: encodeSwitchCaseList cs

/-- Tagged encoding of a `CatchClause`. -/
def encodeCatchClause : CatchClause → Doc
  | .mk p b => .obj [("param", encodeOptPat p), ("body", .arr (encodeProgramPartList b))]

/-- Tagged encoding of an optional `CatchClause`. -/
def encodeOptCatchClause : Option CatchClause → Doc
  | none => .null
  | some c => encodeCatchClause c

/-- Tagged encoding of a `LoopInit`. -/
def encodeLoopInit : LoopInit → Doc
  | .Variable k ds => .obj [("Variable", .arr [encodeVarKind k, .arr (encodeVarDeclList ds)])]
  | .Expr e => .obj [("Expr", encodeExpr e)]

/-- Tagged encoding of an optional `LoopInit`. -/
def encodeOptLoopInit : Option LoopInit → Doc
  | none => .null
  | some i => encodeLoopInit i

/-- Tagged encoding of a `LoopLeft`. -/
def encodeLoopLeft : LoopLeft → Doc
  | .Variable k v => .obj [("Variable", .arr [encodeVarKind k, encodeVarDecl v])]
  | .Pat p => .obj [("Pat", encodePat p)]
  | .Expr e => .obj [("Expr", encodeExpr e)]

/-- Tagged encoding of a `ProgramPart`. -/
def encodeProgramPart : ProgramPart → Doc
  | .Dir d => .obj [("Dir", encodeDir d)]
  | .Decl d => .obj [("Decl", encodeDecl d)]
  | .Stmt s => .obj [("Stmt", encodeStmt s)]

/-- Tagged encoding of a `ProgramPart` list. -/
def encodeProgramPartList : List ProgramPart → List Doc
  | [] => []
  | p :: ps => encodeProgramPart p :: encodeProgramPartList ps

/-- Tagged encoding of an optional `ProgramPart` list. -/
def encodeOptProgramPartList : Option (List ProgramPart) → Doc
  | none => .null
  | some ps => .arr (encodeProgramPartList ps)

/-- Tagged encoding of a `Dir`. -/
def encodeDir : Dir → Doc
  | .mk e d => .obj [("expr", encodeLit e), ("dir", encodeCow d)]

end

/-- Tagged encoding of a `Program`: the module/script tag is the object
key, so the two constructors serialize with distinguishable shapes. -/
def encodeProgram : Program → Doc
  | .Mod ps => .obj [("Mod", .arr (encodeProgramPartList ps))]
  | .Script ps => .obj [("Script", .arr (encodeProgramPartList ps))]

mutual

/-- Fuel-bounded decoder for `Expr`. -/
def decodeExpr : Nat → Doc → Option Expr
  | 0, _ => none
  | _+1, .obj [("Ident", d)] => do pure (.Ident (← decodeIdent d))
  | n+1, .obj [("Lit", d)] => do pure (.Lit (← decodeLit n d))
  | _+1, .str "This" => some .This
  | n+1, .obj [("Array", .arr ds)] => do pure (.Array (← decodeOptExprList n ds))
  | n+1, .obj [("Obj", .arr ds)] => do pure (.Obj (← decodeObjPropList n ds))
  | n+1, .obj [("Func", d)] => do pure (.Func (← decodeFunc n d))
  | n+1, .obj [("Class", d)] => do pure (.Class (← decodeClass n d))
  | n+1, .obj [("Unary", .arr [dop, .boolean pre, da])] => do
    pure (.Unary (← decodeUnaryOp dop) pre (← decodeExpr n da))
  | n+1, .obj [("Update", .arr [dop, .boolean pre, da])] => do
    pure (.Update (← decodeUpdateOp dop) pre (← decodeExpr n da))
  | n+1, .obj [("Binary", .arr [dop, dl, dr])] => do
    pure (.Binary (← decodeBinaryOp dop) (← decodeExpr n dl) (← decodeExpr n dr))
  | n+1, .obj [("Logical", .arr [dop, dl, dr])] => do
    pure (.Logical (← decodeLogicalOp dop) (← decodeExpr n dl) (← decodeExpr n dr))
  | n+1, .obj [("Assign", .arr [dop, dl, dr])] => do
    pure (.Assign (← decodeAssignOp dop) (← decodeAssignLeft n dl) (← decodeExpr n dr))
  | n+1, .obj [("Conditional", .arr [dt, da, dc])] => do
    pure (.Conditional (← decodeExpr n dt) (← decodeExpr n da) (← decodeExpr n dc))
  | n+1, .obj [("Call", .arr [dc, .arr ds])] => do
    pure (.Call (← decodeExpr n dc) (← decodeExprList n ds))
  | n+1, .obj [("New", .arr [dc, .arr ds])] => do
    pure (.New (← decodeExpr n dc) (← decodeExprList n ds))
  | n+1, .obj [("Member", .arr [do_, dp, .boolean c])] => do
    pure (.Member (← decodeExpr n do_) (← decodeExpr n dp) c)
  | n+1, .obj [("Sequence", .arr ds)] => do pure (.Sequence (← decodeExprList n ds))
  | n+1, .obj [("Spread", d)] => do pure (.Spread (← decodeExpr n d))
  | n+1, .obj [("ArrowFunc", .arr [.arr dps, db, .boolean a])] => do
    pure (.ArrowFunc (← decodeFuncArgList n dps) (← decodeArrowFuncBody n db) a)
  | n+1, .obj [("Yield", .arr [da, .boolean dlg])] => do
    pure (.Yield (← decodeOptExpr n da) dlg)
  | n+1, .obj [("TaggedTemplate", .arr [dt, dq])] => do
    pure (.TaggedTemplate (← decodeExpr n dt) (← decodeTemplateLit n dq))
  | _+1, .obj [("MetaProp", .arr [dm, dp])] => do
    pure (.MetaProp (← decodeIdent dm) (← decodeIdent dp))
  | _, _ => none

/-- Fuel-bounded decoder for `Expr` lists. -/
def decodeExprList : Nat → List Doc → Option (List Expr)
  | 0, _ => none
  | _+1, [] => some []
  | n+1, d :: ds => do pure ((← decodeExpr n d) :: (← decodeExprList n ds))

/-- Fuel-bounded decoder for optional `Expr`s. -/
def decodeOptExpr : Nat → Doc → Option (Option Expr)
  | 0, _ => none
  | _+1, .null => some none
  | n+1, d => (decodeExpr n d).map some

/-- Fuel-bounded decoder for lists of optional `Expr`s. -/
def decodeOptExprList : Nat → List Doc → Option (List (Option Expr))
  | 0, _ => none
  | _+1, [] => some []
  | n+1, d :: ds => do pure ((← decodeOptExpr n d) :: (← decodeOptExprList n ds))

/-- Fuel-bounded decoder for `Lit`. -/
def decodeLit : Nat → Doc → Option Lit
  | 0, _ => none
  | _+1, .str "Null" => some .Null
  | _+1, .obj [("Boolean", .boolean b)] => some (.Boolean b)
  | _+1, .obj [("Number", d)] => do pure (.Number (← decodeCow d))
  | _+1, .obj [("String", d)] => do pure (.String (← decodeCow d))
  | _+1, .obj [("RegEx", .arr [dp, df])] => do
    pure (.RegEx (← decodeCow dp) (← decodeCow df))
  | n+1, .obj [("Template", d)] => do pure (.Template (← decodeTemplateLit n d))
  | _, _ => none

/-- Fuel-bounded decoder for optional `Lit`s. -/
def decodeOptLit : Nat → Doc → Option (Option Lit)
  | 0, _ => none
  | _+1, .null => some none
  | n+1, d => (decodeLit n d).map some

/-- Fuel-bounded decoder for `TemplateLit`. -/
def decodeTemplateLit : Nat → Doc → Option TemplateLit
  | 0, _ => none
  | n+1, .obj [("quasis", .arr dqs), ("expressions", .arr des)] => do
    pure (.mk (← decodeCowList dqs) (← decodeExprList n des))
  | _, _ => none

/-- Fuel-bounded decoder for `AssignLeft`. -/
def decodeAssignLeft : Nat → Doc → Option AssignLeft
  | 0, _ => none
  | n+1, .obj [("Pat", d)] => do pure (.Pat (← decodePat n d))
  | n+1, .obj [("Expr", d)] => do pure (.Expr (← decodeExpr n d))
  | _, _ => none

/-- Fuel-bounded decoder for `ObjProp`. -/
def decodeObjProp : Nat → Doc → Option ObjProp
  | 0, _ => none
  | n+1, .obj [("key", dk), ("value", dv), ("kind", dkd),
               ("computed", .boolean c), ("is_static", .boolean s)] => do
    pure (.mk (← decodePropKey n dk) (← decodePropValue n dv) (← decodePropKind dkd) c s)
  | _, _ => none

/-- Fuel-bounded decoder for `ObjProp` lists. -/
def decodeObjPropList : Nat → List Doc → Option (List ObjProp)
  | 0, _ => none
  | _+1, [] => some []
  | n+1, d :: ds => do pure ((← decodeObjProp n d) :: (← decodeObjPropList n ds))

/-- Fuel-bounded decoder for `PropKey`. -/
def decodePropKey : Nat → Doc → Option PropKey
  | 0, _ => none
  | n+1, .obj [("Lit", d)] => do pure (.Lit (← decodeLit n d))
  | n+1, .obj [("Expr", d)] => do pure (.Expr (← decodeExpr n d))
  | n+1, .obj [("Pat", d)] => do pure (.Pat (← decodePat n d))
  | _, _ => none

/-- Fuel-bounded decoder for `PropValue`. -/
def decodePropValue : Nat → Doc → Option PropValue
  | 0, _ => none
  | n+1, .obj [("Expr", d)] => do pure (.Expr (← decodeExpr n d))
  | n+1, .obj [("Pat", d)] => do pure (.Pat (← decodePat n d))
  | _+1, .str "None" => some .None
  | _, _ => none

/-- Fuel-bounded decoder for `Func`. -/
def decodeFunc : Nat → Doc → Option Func
  | 0, _ => none
  | n+1, .obj [("id", did), ("params", .arr dps), ("body", db),
               ("generator", .boolean g), ("is_async", .boolean a)] => do
    pure (.mk (← decodeOptIdent did) (← decodeFuncArgList n dps) (← decodeFuncBody n db) g a)
  | _, _ => none

/-- Fuel-bounded decoder for `FuncArg`. -/
def decodeFuncArg : Nat → Doc → Option FuncArg
  | 0, _ => none
  | n+1, .obj [("Expr", d)] => do pure (.Expr (← decodeExpr n d))
  | n+1, .obj [("Pat", d)] => do pure (.Pat (← decodePat n d))
  | _, _ => none

/-- Fuel-bounded decoder for `FuncArg` lists. -/
def decodeFuncArgList : Nat → List Doc → Option (List FuncArg)
  | 0, _ => none
  | _+1, [] => some []
  | n+1, d :: ds => do pure ((← decodeFuncArg n d) :: (← decodeFuncArgList n ds))

/-- Fuel-bounded decoder for `FuncBody`. -/
def decodeFuncBody : Nat → Doc → Option FuncBody
  | 0, _ => none
  | n+1, .arr ds => do pure (.mk (← decodeProgramPartList n ds))
  | _, _ => none

/-- Fuel-bounded decoder for `ArrowFuncBody`. -/
def decodeArrowFuncBody : Nat → Doc → Option ArrowFuncBody
  | 0, _ => none
  | n+1, .obj [("FuncBody", d)] => do pure (.FuncBody (← decodeFuncBody n d))
  | n+1, .obj [("Expr", d)] => do pure (.Expr (← decodeExpr n d))
  | _, _ => none

/-- Fuel-bounded decoder for `Class`. -/
def decodeClass : Nat → Doc → Option Class
  | 0, _ => none
  | n+1, .obj [("id", did), ("super_class", dsc), ("body", db)] => do
    pure (.mk (← decodeOptIdent did) (← decodeOptExpr n dsc) (← decodeClassBody n db))
  | _, _ => none

/-- Fuel-bounded decoder for `ClassBody`. -/
def decodeClassBody : Nat → Doc → Option ClassBody
  | 0, _ => none
  | n+1, .arr ds => do pure (.mk (← decodeObjPropList n ds))
  | _, _ => none

/-- Fuel-bounded decoder for `Pat`. -/
def decodePat : Nat → Doc → Option Pat
  | 0, _ => none
  | _+1, .obj [("Ident", d)] => do pure (.Ident (← decodeIdent d))
  | n+1, .obj [("Obj", .arr ds)] => do pure (.Obj (← decodeObjPatPartList n ds))
  | n+1, .obj [("Array", .arr ds)] => do pure (.Array (← decodeOptArrayPatPartList n ds))
  | n+1, .obj [("RestElement", d)] => do pure (.RestElement (← decodePat n d))
  | n+1, .obj [("Assign", d)] => do pure (.Assign (← decodeAssignPat n d))
  | _, _ => none

/-- Fuel-bounded decoder for optional `Pat`s. -/
def decodeOptPat : Nat → Doc → Option (Option Pat)
  | 0, _ => none
  | _+1, .null => some none
  | n+1, d => (decodePat n d).map some

/-- Fuel-bounded decoder for `ObjPatPart` lists. -/
def decodeObjPatPartList : Nat → List Doc → Option (List ObjPatPart)
  | 0, _ => none
  | _+1, [] => some []
  | n+1, d :: ds => do pure ((← decodeObjPatPart n d) :: (← decodeObjPatPartList n ds))

/-- Fuel-bounded decoder for `ObjPatPart`. -/
def decodeObjPatPart : Nat → Doc → Option ObjPatPart
  | 0, _ => none
  | n+1, .obj [("Assign", d)] => do pure (.Assign (← decodeObjProp n d))
  | n+1, .obj [("Rest", d)] => do pure (.Rest (← decodePat n d))
  | _, _ => none

/-- Fuel-bounded decoder for optional `ArrayPatPart`s: `null` is a hole. -/
def decodeOptArrayPatPart : Nat → Doc → Option (Option ArrayPatPart)
  | 0, _ => none
  | _+1, .null => some none
  | n+1, d => (decodeArrayPatPart n d).map some

/-- Fuel-bounded decoder for lists of optional `ArrayPatPart`s. -/
def decodeOptArrayPatPartList : Nat → List Doc → Option (List (Option ArrayPatPart))
  | 0, _ => none
  | _+1, [] => some []
  | n+1, d :: ds => do
    pure ((← decodeOptArrayPatPart n d) :: (← decodeOptArrayPatPartList n ds))

/-- Fuel-bounded decoder for `ArrayPatPart`. -/
def decodeArrayPatPart : Nat → Doc → Option ArrayPatPart
  | 0, _ => none
  | n+1, .obj [("Pat", d)] => do pure (.Pat (← decodePat n d))
  | n+1, .obj [("Expr", d)] => do pure (.Expr (← decodeExpr n d))
  | _, _ => none

/-- Fuel-bounded decoder for `AssignPat`. -/
def decodeAssignPat : Nat → Doc → Option AssignPat
  | 0, _ => none
  | n+1, .obj [("left", dl), ("right", dr)] => do
    pure (.mk (← decodePat n dl) (← decodeExpr n dr))
  | _, _ => none

/-- Fuel-bounded decoder for `VarDecl`. -/
def decodeVarDecl : Nat → Doc → Option VarDecl
  | 0, _ => none
  | n+1, .obj [("id", did), ("init", dinit)] => do
    pure (.mk (← decodePat n did) (← decodeOptExpr n dinit))
  | _, _ => none

/-- Fuel-bounded decoder for `VarDecl` lists. -/
def decodeVarDeclList : Nat → List Doc → Option (List VarDecl)
  | 0, _ => none
  | _+1, [] => some []
  | n+1, d :: ds => do pure ((← decodeVarDecl n d) :: (← decodeVarDeclList n ds))

/-- Fuel-bounded decoder for `Decl`. -/
def decodeDecl : Nat → Doc → Option Decl
  | 0, _ => none
  | n+1, .obj [("Var", .arr [dk, .arr dds])] => do
    pure (.Var (← decodeVarKind dk) (← decodeVarDeclList n dds))
  | n+1, .obj [("Func", d)] => do pure (.Func (← decodeFunc n d))
  | n+1, .obj [("Class", d)] => do pure (.Class (← decodeClass n d))
  | n+1, .obj [("Import", d)] => do pure (.Import (← decodeModImport n d))
  | n+1, .obj [("Export", d)] => do pure (.Export (← decodeModExport n d))
  | _, _ => none

/-- Fuel-bounded decoder for `ModImport`. -/
def decodeModImport : Nat → Doc → Option ModImport
  | 0, _ => none
  | n+1, .obj [("specifiers", .arr dss), ("source", dsrc)] => do
    pure (.mk (← decodeImportSpecifierList n dss) (← decodeLit n dsrc))
  | _, _ => none

/-- Fuel-bounded decoder for `ImportSpecifier`. -/
def decodeImportSpecifier : Nat → Doc → Option ImportSpecifier
  | 0, _ => none
  | _+1, .obj [("Default", d)] => do pure (.Default (← decodeIdent d))
  | _+1, .obj [("Namespace", d)] => do pure (.Namespace (← decodeIdent d))
  | _+1, .obj [("Normal", .arr ds)] => do pure (.Normal (← decodeNormalImportSpecList ds))
  | _, _ => none

/-- Fuel-bounded decoder for `ImportSpecifier` lists. -/
def decodeImportSpecifierList : Nat → List Doc → Option (List ImportSpecifier)
  | 0, _ => none
  | _+1, [] => some []
  | n+1, d :: ds => do
    pure ((← decodeImportSpecifier n d) :: (← decodeImportSpecifierList n ds))

/-- Fuel-bounded decoder for `ModExport`. -/
def decodeModExport : Nat → Doc → Option ModExport
  | 0, _ => none
  | n+1, .obj [("All", d)] => do pure (.All (← decodeLit n d))
  | n+1, .obj [("Default", d)] => do pure (.Default (← decodeDefaultExportDecl n d))
  | n+1, .obj [("Named", d)] => do pure (.Named (← decodeNamedExportDecl n d))
  | _, _ => none

/-- Fuel-bounded decoder for `DefaultExportDecl`. -/
def decodeDefaultExportDecl : Nat → Doc → Option DefaultExportDecl
  | 0, _ => none
  | n+1, .obj [("Decl", d)] => do pure (.Decl (← decodeDecl n d))
  | n+1, .obj [("Expr", d)] => do pure (.Expr (← decodeExpr n d))
  | _, _ => none

/-- Fuel-bounded decoder for `NamedExportDecl`. -/
def decodeNamedExportDecl : Nat → Doc → Option NamedExportDecl
  | 0, _ => none
  | n+1, .obj [("Decl", d)] => do pure (.Decl (← decodeDecl n d))
  | n+1, .obj [("Specifier", .arr [.arr dss, dsrc])] => do
    pure (.Specifier (← decodeExportSpecifierList dss) (← decodeOptLit n dsrc))
  | _, _ => none

/-- Fuel-bounded decoder for `Stmt`. -/
def decodeStmt : Nat → Doc → Option Stmt
  | 0, _ => none
  | n+1, .obj [("Expr", d)] => do pure (.Expr (← decodeExpr n d))
  | n+1, .obj [("Block", .arr ds)] => do pure (.Block (← decodeProgramPartList n ds))
  | _+1, .str "Empty" => some .Empty
  | _+1, .str "Debugger" => some .Debugger
  | n+1, .obj [("With", .arr [do_, db])] => do
    pure (.With (← decodeExpr n do_) (← decodeStmt n db))
  | n+1, .obj [("Return", d)] => do pure (.Return (← decodeOptExpr n d))
  | n+1, .obj [("Labeled", .arr [dl, db])] => do
    pure (.Labeled (← decodeIdent dl) (← decodeStmt n db))
  | _+1, .obj [("Break", d)] => do pure (.Break (← decodeOptIdent d))
  | _+1, .obj [("Continue", d)] => do pure (.Continue (← decodeOptIdent d))
  | n+1, .obj [("If", .arr [dt, dc, da])] => do
    pure (.If (← decodeExpr n dt) (← decodeStmt n dc) (← decodeOptStmt n da))
  | n+1, .obj [("Switch", .arr [dd, .arr dcs])] => do
    pure (.Switch (← decodeExpr n dd) (← decodeSwitchCaseList n dcs))
  | n+1, .obj [("Throw", d)] => do pure (.Throw (← decodeExpr n d))
  | n+1, .obj [("Try", .arr [.arr db, dh, df])] => do
    pure (.Try (← decodeProgramPartList n db) (← decodeOptCatchClause n dh)
      (← decodeOptProgramPartList n df))
  | n+1, .obj [("While", .arr [dt, db])] => do
    pure (.While (← decodeExpr n dt) (← decodeStmt n db))
  | n+1, .obj [("DoWhile", .arr [db, dt])] => do
    pure (.DoWhile (← decodeStmt n db) (← decodeExpr n dt))
  | n+1, .obj [("For", .arr [di, dt, du, db])] => do
    pure (.For (← decodeOptLoopInit n di) (← decodeOptExpr n dt)
      (← decodeOptExpr n du) (← decodeStmt n db))
  | n+1, .obj [("ForIn", .arr [dl, dr, db])] => do
    pure (.ForIn (← decodeLoopLeft n dl) (← decodeExpr n dr) (← decodeStmt n db))
  | n+1, .obj [("ForOf", .arr [dl, dr, db])] => do
    pure (.ForOf (← decodeLoopLeft n dl) (← decodeExpr n dr) (← decodeStmt n db))
  | n+1, .obj [("Var", .arr dds)] => do pure (.Var (← decodeVarDeclList n dds))
  | _, _ => none

/-- Fuel-bounded decoder for optional `Stmt`s. -/
def decodeOptStmt : Nat → Doc → Option (Option Stmt)
  | 0, _ => none
  | _+1, .null => some none
  | n+1, d => (decodeStmt n d).map some

/-- Fuel-bounded decoder for `SwitchCase`. -/
def decodeSwitchCase : Nat → Doc → Option SwitchCase
  | 0, _ => none
  | n+1, .obj [("test", dt), ("consequent", .arr dc)] => do
    pure (.mk (← decodeOptExpr n dt) (← decodeProgramPartList n dc))
  | _, _ => none

/-- Fuel-bounded decoder for `SwitchCase` lists. -/
def decodeSwitchCaseList : Nat → List Doc → Option (List SwitchCase)
  | 0, _ => none
  | _+1, [] => some []
  | n+1, d :: ds => do pure ((← decodeSwitchCase n d) :: (← decodeSwitchCaseList n ds))

/-- Fuel-bounded decoder for `CatchClause`. -/
def decodeCatchClause : Nat → Doc → Option CatchClause
  | 0, _ => none
  | n+1, .obj [("param", dp), ("body", .arr db)] => do
    pure (.mk (← decodeOptPat n dp) (← decodeProgramPartList n db))
  | _, _ => none

/-- Fuel-bounded decoder for optional `CatchClause`s. -/
def decodeOptCatchClause : Nat → Doc → Option (Option CatchClause)
  | 0, _ => none
  | _+1, .null => some none
  | n+1, d => (decodeCatchClause n d).map some

/-- Fuel-bounded decoder for `LoopInit`. -/
def decodeLoopInit : Nat → Doc → Option LoopInit
  | 0, _ => none
  | n+1, .obj [("Variable", .arr [dk, .arr dds])] => do
    pure (.Variable (← decodeVarKind dk) (← decodeVarDeclList n dds))
  | n+1, .obj [("Expr", d)] => do pure (.Expr (← decodeExpr n d))
  | _, _ => none

/-- Fuel-bounded decoder for optional `LoopInit`s. -/
def decodeOptLoopInit : Nat → Doc → Option (Option LoopInit)
  | 0, _ => none
  | _+1, .null => some none
  | n+1, d => (decodeLoopInit n d).map some

/-- Fuel-bounded decoder for `LoopLeft`. -/
def decodeLoopLeft : Nat → Doc → Option LoopLeft
  | 0, _ => none
  | n+1, .obj [("Variable", .arr [dk, dv])] => do
    pure (.Variable (← decodeVarKind dk) (← decodeVarDecl n dv))
  | n+1, .obj [("Pat", d)] => do pure (.Pat (← decodePat n d))
  | n+1, .obj [("Expr", d)] => do pure (.Expr (← decodeExpr n d))
  | _, _ => none

/-- Fuel-bounded decoder for `ProgramPart`. -/
def decodeProgramPart : Nat → Doc → Option ProgramPart
  | 0, _ => none
  | n+1, .obj [("Dir", d)] => do pure (.Dir (← decodeDir n d))
  | n+1, .obj [("Decl", d)] => do pure (.Decl (← decodeDecl n d))
  | n+1, .obj [("Stmt", d)] => do pure (.Stmt (← decodeStmt n d))
  | _, _ => none

/-- Fuel-bounded decoder for `ProgramPart` lists. -/
def decodeProgramPartList : Nat → List Doc → Option (List ProgramPart)
  | 0, _ => none
  | _+1, [] => some []
  | n+1, d :: ds => do pure ((← decodeProgramPart n d) :: (← decodeProgramPartList n ds))

/-- Fuel-bounded decoder for optional `ProgramPart` lists. -/
def decodeOptProgramPartList : Nat → Doc → Option (Option (List ProgramPart))
  | 0, _ => none
  | _+1, .null => some none
  | n+1, .arr ds => (decodeProgramPartList n ds).map some
  | _, _ => none

/-- Fuel-bounded decoder for `Dir`. -/
def decodeDir : Nat → Doc → Option Dir
  | 0, _ => none
  | n+1, .obj [("expr", de), ("dir", dd)] => do
    pure (.mk (← decodeLit n de) (← decodeCow dd))
  | _, _ => none

end

/-- Fuel-bounded decoder for `Program`. -/
def decodeProgram : Nat → Doc → Option Program
  | 0, _ => none
  | n+1, .obj [("Mod", .arr ds)] => do pure (.Mod (← decodeProgramPartList n ds))
  | n+1, .obj [("Script", .arr ds)] => do pure (.Script (← decodeProgramPartList n ds))
  | _, _ => none

/-!
Small lemmas: idempotence of the owned normal form on leaves, round-trip
of the leaf codecs, and discrimination lemmas used for the `Option`
decoders.
-/

/-- Taking the owned form twice is the same as once. -/
theorem Cow.toOwned_idem (c : Cow) : c.toOwned.toOwned = c.toOwned := rfl

/-- `Ident.norm` is idempotent. -/
theorem Ident.norm_idem (i : Ident) : i.norm.norm = i.norm := rfl

/-- `normOptIdent` is idempotent. -/
theorem normOptIdent_idem (o : Option Ident) :
    normOptIdent (normOptIdent o) = normOptIdent o := by
  cases o <;> rfl

/-- `normCowList` is idempotent. -/
theorem normCowList_idem (cs : List Cow) :
    normCowList (normCowList cs) = normCowList cs := by
  induction cs with
  | nil => rfl
  | cons c cs ih => simp only [normCowList]; rw [Cow.toOwned_idem, ih]

/-- `NormalImportSpec.norm` is idempotent. -/
theorem normalImportSpecNorm_idem (s : NormalImportSpec) : s.norm.norm = s.norm := by
  cases s; rfl

/-- `normNormalImportSpecList` is idempotent. -/
theorem normNormalImportSpecList_idem (ss : List NormalImportSpec) :
    normNormalImportSpecList (normNormalImportSpecList ss) = normNormalImportSpecList ss := by
  induction ss with
  | nil => rfl
  | cons s ss ih => simp only [normNormalImportSpecList]; rw [normalImportSpecNorm_idem, ih]

/-- `ExportSpecifier.norm` is idempotent. -/
theorem exportSpecifierNorm_idem (s : ExportSpecifier) : s.norm.norm = s.norm := by
  cases s; rfl

/-- `normExportSpecifierList` is idempotent. -/
theorem normExportSpecifierList_idem (ss : List ExportSpecifier) :
    normExportSpecifierList (normExportSpecifierList ss) = normExportSpecifierList ss := by
  induction ss with
  | nil => rfl
  | cons s ss ih => simp only [normExportSpecifierList]; rw [exportSpecifierNorm_idem, ih]

/-- Round-trip of the `Cow` codec: the contents survive, owned. -/
theorem decodeCow_encodeCow (c : Cow) : decodeCow (encodeCow c) = some c.toOwned := rfl

/-- Round-trip of the `Cow` list codec. -/
theorem decodeCowList_encodeCowList (cs : List Cow) :
    decodeCowList (encodeCowList cs) = some (normCowList cs) := by
  induction cs with
  | nil => rfl
  | cons c cs ih =>
    simp only [encodeCowList, decodeCowList, normCowList]
    rw [decodeCow_encodeCow, ih]
    all_goals rfl

/-- Round-trip of the `SourcePos` codec. -/
theorem decodeSourcePos_enc (p : SourcePos) : decodeSourcePos (encodeSourcePos p) = some p := rfl

/-- Round-trip of the `SourceSpan` codec. -/
theorem decodeSourceSpan_enc (s : SourceSpan) : decodeSourceSpan (encodeSourceSpan s) = some s := rfl

/-- Round-trip of the `Ident` codec: the name comes back owned. -/
theorem decodeIdent_encodeIdent (i : Ident) : decodeIdent (encodeIdent i) = some i.norm := rfl

/-- Round-trip of the optional-`Ident` codec. -/
theorem decodeOptIdent_enc (o : Option Ident) :
    decodeOptIdent (encodeOptIdent o) = some (normOptIdent o) := by
  cases o <;> rfl

/-- Round-trip of the `VarKind` codec. -/
theorem decodeVarKind_enc (k : VarKind) : decodeVarKind (encodeVarKind k) = some k := by
  cases k <;> rfl

/-- Round-trip of the `AssignOp` codec. -/
theorem decodeAssignOp_enc (k : AssignOp) : decodeAssignOp (encodeAssignOp k) = some k := by
  cases k <;> rfl

/-- Round-trip of the `LogicalOp` codec. -/
theorem decodeLogicalOp_enc (k : LogicalOp) : decodeLogicalOp (encodeLogicalOp k) = some k := by
  cases k <;> rfl

/-- Round-trip of the `BinaryOp` codec. -/
theorem decodeBinaryOp_enc (k : BinaryOp) : decodeBinaryOp (encodeBinaryOp k) = some k := by
  cases k <;> rfl

/-- Round-trip of the `UpdateOp` codec. -/
theorem decodeUpdateOp_enc (k : UpdateOp) : decodeUpdateOp (encodeUpdateOp k) = some k := by
  cases k <;> rfl

/-- Round-trip of the `UnaryOp` codec. -/
theorem decodeUnaryOp_enc (k : UnaryOp) : decodeUnaryOp (encodeUnaryOp k) = some k := by
  cases k <;> rfl

/-- Round-trip of the `PropKind` codec. -/
theorem decodePropKind_enc (k : PropKind) : decodePropKind (encodePropKind k) = some k := by
  cases k <;> rfl

/-- Round-trip of the `NormalImportSpec` codec. -/
theorem decodeNormalImportSpec_enc (s : NormalImportSpec) :
    decodeNormalImportSpec (encodeNormalImportSpec s) = some s.norm := by
  cases s; rfl

/-- Round-trip of the `NormalImportSpec` list codec. -/
theorem decodeNormalImportSpecList_enc (ss : List NormalImportSpec) :
    decodeNormalImportSpecList (encodeNormalImportSpecList ss)
      = some (normNormalImportSpecList ss) := by
  induction ss with
  | nil => rfl
  | cons s ss ih =>
    simp only [encodeNormalImportSpecList, decodeNormalImportSpecList, normNormalImportSpecList]
    rw [decodeNormalImportSpec_enc, ih]
    all_goals rfl

/-- Round-trip of the `ExportSpecifier` codec. -/
theorem decodeExportSpecifier_enc (s : ExportSpecifier) :
    decodeExportSpecifier (encodeExportSpecifier s) = some s.norm := by
  cases s; rfl

/-- Round-trip of the `ExportSpecifier` list codec. -/
theorem decodeExportSpecifierList_enc (ss : List ExportSpecifier) :
    decodeExportSpecifierList (encodeExportSpecifierList ss)
      = some (normExportSpecifierList ss) := by
  induction ss with
  | nil => rfl
  | cons s ss ih =>
    simp only [encodeExportSpecifierList, decodeExportSpecifierList, normExportSpecifierList]
    rw [decodeExportSpecifier_enc, ih]
    all_goals rfl

/-- No `Expr` encodes to `null`. -/
theorem encodeExpr_ne_null (e : Expr) : encodeExpr e ≠ Doc.null := by
  cases e <;> simp [encodeExpr]

/-- No `Lit` encodes to `null`. -/
theorem encodeLit_ne_null (l : Lit) : encodeLit l ≠ Doc.null := by
  cases l <;> simp [encodeLit]

/-- No `Pat` encodes to `null`. -/
theorem encodePat_ne_null (p : Pat) : encodePat p ≠ Doc.null := by
  cases p <;> simp [encodePat]

/-- No `Stmt` encodes to `null`. -/
theorem encodeStmt_ne_null (s : Stmt) : encodeStmt s ≠ Doc.null := by
  cases s <;> simp [encodeStmt]

/-- No `LoopInit` encodes to `null`. -/
theorem encodeLoopInit_ne_null (i : LoopInit) : encodeLoopInit i ≠ Doc.null := by
  cases i <;> simp [encodeLoopInit]

/-- No `CatchClause` encodes to `null`. -/
theorem encodeCatchClause_ne_null (c : CatchClause) : encodeCatchClause c ≠ Doc.null := by
  cases c <;> simp [encodeCatchClause]

/-- No `ArrayPatPart` encodes to `null`. -/
theorem encodeArrayPatPart_ne_null (p : ArrayPatPart) : encodeArrayPatPart p ≠ Doc.null := by
  cases p <;> simp [encodeArrayPatPart]

/-- On non-`null` input, the optional-`Expr` decoder defers to the `Expr`
decoder. -/
theorem decodeOptExpr_not_null (n : Nat) (d : Doc) (h : d ≠ Doc.null) :
    decodeOptExpr (n + 1) d = (decodeExpr n d).map some := by
  cases d with
  | null => exact absurd rfl h
  | boolean b => rfl
  | num m => rfl
  | str s => rfl
  | arr ds => rfl
  | obj fs => rfl

/-- On non-`null` input, the optional-`Lit` decoder defers to the `Lit`
decoder. -/
theorem decodeOptLit_not_null (n : Nat) (d : Doc) (h : d ≠ Doc.null) :
    decodeOptLit (n + 1) d = (decodeLit n d).map some := by
  cases d with
  | null => exact absurd rfl h
  | boolean b => rfl
  | num m => rfl
  | str s => rfl
  | arr ds => rfl
  | obj fs => rfl

/-- On non-`null` input, the optional-`Pat` decoder defers to the `Pat`
decoder. -/
theorem decodeOptPat_not_null (n : Nat) (d : Doc) (h : d ≠ Doc.null) :
    decodeOptPat (n + 1) d = (decodePat n d).map some := by
  cases d with
  | null => exact absurd rfl h
  | boolean b => rfl
  | num m => rfl
  | str s => rfl
  | arr ds => rfl
  | obj fs => rfl

/-- On non-`null` input, the optional-`Stmt` decoder defers to the `Stmt`
decoder. -/
theorem decodeOptStmt_not_null (n : Nat) (d : Doc) (h : d ≠ Doc.null) :
    decodeOptStmt (n + 1) d = (decodeStmt n d).map some := by
  cases d with
  | null => exact absurd rfl h
  | boolean b => rfl
  | num m => rfl
  | str s => rfl
  | arr ds => rfl
  | obj fs => rfl

/-- On non-`null` input, the optional-`LoopInit` decoder defers to the
`LoopInit` decoder. -/
theorem decodeOptLoopInit_not_null (n : Nat) (d : Doc) (h : d ≠ Doc.null) :
    decodeOptLoopInit (n + 1) d = (decodeLoopInit n d).map some := by
  cases d with
  | null => exact absurd rfl h
  | boolean b => rfl
  | num m => rfl
  | str s => rfl
  | arr ds => rfl
  | obj fs => rfl

/-- On non-`null` input, the optional-`CatchClause` decoder defers to the
`CatchClause` decoder. -/
theorem decodeOptCatchClause_not_null (n : Nat) (d : Doc) (h : d ≠ Doc.null) :
    decodeOptCatchClause (n + 1) d = (decodeCatchClause n d).map some := by
  cases d with
  | null => exact absurd rfl h
  | boolean b => rfl
  | num m => rfl
  | str s => rfl
  | arr ds => rfl
  | obj fs => rfl

/-- On non-`null` input, the optional-`ArrayPatPart` decoder defers to the
`ArrayPatPart` decoder. -/
theorem decodeOptArrayPatPart_not_null (n : Nat) (d : Doc) (h : d ≠ Doc.null) :
    decodeOptArrayPatPart (n + 1) d = (decodeArrayPatPart n d).map some := by
  cases d with
  | null => exact absurd rfl h
  | boolean b => rfl
  | num m => rfl
  | str s => rfl
  | arr ds => rfl
  | obj fs => rfl

/-- Bounded idempotence of the owned normal form, for every node family at once. -/
theorem normIdemAux : ∀ n : Nat,
    (∀ x : Expr, sizeOf x ≤ n → normExpr (normExpr x) = normExpr x) ∧
    (∀ x : List Expr, sizeOf x ≤ n → normExprList (normExprList x) = normExprList x) ∧
    (∀ x : Option Expr, sizeOf x ≤ n → normOptExpr (normOptExpr x) = normOptExpr x) ∧
    (∀ x : List (Option Expr), sizeOf x ≤ n → normOptExprList (normOptExprList x) = normOptExprList x) ∧
    (∀ x : Lit, sizeOf x ≤ n → normLit (normLit x) = normLit x) ∧
    (∀ x : Option Lit, sizeOf x ≤ n → normOptLit (normOptLit x) = normOptLit x) ∧
    (∀ x : TemplateLit, sizeOf x ≤ n → normTemplateLit (normTemplateLit x) = normTemplateLit x) ∧
    (∀ x : AssignLeft, sizeOf x ≤ n → normAssignLeft (normAssignLeft x) = normAssignLeft x) ∧
    (∀ x : ObjProp, sizeOf x ≤ n → normObjProp (normObjProp x) = normObjProp x) ∧
    (∀ x : List ObjProp, sizeOf x ≤ n → normObjPropList (normObjPropList x) = normObjPropList x) ∧
    (∀ x : PropKey, sizeOf x ≤ n → normPropKey (normPropKey x) = normPropKey x) ∧
    (∀ x : PropValue, sizeOf x ≤ n → normPropValue (normPropValue x) = normPropValue x) ∧
    (∀ x : Func, sizeOf x ≤ n → normFunc (normFunc x) = normFunc x) ∧
    (∀ x : FuncArg, sizeOf x ≤ n → normFuncArg (normFuncArg x) = normFuncArg x) ∧
    (∀ x : List FuncArg, sizeOf x ≤ n → normFuncArgList (normFuncArgList x) = normFuncArgList x) ∧
    (∀ x : FuncBody, sizeOf x ≤ n → normFuncBody (normFuncBody x) = normFuncBody x) ∧
    (∀ x : ArrowFuncBody, sizeOf x ≤ n → normArrowFuncBody (normArrowFuncBody x) = normArrowFuncBody x) ∧
    (∀ x : Class, sizeOf x ≤ n → normClass (normClass x) = normClass x) ∧
    (∀ x : ClassBody, sizeOf x ≤ n → normClassBody (normClassBody x) = normClassBody x) ∧
    (∀ x : Pat, sizeOf x ≤ n → normPat (normPat x) = normPat x) ∧
    (∀ x : Option Pat, sizeOf x ≤ n → normOptPat (normOptPat x) = normOptPat x) ∧
    (∀ x : List ObjPatPart, sizeOf x ≤ n → normObjPatPartList (normObjPatPartList x) = normObjPatPartList x) ∧
    (∀ x : ObjPatPart, sizeOf x ≤ n → normObjPatPart (normObjPatPart x) = normObjPatPart x) ∧
    (∀ x : Option ArrayPatPart, sizeOf x ≤ n → normOptArrayPatPart (normOptArrayPatPart x) = normOptArrayPatPart x) ∧
    (∀ x : List (Option ArrayPatPart), sizeOf x ≤ n → normOptArrayPatPartList (normOptArrayPatPartList x) = normOptArrayPatPartList x) ∧
    (∀ x : ArrayPatPart, sizeOf x ≤ n → normArrayPatPart (normArrayPatPart x) = normArrayPatPart x) ∧
    (∀ x : AssignPat, sizeOf x ≤ n → normAssignPat (normAssignPat x) = normAssignPat x) ∧
    (∀ x : VarDecl, sizeOf x ≤ n → normVarDecl (normVarDecl x) = normVarDecl x) ∧
    (∀ x : List VarDecl, sizeOf x ≤ n → normVarDeclList (normVarDeclList x) = normVarDeclList x) ∧
    (∀ x : Decl, sizeOf x ≤ n → normDecl (normDecl x) = normDecl x) ∧
    (∀ x : ModImport, sizeOf x ≤ n → normModImport (normModImport x) = normModImport x) ∧
    (∀ x : ImportSpecifier, sizeOf x ≤ n → normImportSpecifier (normImportSpecifier x) = normImportSpecifier x) ∧
    (∀ x : List ImportSpecifier, sizeOf x ≤ n → normImportSpecifierList (normImportSpecifierList x) = normImportSpecifierList x) ∧
    (∀ x : ModExport, sizeOf x ≤ n → normModExport (normModExport x) = normModExport x) ∧
    (∀ x : DefaultExportDecl, sizeOf x ≤ n → normDefaultExportDecl (normDefaultExportDecl x) = normDefaultExportDecl x) ∧
    (∀ x : NamedExportDecl, sizeOf x ≤ n → normNamedExportDecl (normNamedExportDecl x) = normNamedExportDecl x) ∧
    (∀ x : Stmt, sizeOf x ≤ n → normStmt (normStmt x) = normStmt x) ∧
    (∀ x : Option Stmt, sizeOf x ≤ n → normOptStmt (normOptStmt x) = normOptStmt x) ∧
    (∀ x : SwitchCase, sizeOf x ≤ n → normSwitchCase (normSwitchCase x) = normSwitchCase x) ∧
    (∀ x : List SwitchCase, sizeOf x ≤ n → normSwitchCaseList (normSwitchCaseList x) = normSwitchCaseList x) ∧
    (∀ x : CatchClause, sizeOf x ≤ n → normCatchClause (normCatchClause x) = normCatchClause x) ∧
    (∀ x : Option CatchClause, sizeOf x ≤ n → normOptCatchClause (normOptCatchClause x) = normOptCatchClause x) ∧
    (∀ x : LoopInit, sizeOf x ≤ n → normLoopInit (normLoopInit x) = normLoopInit x) ∧
    (∀ x : Option LoopInit, sizeOf x ≤ n → normOptLoopInit (normOptLoopInit x) = normOptLoopInit x) ∧
    (∀ x : LoopLeft, sizeOf x ≤ n → normLoopLeft (normLoopLeft x) = normLoopLeft x) ∧
    (∀ x : ProgramPart, sizeOf x ≤ n → normProgramPart (normProgramPart x) = normProgramPart x) ∧
    (∀ x : List ProgramPart, sizeOf x ≤ n → normProgramPartList (normProgramPartList x) = normProgramPartList x) ∧
    (∀ x : Option (List ProgramPart), sizeOf x ≤ n → normOptProgramPartList (normOptProgramPartList x) = normOptProgramPartList x) ∧
    (∀ x : Dir, sizeOf x ≤ n → normDir (normDir x) = normDir x) := by
  intro n
  induction n with
  | zero =>
    refine ⟨?_, ?_, ?_, ?_, ?_, ?_, ?_, ?_, ?_, ?_, ?_, ?_, ?_, ?_, ?_, ?_, ?_, ?_, ?_, ?_, ?_, ?_, ?_, ?_, ?_, ?_, ?_, ?_, ?_, ?_, ?_, ?_, ?_, ?_, ?_, ?_, ?_, ?_, ?_, ?_, ?_, ?_, ?_, ?_, ?_, ?_, ?_, ?_, ?_⟩
    all_goals intro x h
    all_goals (cases x <;> simp at h <;> omega)
  | succ n ih =>
    obtain ⟨ihE, ihEL, ihOE, ihOEL, ihL, ihOL, ihTL, ihALf, ihOP, ihOPL, ihPK, ihPV, ihF, ihFA, ihFAL, ihFB, ihAFB, ihCl, ihCB, ihP, ihOPt, ihOPPl, ihOPPart, ihOAPP, ihOAPPL, ihAPP, ihAPat, ihVD, ihVDL, ihD, ihMI, ihIS, ihISL, ihME, ihDED, ihNED, ihS, ihOS, ihSCase, ihSCL, ihCC, ihOCC, ihLI, ihOLI, ihLL, ihPPart, ihPPL, ihOPPL2, ihDIR⟩ := ih
    refine ⟨?_, ?_, ?_, ?_, ?_, ?_, ?_, ?_, ?_, ?_, ?_, ?_, ?_, ?_, ?_, ?_, ?_, ?_, ?_, ?_, ?_, ?_, ?_, ?_, ?_, ?_, ?_, ?_, ?_, ?_, ?_, ?_, ?_, ?_, ?_, ?_, ?_, ?_, ?_, ?_, ?_, ?_, ?_, ?_, ?_, ?_, ?_, ?_, ?_⟩
    · intro x h
      cases x with
      | Ident z1 => rfl
      | Lit z1 =>
        simp only [normExpr]
        rw [ihL z1 (by simp at h; omega)]
        all_goals rfl
      | This => rfl
      | Array z1 =>
        simp only [normExpr]
        rw [ihOEL z1 (by simp at h; omega)]
        all_goals rfl
      | Obj z1 =>
        simp only [normExpr]
        rw [ihOPL z1 (by simp at h; omega)]
        all_goals rfl
      | Func z1 =>
        simp only [normExpr]
        rw [ihF z1 (by simp at h; omega)]
        all_goals rfl
      | Class z1 =>
        simp only [normExpr]
        rw [ihCl z1 (by simp at h; omega)]
        all_goals rfl
      | Unary z1 z2 z3 =>
        simp only [normExpr]
        rw [ihE z3 (by simp at h; omega)]
        all_goals rfl
      | Update z1 z2 z3 =>
        simp only [normExpr]
        rw [ihE z3 (by simp at h; omega)]
        all_goals rfl
      | Binary z1 z2 z3 =>
        simp only [normExpr]
        rw [ihE z2 (by simp at h; omega), ihE z3 (by simp at h; omega)]
        all_goals rfl
      | Logical z1 z2 z3 =>
        simp only [normExpr]
        rw [ihE z2 (by simp at h; omega), ihE z3 (by simp at h; omega)]
        all_goals rfl
      | Assign z1 z2 z3 =>
        simp only [normExpr]
        rw [ihALf z2 (by simp at h; omega), ihE z3 (by simp at h; omega)]
        all_goals rfl
      | Conditional z1 z2 z3 =>
        simp only [normExpr]
        rw [ihE z1 (by simp at h; omega), ihE z2 (by simp at h; omega), ihE z3 (by simp at h; omega)]
        all_goals rfl
      | Call z1 z2 =>
        simp only [normExpr]
        rw [ihE z1 (by simp at h; omega), ihEL z2 (by simp at h; omega)]
        all_goals rfl
      | New z1 z2 =>
        simp only [normExpr]
        rw [ihE z1 (by simp at h; omega), ihEL z2 (by simp at h; omega)]
        all_goals rfl
      | Member z1 z2 z3 =>
        simp only [normExpr]
        rw [ihE z1 (by simp at h; omega), ihE z2 (by simp at h; omega)]
        all_goals rfl
      | Sequence z1 =>
        simp only [normExpr]
        rw [ihEL z1 (by simp at h; omega)]
        all_goals rfl
      | Spread z1 =>
        simp only [normExpr]
        rw [ihE z1 (by simp at h; omega)]
        all_goals rfl
      | ArrowFunc z1 z2 z3 =>
        simp only [normExpr]
        rw [ihFAL z1 (by simp at h; omega), ihAFB z2 (by simp at h; omega)]
        all_goals rfl
      | Yield z1 z2 =>
        simp only [normExpr]
        rw [ihOE z1 (by simp at h; omega)]
        all_goals rfl
      | TaggedTemplate z1 z2 =>
        simp only [normExpr]
        rw [ihE z1 (by simp at h; omega), ihTL z2 (by simp at h; omega)]
        all_goals rfl
      | MetaProp z1 z2 => rfl
    · intro x h
      cases x with
      | nil => rfl
      | cons z zs =>
        simp only [normExprList]
        rw [ihE z (by simp at h; omega), ihEL zs (by simp at h; omega)]
        all_goals rfl
    · intro x h
      cases x with
      | none => rfl
      | some z =>
        simp only [normOptExpr]
        rw [ihE z (by simp at h; omega)]
        all_goals rfl
    · intro x h
      cases x with
      | nil => rfl
      | cons z zs =>
        simp only [normOptExprList]
        rw [ihOE z (by simp at h; omega), ihOEL zs (by simp at h; omega)]
        all_goals rfl
    · intro x h
      cases x with
      | Null => rfl
      | Boolean z1 => rfl
      | Number z1 => rfl
      | String z1 => rfl
      | RegEx z1 z2 => rfl
      | Template z1 =>
        simp only [normLit]
        rw [ihTL z1 (by simp at h; omega)]
        all_goals rfl
    · intro x h
      cases x with
      | none => rfl
      | some z =>
        simp only [normOptLit]
        rw [ihL z (by simp at h; omega)]
        all_goals rfl
    · intro x h
      cases x with
      | mk z1 z2 =>
        simp only [normTemplateLit]
        rw [normCowList_idem z1, ihEL z2 (by simp at h; omega)]
        all_goals rfl
    · intro x h
      cases x with
      | Pat z1 =>
        simp only [normAssignLeft]
        rw [ihP z1 (by simp at h; omega)]
        all_goals rfl
      | Expr z1 =>
        simp only [normAssignLeft]
        rw [ihE z1 (by simp at h; omega)]
        all_goals rfl
    · intro x h
      cases x with
      | mk z1 z2 z3 z4 z5 =>
        simp only [normObjProp]
        rw [ihPK z1 (by simp at h; omega), ihPV z2 (by simp at h; omega)]
        all_goals rfl
    · intro x h
      cases x with
      | nil => rfl
      | cons z zs =>
        simp only [normObjPropList]
        rw [ihOP z (by simp at h; omega), ihOPL zs (by simp at h; omega)]
        all_goals rfl
    · intro x h
      cases x with
      | Lit z1 =>
        simp only [normPropKey]
        rw [ihL z1 (by simp at h; omega)]
        all_goals rfl
      | Expr z1 =>
        simp only [normPropKey]
        rw [ihE z1 (by simp at h; omega)]
        all_goals rfl
      | Pat z1 =>
        simp only [normPropKey]
        rw [ihP z1 (by simp at h; omega)]
        all_goals rfl
    · intro x h
      cases x with
      | Expr z1 =>
        simp only [normPropValue]
        rw [ihE z1 (by simp at h; omega)]
        all_goals rfl
      | Pat z1 =>
        simp only [normPropValue]
        rw [ihP z1 (by simp at h; omega)]
        all_goals rfl
      | None => rfl
    · intro x h
      cases x with
      | mk z1 z2 z3 z4 z5 =>
        simp only [normFunc]
        rw [normOptIdent_idem z1, ihFAL z2 (by simp at h; omega), ihFB z3 (by simp at h; omega)]
        all_goals rfl
    · intro x h
      cases x with
      | Expr z1 =>
        simp only [normFuncArg]
        rw [ihE z1 (by simp at h; omega)]
        all_goals rfl
      | Pat z1 =>
        simp only [normFuncArg]
        rw [ihP z1 (by simp at h; omega)]
        all_goals rfl
    · intro x h
      cases x with
      | nil => rfl
      | cons z zs =>
        simp only [normFuncArgList]
        rw [ihFA z (by simp at h; omega), ihFAL zs (by simp at h; omega)]
        all_goals rfl
    · intro x h
      cases x with
      | mk z1 =>
        simp only [normFuncBody]
        rw [ihPPL z1 (by simp at h; omega)]
        all_goals rfl
    · intro x h
      cases x with
      | FuncBody z1 =>
        simp only [normArrowFuncBody]
        rw [ihFB z1 (by simp at h; omega)]
        all_goals rfl
      | Expr z1 =>
        simp only [normArrowFuncBody]
        rw [ihE z1 (by simp at h; omega)]
        all_goals rfl
    · intro x h
      cases x with
      | mk z1 z2 z3 =>
        simp only [normClass]
        rw [normOptIdent_idem z1, ihOE z2 (by simp at h; omega), ihCB z3 (by simp at h; omega)]
        all_goals rfl
    · intro x h
      cases x with
      | mk z1 =>
        simp only [normClassBody]
        rw [ihOPL z1 (by simp at h; omega)]
        all_goals rfl
    · intro x h
      cases x with
      | Ident z1 => rfl
      | Obj z1 =>
        simp only [normPat]
        rw [ihOPPl z1 (by simp at h; omega)]
        all_goals rfl
      | Array z1 =>
        simp only [normPat]
        rw [ihOAPPL z1 (by simp at h; omega)]
        all_goals rfl
      | RestElement z1 =>
        simp only [normPat]
        rw [ihP z1 (by simp at h; omega)]
        all_goals rfl
      | Assign z1 =>
        simp only [normPat]
        rw [ihAPat z1 (by simp at h; omega)]
        all_goals rfl
    · intro x h
      cases x with
      | none => rfl
      | some z =>
        simp only [normOptPat]
        rw [ihP z (by simp at h; omega)]
        all_goals rfl
    · intro x h
      cases x with
      | nil => rfl
      | cons z zs =>
        simp only [normObjPatPartList]
        rw [ihOPPart z (by simp at h; omega), ihOPPl zs (by simp at h; omega)]
        all_goals rfl
    · intro x h
      cases x with
      | Assign z1 =>
        simp only [normObjPatPart]
        rw [ihOP z1 (by simp at h; omega)]
        all_goals rfl
      | Rest z1 =>
        simp only [normObjPatPart]
        rw [ihP z1 (by simp at h; omega)]
        all_goals rfl
    · intro x h
      cases x with
      | none => rfl
      | some z =>
        simp only [normOptArrayPatPart]
        rw [ihAPP z (by simp at h; omega)]
        all_goals rfl
    · intro x h
      cases x with
      | nil => rfl
      | cons z zs =>
        simp only [normOptArrayPatPartList]
        rw [ihOAPP z (by simp at h; omega), ihOAPPL zs (by simp at h; omega)]
        all_goals rfl
    · intro x h
      cases x with
      | Pat z1 =>
        simp only [normArrayPatPart]
        rw [ihP z1 (by simp at h; omega)]
        all_goals rfl
      | Expr z1 =>
        simp only [normArrayPatPart]
        rw [ihE z1 (by simp at h; omega)]
        all_goals rfl
    · intro x h
      cases x with
      | mk z1 z2 =>
        simp only [normAssignPat]
        rw [ihP z1 (by simp at h; omega), ihE z2 (by simp at h; omega)]
        all_goals rfl
    · intro x h
      cases x with
      | mk z1 z2 =>
        simp only [normVarDecl]
        rw [ihP z1 (by simp at h; omega), ihOE z2 (by simp at h; omega)]
        all_goals rfl
    · intro x h
      cases x with
      | nil => rfl
      | cons z zs =>
        simp only [normVarDeclList]
        rw [ihVD z (by simp at h; omega), ihVDL zs (by simp at h; omega)]
        all_goals rfl
    · intro x h
      cases x with
      | Var z1 z2 =>
        simp only [normDecl]
        rw [ihVDL z2 (by simp at h; omega)]
        all_goals rfl
      | Func z1 =>
        simp only [normDecl]
        rw [ihF z1 (by simp at h; omega)]
        all_goals rfl
      | Class z1 =>
        simp only [normDecl]
        rw [ihCl z1 (by simp at h; omega)]
        all_goals rfl
      | Import z1 =>
        simp only [normDecl]
        rw [ihMI z1 (by simp at h; omega)]
        all_goals rfl
      | Export z1 =>
        simp only [normDecl]
        rw [ihME z1 (by simp at h; omega)]
        all_goals rfl
    · intro x h
      cases x with
      | mk z1 z2 =>
        simp only [normModImport]
        rw [ihISL z1 (by simp at h; omega), ihL z2 (by simp at h; omega)]
        all_goals rfl
    · intro x h
      cases x with
      | Default z1 => rfl
      | Namespace z1 => rfl
      | Normal z1 =>
        simp only [normImportSpecifier]
        rw [normNormalImportSpecList_idem z1]
        all_goals rfl
    · intro x h
      cases x with
      | nil => rfl
      | cons z zs =>
        simp only [normImportSpecifierList]
        rw [ihIS z (by simp at h; omega), ihISL zs (by simp at h; omega)]
        all_goals rfl
    · intro x h
      cases x with
      | All z1 =>
        simp only [normModExport]
        rw [ihL z1 (by simp at h; omega)]
        all_goals rfl
      | Default z1 =>
        simp only [normModExport]
        rw [ihDED z1 (by simp at h; omega)]
        all_goals rfl
      | Named z1 =>
        simp only [normModExport]
        rw [ihNED z1 (by simp at h; omega)]
        all_goals rfl
    · intro x h
      cases x with
      | Decl z1 =>
        simp only [normDefaultExportDecl]
        rw [ihD z1 (by simp at h; omega)]
        all_goals rfl
      | Expr z1 =>
        simp only [normDefaultExportDecl]
        rw [ihE z1 (by simp at h; omega)]
        all_goals rfl
    · intro x h
      cases x with
      | Decl z1 =>
        simp only [normNamedExportDecl]
        rw [ihD z1 (by simp at h; omega)]
        all_goals rfl
      | Specifier z1 z2 =>
        simp only [normNamedExportDecl]
        rw [normExportSpecifierList_idem z1, ihOL z2 (by simp at h; omega)]
        all_goals rfl
    · intro x h
      cases x with
      | Expr z1 =>
        simp only [normStmt]
        rw [ihE z1 (by simp at h; omega)]
        all_goals rfl
      | Block z1 =>
        simp only [normStmt]
        rw [ihPPL z1 (by simp at h; omega)]
        all_goals rfl
      | Empty => rfl
      | Debugger => rfl
      | With z1 z2 =>
        simp only [normStmt]
        rw [ihE z1 (by simp at h; omega), ihS z2 (by simp at h; omega)]
        all_goals rfl
      | Return z1 =>
        simp only [normStmt]
        rw [ihOE z1 (by simp at h; omega)]
        all_goals rfl
      | Labeled z1 z2 =>
        simp only [normStmt]
        rw [ihS z2 (by simp at h; omega)]
        all_goals rfl
      | Break z1 =>
        simp only [normStmt]
        rw [normOptIdent_idem z1]
        all_goals rfl
      | Continue z1 =>
        simp only [normStmt]
        rw [normOptIdent_idem z1]
        all_goals rfl
      | If z1 z2 z3 =>
        simp only [normStmt]
        rw [ihE z1 (by simp at h; omega), ihS z2 (by simp at h; omega), ihOS z3 (by simp at h; omega)]
        all_goals rfl
      | Switch z1 z2 =>
        simp only [normStmt]
        rw [ihE z1 (by simp at h; omega), ihSCL z2 (by simp at h; omega)]
        all_goals rfl
      | Throw z1 =>
        simp only [normStmt]
        rw [ihE z1 (by simp at h; omega)]
        all_goals rfl
      | Try z1 z2 z3 =>
        simp only [normStmt]
        rw [ihPPL z1 (by simp at h; omega), ihOCC z2 (by simp at h; omega), ihOPPL2 z3 (by simp at h; omega)]
        all_goals rfl
      | While z1 z2 =>
        simp only [normStmt]
        rw [ihE z1 (by simp at h; omega), ihS z2 (by simp at h; omega)]
        all_goals rfl
      | DoWhile z1 z2 =>
        simp only [normStmt]
        rw [ihS z1 (by simp at h; omega), ihE z2 (by simp at h; omega)]
        all_goals rfl
      | For z1 z2 z3 z4 =>
        simp only [normStmt]
        rw [ihOLI z1 (by simp at h; omega), ihOE z2 (by simp at h; omega), ihOE z3 (by simp at h; omega), ihS z4 (by simp at h; omega)]
        all_goals rfl
      | ForIn z1 z2 z3 =>
        simp only [normStmt]
        rw [ihLL z1 (by simp at h; omega), ihE z2 (by simp at h; omega), ihS z3 (by simp at h; omega)]
        all_goals rfl
      | ForOf z1 z2 z3 =>
        simp only [normStmt]
        rw [ihLL z1 (by simp at h; omega), ihE z2 (by simp at h; omega), ihS z3 (by simp at h; omega)]
        all_goals rfl
      | Var z1 =>
        simp only [normStmt]
        rw [ihVDL z1 (by simp at h; omega)]
        all_goals rfl
    · intro x h
      cases x with
      | none => rfl
      | some z =>
        simp only [normOptStmt]
        rw [ihS z (by simp at h; omega)]
        all_goals rfl
    · intro x h
      cases x with
      | mk z1 z2 =>
        simp only [normSwitchCase]
        rw [ihOE z1 (by simp at h; omega), ihPPL z2 (by simp at h; omega)]
        all_goals rfl
    · intro x h
      cases x with
      | nil => rfl
      | cons z zs =>
        simp only [normSwitchCaseList]
        rw [ihSCase z (by simp at h; omega), ihSCL zs (by simp at h; omega)]
        all_goals rfl
    · intro x h
      cases x with
      | mk z1 z2 =>
        simp only [normCatchClause]
        rw [ihOPt z1 (by simp at h; omega), ihPPL z2 (by simp at h; omega)]
        all_goals rfl
    · intro x h
      cases x with
      | none => rfl
      | some z =>
        simp only [normOptCatchClause]
        rw [ihCC z (by simp at h; omega)]
        all_goals rfl
    · intro x h
      cases x with
      | Variable z1 z2 =>
        simp only [normLoopInit]
        rw [ihVDL z2 (by simp at h; omega)]
        all_goals rfl
      | Expr z1 =>
        simp only [normLoopInit]
        rw [ihE z1 (by simp at h; omega)]
        all_goals rfl
    · intro x h
      cases x with
      | none => rfl
      | some z =>
        simp only [normOptLoopInit]
        rw [ihLI z (by simp at h; omega)]
        all_goals rfl
    · intro x h
      cases x with
      | Variable z1 z2 =>
        simp only [normLoopLeft]
        rw [ihVD z2 (by simp at h; omega)]
        all_goals rfl
      | Pat z1 =>
        simp only [normLoopLeft]
        rw [ihP z1 (by simp at h; omega)]
        all_goals rfl
      | Expr z1 =>
        simp only [normLoopLeft]
        rw [ihE z1 (by simp at h; omega)]
        all_goals rfl
    · intro x h
      cases x with
      | Dir z1 =>
        simp only [normProgramPart]
        rw [ihDIR z1 (by simp at h; omega)]
        all_goals rfl
      | Decl z1 =>
        simp only [normProgramPart]
        rw [ihD z1 (by simp at h; omega)]
        all_goals rfl
      | Stmt z1 =>
        simp only [normProgramPart]
        rw [ihS z1 (by simp at h; omega)]
        all_goals rfl
    · intro x h
      cases x with
      | nil => rfl
      | cons z zs =>
        simp only [normProgramPartList]
        rw [ihPPart z (by simp at h; omega), ihPPL zs (by simp at h; omega)]
        all_goals rfl
    · intro x h
      cases x with
      | none => rfl
      | some z =>
        simp only [normOptProgramPartList]
        rw [ihPPL z (by simp at h; omega)]
        all_goals rfl
    · intro x h
      cases x with
      | mk z1 z2 =>
        simp only [normDir]
        rw [ihL z1 (by simp at h; omega)]
        all_goals rfl


/-!
One-step reduction lemmas for the fuel-bounded decoders: each is a
definitional (`rfl`) consequence of the decoder on the corresponding
encoded constructor; they replace the decoders' equation lemmas in the
round-trip proof below.
-/

/-- One-step reduction of the decoder on an encoded `Expr.Ident`. -/
theorem decodeExpr_step_Ident (n : Nat) (z1 : Ident) :
    decodeExpr (n + 1) (encodeExpr (Expr.Ident z1)) = (do pure (Expr.Ident (← decodeIdent (encodeIdent z1)))) := rfl

/-- One-step reduction of the decoder on an encoded `Expr.Lit`. -/
theorem decodeExpr_step_Lit (n : Nat) (z1 : Lit) :
    decodeExpr (n + 1) (encodeExpr (Expr.Lit z1)) = (do pure (Expr.Lit (← decodeLit n (encodeLit z1)))) := rfl

/-- One-step reduction of the decoder on an encoded `Expr.This`. -/
theorem decodeExpr_step_This (n : Nat)  :
    decodeExpr (n + 1) (encodeExpr (Expr.This)) = some Expr.This := rfl

/-- One-step reduction of the decoder on an encoded `Expr.Array`. -/
theorem decodeExpr_step_Array (n : Nat) (z1 : List (Option Expr)) :
    decodeExpr (n + 1) (encodeExpr (Expr.Array z1)) = (do pure (Expr.Array (← decodeOptExprList n (encodeOptExprList z1)))) := rfl

/-- One-step reduction of the decoder on an encoded `Expr.Obj`. -/
theorem decodeExpr_step_Obj (n : Nat) (z1 : List ObjProp) :
    decodeExpr (n + 1) (encodeExpr (Expr.Obj z1)) = (do pure (Expr.Obj (← decodeObjPropList n (encodeObjPropList z1)))) := rfl

/-- One-step reduction of the decoder on an encoded `Expr.Func`. -/
theorem decodeExpr_step_Func (n : Nat) (z1 : Func) :
    decodeExpr (n + 1) (encodeExpr (Expr.Func z1)) = (do pure (Expr.Func (← decodeFunc n (encodeFunc z1)))) := rfl

/-- One-step reduction of the decoder on an encoded `Expr.Class`. -/
theorem decodeExpr_step_Class (n : Nat) (z1 : Class) :
    decodeExpr (n + 1) (encodeExpr (Expr.Class z1)) = (do pure (Expr.Class (← decodeClass n (encodeClass z1)))) := rfl

/-- One-step reduction of the decoder on an encoded `Expr.Unary`. -/
theorem decodeExpr_step_Unary (n : Nat) (z1 : UnaryOp) (z2 : Bool) (z3 : Expr) :
    decodeExpr (n + 1) (encodeExpr (Expr.Unary z1 z2 z3)) = (do pure (Expr.Unary (← decodeUnaryOp (encodeUnaryOp z1)) z2 (← decodeExpr n (encodeExpr z3)))) := rfl

/-- One-step reduction of the decoder on an encoded `Expr.Update`. -/
theorem decodeExpr_step_Update (n : Nat) (z1 : UpdateOp) (z2 : Bool) (z3 : Expr) :
    decodeExpr (n + 1) (encodeExpr (Expr.Update z1 z2 z3)) = (do pure (Expr.Update (← decodeUpdateOp (encodeUpdateOp z1)) z2 (← decodeExpr n (encodeExpr z3)))) := rfl

/-- One-step reduction of the decoder on an encoded `Expr.Binary`. -/
theorem decodeExpr_step_Binary (n : Nat) (z1 : BinaryOp) (z2 : Expr) (z3 : Expr) :
    decodeExpr (n + 1) (encodeExpr (Expr.Binary z1 z2 z3)) = (do pure (Expr.Binary (← decodeBinaryOp (encodeBinaryOp z1)) (← decodeExpr n (encodeExpr z2)) (← decodeExpr n (encodeExpr z3)))) := rfl

/-- One-step reduction of the decoder on an encoded `Expr.Logical`. -/
theorem decodeExpr_step_Logical (n : Nat) (z1 : LogicalOp) (z2 : Expr) (z3 : Expr) :
    decodeExpr (n + 1) (encodeExpr (Expr.Logical z1 z2 z3)) = (do pure (Expr.Logical (← decodeLogicalOp (encodeLogicalOp z1)) (← decodeExpr n (encodeExpr z2)) (← decodeExpr n (encodeExpr z3)))) := rfl

/-- One-step reduction of the decoder on an encoded `Expr.Assign`. -/
theorem decodeExpr_step_Assign (n : Nat) (z1 : AssignOp) (z2 : AssignLeft) (z3 : Expr) :
    decodeExpr (n + 1) (encodeExpr (Expr.Assign z1 z2 z3)) = (do pure (Expr.Assign (← decodeAssignOp (encodeAssignOp z1)) (← decodeAssignLeft n (encodeAssignLeft z2)) (← decodeExpr n (encodeExpr z3)))) := rfl

/-- One-step reduction of the decoder on an encoded `Expr.Conditional`. -/
theorem decodeExpr_step_Conditional (n : Nat) (z1 : Expr) (z2 : Expr) (z3 : Expr) :
    decodeExpr (n + 1) (encodeExpr (Expr.Conditional z1 z2 z3)) = (do pure (Expr.Conditional (← decodeExpr n (encodeExpr z1)) (← decodeExpr n (encodeExpr z2)) (← decodeExpr n (encodeExpr z3)))) := rfl

/-- One-step reduction of the decoder on an encoded `Expr.Call`. -/
theorem decodeExpr_step_Call (n : Nat) (z1 : Expr) (z2 : List Expr) :
    decodeExpr (n + 1) (encodeExpr (Expr.Call z1 z2)) = (do pure (Expr.Call (← decodeExpr n (encodeExpr z1)) (← decodeExprList n (encodeExprList z2)))) := rfl

/-- One-step reduction of the decoder on an encoded `Expr.New`. -/
theorem decodeExpr_step_New (n : Nat) (z1 : Expr) (z2 : List Expr) :
    decodeExpr (n + 1) (encodeExpr (Expr.New z1 z2)) = (do pure (Expr.New (← decodeExpr n (encodeExpr z1)) (← decodeExprList n (encodeExprList z2)))) := rfl

/-- One-step reduction of the decoder on an encoded `Expr.Member`. -/
theorem decodeExpr_step_Member (n : Nat) (z1 : Expr) (z2 : Expr) (z3 : Bool) :
    decodeExpr (n + 1) (encodeExpr (Expr.Member z1 z2 z3)) = (do pure (Expr.Member (← decodeExpr n (encodeExpr z1)) (← decodeExpr n (encodeExpr z2)) z3)) := rfl

/-- One-step reduction of the decoder on an encoded `Expr.Sequence`. -/
theorem decodeExpr_step_Sequence (n : Nat) (z1 : List Expr) :
    decodeExpr (n + 1) (encodeExpr (Expr.Sequence z1)) = (do pure (Expr.Sequence (← decodeExprList n (encodeExprList z1)))) := rfl

/-- One-step reduction of the decoder on an encoded `Expr.Spread`. -/
theorem decodeExpr_step_Spread (n : Nat) (z1 : Expr) :
    decodeExpr (n + 1) (encodeExpr (Expr.Spread z1)) = (do pure (Expr.Spread (← decodeExpr n (encodeExpr z1)))) := rfl

/-- One-step reduction of the decoder on an encoded `Expr.ArrowFunc`. -/
theorem decodeExpr_step_ArrowFunc (n : Nat) (z1 : List FuncArg) (z2 : ArrowFuncBody) (z3 : Bool) :
    decodeExpr (n + 1) (encodeExpr (Expr.ArrowFunc z1 z2 z3)) = (do pure (Expr.ArrowFunc (← decodeFuncArgList n (encodeFuncArgList z1)) (← decodeArrowFuncBody n (encodeArrowFuncBody z2)) z3)) := rfl

/-- One-step reduction of the decoder on an encoded `Expr.Yield`. -/
theorem decodeExpr_step_Yield (n : Nat) (z1 : Option Expr) (z2 : Bool) :
    decodeExpr (n + 1) (encodeExpr (Expr.Yield z1 z2)) = (do pure (Expr.Yield (← decodeOptExpr n (encodeOptExpr z1)) z2)) := rfl

/-- One-step reduction of the decoder on an encoded `Expr.TaggedTemplate`. -/
theorem decodeExpr_step_TaggedTemplate (n : Nat) (z1 : Expr) (z2 : TemplateLit) :
    decodeExpr (n + 1) (encodeExpr (Expr.TaggedTemplate z1 z2)) = (do pure (Expr.TaggedTemplate (← decodeExpr n (encodeExpr z1)) (← decodeTemplateLit n (encodeTemplateLit z2)))) := rfl

/-- One-step reduction of the decoder on an encoded `Expr.MetaProp`. -/
theorem decodeExpr_step_MetaProp (n : Nat) (z1 : Ident) (z2 : Ident) :
    decodeExpr (n + 1) (encodeExpr (Expr.MetaProp z1 z2)) = (do pure (Expr.MetaProp (← decodeIdent (encodeIdent z1)) (← decodeIdent (encodeIdent z2)))) := rfl

/-- One-step reduction of the list decoder on an encoded cons cell. -/
theorem decodeExprList_step_cons (n : Nat) (z : Expr) (zs : List Expr) :
    decodeExprList (n + 1) (encodeExprList (z :: zs)) =
      (do pure (((← decodeExpr n (encodeExpr z))) :: (← decodeExprList n (encodeExprList zs)))) := rfl

/-- One-step reduction of the list decoder on an encoded cons cell. -/
theorem decodeOptExprList_step_cons (n : Nat) (z : Option Expr) (zs : List (Option Expr)) :
    decodeOptExprList (n + 1) (encodeOptExprList (z :: zs)) =
      (do pure (((← decodeOptExpr n (encodeOptExpr z))) :: (← decodeOptExprList n (encodeOptExprList zs)))) := rfl

/-- One-step reduction of the decoder on an encoded `Lit.Null`. -/
theorem decodeLit_step_Null (n : Nat)  :
    decodeLit (n + 1) (encodeLit (Lit.Null)) = some Lit.Null := rfl

/-- One-step reduction of the decoder on an encoded `Lit.Boolean`. -/
theorem decodeLit_step_Boolean (n : Nat) (z1 : Bool) :
    decodeLit (n + 1) (encodeLit (Lit.Boolean z1)) = some (Lit.Boolean z1) := rfl

/-- One-step reduction of the decoder on an encoded `Lit.Number`. -/
theorem decodeLit_step_Number (n : Nat) (z1 : Cow) :
    decodeLit (n + 1) (encodeLit (Lit.Number z1)) = (do pure (Lit.Number (← decodeCow (encodeCow z1)))) := rfl

/-- One-step reduction of the decoder on an encoded `Lit.String`. -/
theorem decodeLit_step_String (n : Nat) (z1 : Cow) :
    decodeLit (n + 1) (encodeLit (Lit.String z1)) = (do pure (Lit.String (← decodeCow (encodeCow z1)))) := rfl

/-- One-step reduction of the decoder on an encoded `Lit.RegEx`. -/
theorem decodeLit_step_RegEx (n : Nat) (z1 : Cow) (z2 : Cow) :
    decodeLit (n + 1) (encodeLit (Lit.RegEx z1 z2)) = (do pure (Lit.RegEx (← decodeCow (encodeCow z1)) (← decodeCow (encodeCow z2)))) := rfl

/-- One-step reduction of the decoder on an encoded `Lit.Template`. -/
theorem decodeLit_step_Template (n : Nat) (z1 : TemplateLit) :
    decodeLit (n + 1) (encodeLit (Lit.Template z1)) = (do pure (Lit.Template (← decodeTemplateLit n (encodeTemplateLit z1)))) := rfl

/-- One-step reduction of the decoder on an encoded `TemplateLit.mk`. -/
theorem decodeTemplateLit_step_mk (n : Nat) (z1 : List Cow) (z2 : List Expr) :
    decodeTemplateLit (n + 1) (encodeTemplateLit (TemplateLit.mk z1 z2)) = (do pure (TemplateLit.mk (← decodeCowList (encodeCowList z1)) (← decodeExprList n (encodeExprList z2)))) := rfl

/-- One-step reduction of the decoder on an encoded `AssignLeft.Pat`. -/
theorem decodeAssignLeft_step_Pat (n : Nat) (z1 : Pat) :
    decodeAssignLeft (n + 1) (encodeAssignLeft (AssignLeft.Pat z1)) = (do pure (AssignLeft.Pat (← decodePat n (encodePat z1)))) := rfl

/-- One-step reduction of the decoder on an encoded `AssignLeft.Expr`. -/
theorem decodeAssignLeft_step_Expr (n : Nat) (z1 : Expr) :
    decodeAssignLeft (n + 1) (encodeAssignLeft (AssignLeft.Expr z1)) = (do pure (AssignLeft.Expr (← decodeExpr n (encodeExpr z1)))) := rfl

/-- One-step reduction of the decoder on an encoded `ObjProp.mk`. -/
theorem decodeObjProp_step_mk (n : Nat) (z1 : PropKey) (z2 : PropValue) (z3 : PropKind) (z4 : Bool) (z5 : Bool) :
    decodeObjProp (n + 1) (encodeObjProp (ObjProp.mk z1 z2 z3 z4 z5)) = (do pure (ObjProp.mk (← decodePropKey n (encodePropKey z1)) (← decodePropValue n (encodePropValue z2)) (← decodePropKind (encodePropKind z3)) z4 z5)) := rfl

/-- One-step reduction of the list decoder on an encoded cons cell. -/
theorem decodeObjPropList_step_cons (n : Nat) (z : ObjProp) (zs : List ObjProp) :
    decodeObjPropList (n + 1) (encodeObjPropList (z :: zs)) =
      (do pure (((← decodeObjProp n (encodeObjProp z))) :: (← decodeObjPropList n (encodeObjPropList zs)))) := rfl

/-- One-step reduction of the decoder on an encoded `PropKey.Lit`. -/
theorem decodePropKey_step_Lit (n : Nat) (z1 : Lit) :
    decodePropKey (n + 1) (encodePropKey (PropKey.Lit z1)) = (do pure (PropKey.Lit (← decodeLit n (encodeLit z1)))) := rfl

/-- One-step reduction of the decoder on an encoded `PropKey.Expr`. -/
theorem decodePropKey_step_Expr (n : Nat) (z1 : Expr) :
    decodePropKey (n + 1) (encodePropKey (PropKey.Expr z1)) = (do pure (PropKey.Expr (← decodeExpr n (encodeExpr z1)))) := rfl

/-- One-step reduction of the decoder on an encoded `PropKey.Pat`. -/
theorem decodePropKey_step_Pat (n : Nat) (z1 : Pat) :
    decodePropKey (n + 1) (encodePropKey (PropKey.Pat z1)) = (do pure (PropKey.Pat (← decodePat n (encodePat z1)))) := rfl

/-- One-step reduction of the decoder on an encoded `PropValue.Expr`. -/
theorem decodePropValue_step_Expr (n : Nat) (z1 : Expr) :
    decodePropValue (n + 1) (encodePropValue (PropValue.Expr z1)) = (do pure (PropValue.Expr (← decodeExpr n (encodeExpr z1)))) := rfl

/-- One-step reduction of the decoder on an encoded `PropValue.Pat`. -/
theorem decodePropValue_step_Pat (n : Nat) (z1 : Pat) :
    decodePropValue (n + 1) (encodePropValue (PropValue.Pat z1)) = (do pure (PropValue.Pat (← decodePat n (encodePat z1)))) := rfl

/-- One-step reduction of the decoder on an encoded `PropValue.None`. -/
theorem decodePropValue_step_None (n : Nat)  :
    decodePropValue (n + 1) (encodePropValue (PropValue.None)) = some PropValue.None := rfl

/-- One-step reduction of the decoder on an encoded `Func.mk`. -/
theorem decodeFunc_step_mk (n : Nat) (z1 : Option Ident) (z2 : List FuncArg) (z3 : FuncBody) (z4 : Bool) (z5 : Bool) :
    decodeFunc (n + 1) (encodeFunc (Func.mk z1 z2 z3 z4 z5)) = (do pure (Func.mk (← decodeOptIdent (encodeOptIdent z1)) (← decodeFuncArgList n (encodeFuncArgList z2)) (← decodeFuncBody n (encodeFuncBody z3)) z4 z5)) := rfl

/-- One-step reduction of the decoder on an encoded `FuncArg.Expr`. -/
theorem decodeFuncArg_step_Expr (n : Nat) (z1 : Expr) :
    decodeFuncArg (n + 1) (encodeFuncArg (FuncArg.Expr z1)) = (do pure (FuncArg.Expr (← decodeExpr n (encodeExpr z1)))) := rfl

/-- One-step reduction of the decoder on an encoded `FuncArg.Pat`. -/
theorem decodeFuncArg_step_Pat (n : Nat) (z1 : Pat) :
    decodeFuncArg (n + 1) (encodeFuncArg (FuncArg.Pat z1)) = (do pure (FuncArg.Pat (← decodePat n (encodePat z1)))) := rfl

/-- One-step reduction of the list decoder on an encoded cons cell. -/
theorem decodeFuncArgList_step_cons (n : Nat) (z : FuncArg) (zs : List FuncArg) :
    decodeFuncArgList (n + 1) (encodeFuncArgList (z :: zs)) =
      (do pure (((← decodeFuncArg n (encodeFuncArg z))) :: (← decodeFuncArgList n (encodeFuncArgList zs)))) := rfl

/-- One-step reduction of the decoder on an encoded `FuncBody.mk`. -/
theorem decodeFuncBody_step_mk (n : Nat) (z1 : List ProgramPart) :
    decodeFuncBody (n + 1) (encodeFuncBody (FuncBody.mk z1)) = (do pure (FuncBody.mk (← decodeProgramPartList n (encodeProgramPartList z1)))) := rfl

/-- One-step reduction of the decoder on an encoded `ArrowFuncBody.FuncBody`. -/
theorem decodeArrowFuncBody_step_FuncBody (n : Nat) (z1 : FuncBody) :
    decodeArrowFuncBody (n + 1) (encodeArrowFuncBody (ArrowFuncBody.FuncBody z1)) = (do pure (ArrowFuncBody.FuncBody (← decodeFuncBody n (encodeFuncBody z1)))) := rfl

/-- One-step reduction of the decoder on an encoded `ArrowFuncBody.Expr`. -/
theorem decodeArrowFuncBody_step_Expr (n : Nat) (z1 : Expr) :
    decodeArrowFuncBody (n + 1) (encodeArrowFuncBody (ArrowFuncBody.Expr z1)) = (do pure (ArrowFuncBody.Expr (← decodeExpr n (encodeExpr z1)))) := rfl

/-- One-step reduction of the decoder on an encoded `Class.mk`. -/
theorem decodeClass_step_mk (n : Nat) (z1 : Option Ident) (z2 : Option Expr) (z3 : ClassBody) :
    decodeClass (n + 1) (encodeClass (Class.mk z1 z2 z3)) = (do pure (Class.mk (← decodeOptIdent (encodeOptIdent z1)) (← decodeOptExpr n (encodeOptExpr z2)) (← decodeClassBody n (encodeClassBody z3)))) := rfl

/-- One-step reduction of the decoder on an encoded `ClassBody.mk`. -/
theorem decodeClassBody_step_mk (n : Nat) (z1 : List ObjProp) :
    decodeClassBody (n + 1) (encodeClassBody (ClassBody.mk z1)) = (do pure (ClassBody.mk (← decodeObjPropList n (encodeObjPropList z1)))) := rfl

/-- One-step reduction of the decoder on an encoded `Pat.Ident`. -/
theorem decodePat_step_Ident (n : Nat) (z1 : Ident) :
    decodePat (n + 1) (encodePat (Pat.Ident z1)) = (do pure (Pat.Ident (← decodeIdent (encodeIdent z1)))) := rfl

/-- One-step reduction of the decoder on an encoded `Pat.Obj`. -/
theorem decodePat_step_Obj (n : Nat) (z1 : List ObjPatPart) :
    decodePat (n + 1) (encodePat (Pat.Obj z1)) = (do pure (Pat.Obj (← decodeObjPatPartList n (encodeObjPatPartList z1)))) := rfl

/-- One-step reduction of the decoder on an encoded `Pat.Array`. -/
theorem decodePat_step_Array (n : Nat) (z1 : List (Option ArrayPatPart)) :
    decodePat (n + 1) (encodePat (Pat.Array z1)) = (do pure (Pat.Array (← decodeOptArrayPatPartList n (encodeOptArrayPatPartList z1)))) := rfl

/-- One-step reduction of the decoder on an encoded `Pat.RestElement`. -/
theorem decodePat_step_RestElement (n : Nat) (z1 : Pat) :
    decodePat (n + 1) (encodePat (Pat.RestElement z1)) = (do pure (Pat.RestElement (← decodePat n (encodePat z1)))) := rfl

/-- One-step reduction of the decoder on an encoded `Pat.Assign`. -/
theorem decodePat_step_Assign (n : Nat) (z1 : AssignPat) :
    decodePat (n + 1) (encodePat (Pat.Assign z1)) = (do pure (Pat.Assign (← decodeAssignPat n (encodeAssignPat z1)))) := rfl

/-- One-step reduction of the list decoder on an encoded cons cell. -/
theorem decodeObjPatPartList_step_cons (n : Nat) (z : ObjPatPart) (zs : List ObjPatPart) :
    decodeObjPatPartList (n + 1) (encodeObjPatPartList (z :: zs)) =
      (do pure (((← decodeObjPatPart n (encodeObjPatPart z))) :: (← decodeObjPatPartList n (encodeObjPatPartList zs)))) := rfl

/-- One-step reduction of the decoder on an encoded `ObjPatPart.Assign`. -/
theorem decodeObjPatPart_step_Assign (n : Nat) (z1 : ObjProp) :
    decodeObjPatPart (n + 1) (encodeObjPatPart (ObjPatPart.Assign z1)) = (do pure (ObjPatPart.Assign (← decodeObjProp n (encodeObjProp z1)))) := rfl

/-- One-step reduction of the decoder on an encoded `ObjPatPart.Rest`. -/
theorem decodeObjPatPart_step_Rest (n : Nat) (z1 : Pat) :
    decodeObjPatPart (n + 1) (encodeObjPatPart (ObjPatPart.Rest z1)) = (do pure (ObjPatPart.Rest (← decodePat n (encodePat z1)))) := rfl

/-- One-step reduction of the list decoder on an encoded cons cell. -/
theorem decodeOptArrayPatPartList_step_cons (n : Nat) (z : Option ArrayPatPart) (zs : List (Option ArrayPatPart)) :
    decodeOptArrayPatPartList (n + 1) (encodeOptArrayPatPartList (z :: zs)) =
      (do pure (((← decodeOptArrayPatPart n (encodeOptArrayPatPart z))) :: (← decodeOptArrayPatPartList n (encodeOptArrayPatPartList zs)))) := rfl

/-- One-step reduction of the decoder on an encoded `ArrayPatPart.Pat`. -/
theorem decodeArrayPatPart_step_Pat (n : Nat) (z1 : Pat) :
    decodeArrayPatPart (n + 1) (encodeArrayPatPart (ArrayPatPart.Pat z1)) = (do pure (ArrayPatPart.Pat (← decodePat n (encodePat z1)))) := rfl

/-- One-step reduction of the decoder on an encoded `ArrayPatPart.Expr`. -/
theorem decodeArrayPatPart_step_Expr (n : Nat) (z1 : Expr) :
    decodeArrayPatPart (n + 1) (encodeArrayPatPart (ArrayPatPart.Expr z1)) = (do pure (ArrayPatPart.Expr (← decodeExpr n (encodeExpr z1)))) := rfl

/-- One-step reduction of the decoder on an encoded `AssignPat.mk`. -/
theorem decodeAssignPat_step_mk (n : Nat) (z1 : Pat) (z2 : Expr) :
    decodeAssignPat (n + 1) (encodeAssignPat (AssignPat.mk z1 z2)) = (do pure (AssignPat.mk (← decodePat n (encodePat z1)) (← decodeExpr n (encodeExpr z2)))) := rfl

/-- One-step reduction of the decoder on an encoded `VarDecl.mk`. -/
theorem decodeVarDecl_step_mk (n : Nat) (z1 : Pat) (z2 : Option Expr) :
    decodeVarDecl (n + 1) (encodeVarDecl (VarDecl.mk z1 z2)) = (do pure (VarDecl.mk (← decodePat n (encodePat z1)) (← decodeOptExpr n (encodeOptExpr z2)))) := rfl

/-- One-step reduction of the list decoder on an encoded cons cell. -/
theorem decodeVarDeclList_step_cons (n : Nat) (z : VarDecl) (zs : List VarDecl) :
    decodeVarDeclList (n + 1) (encodeVarDeclList (z :: zs)) =
      (do pure (((← decodeVarDecl n (encodeVarDecl z))) :: (← decodeVarDeclList n (encodeVarDeclList zs)))) := rfl

/-- One-step reduction of the decoder on an encoded `Decl.Var`. -/
theorem decodeDecl_step_Var (n : Nat) (z1 : VarKind) (z2 : List VarDecl) :
    decodeDecl (n + 1) (encodeDecl (Decl.Var z1 z2)) = (do pure (Decl.Var (← decodeVarKind (encodeVarKind z1)) (← decodeVarDeclList n (encodeVarDeclList z2)))) := rfl

/-- One-step reduction of the decoder on an encoded `Decl.Func`. -/
theorem decodeDecl_step_Func (n : Nat) (z1 : Func) :
    decodeDecl (n + 1) (encodeDecl (Decl.Func z1)) = (do pure (Decl.Func (← decodeFunc n (encodeFunc z1)))) := rfl

/-- One-step reduction of the decoder on an encoded `Decl.Class`. -/
theorem decodeDecl_step_Class (n : Nat) (z1 : Class) :
    decodeDecl (n + 1) (encodeDecl (Decl.Class z1)) = (do pure (Decl.Class (← decodeClass n (encodeClass z1)))) := rfl

/-- One-step reduction of the decoder on an encoded `Decl.Import`. -/
theorem decodeDecl_step_Import (n : Nat) (z1 : ModImport) :
    decodeDecl (n + 1) (encodeDecl (Decl.Import z1)) = (do pure (Decl.Import (← decodeModImport n (encodeModImport z1)))) := rfl

/-- One-step reduction of the decoder on an encoded `Decl.Export`. -/
theorem decodeDecl_step_Export (n : Nat) (z1 : ModExport) :
    decodeDecl (n + 1) (encodeDecl (Decl.Export z1)) = (do pure (Decl.Export (← decodeModExport n (encodeModExport z1)))) := rfl

/-- One-step reduction of the decoder on an encoded `ModImport.mk`. -/
theorem decodeModImport_step_mk (n : Nat) (z1 : List ImportSpecifier) (z2 : Lit) :
    decodeModImport (n + 1) (encodeModImport (ModImport.mk z1 z2)) = (do pure (ModImport.mk (← decodeImportSpecifierList n (encodeImportSpecifierList z1)) (← decodeLit n (encodeLit z2)))) := rfl

/-- One-step reduction of the decoder on an encoded `ImportSpecifier.Default`. -/
theorem decodeImportSpecifier_step_Default (n : Nat) (z1 : Ident) :
    decodeImportSpecifier (n + 1) (encodeImportSpecifier (ImportSpecifier.Default z1)) = (do pure (ImportSpecifier.Default (← decodeIdent (encodeIdent z1)))) := rfl

/-- One-step reduction of the decoder on an encoded `ImportSpecifier.Namespace`. -/
theorem decodeImportSpecifier_step_Namespace (n : Nat) (z1 : Ident) :
    decodeImportSpecifier (n + 1) (encodeImportSpecifier (ImportSpecifier.Namespace z1)) = (do pure (ImportSpecifier.Namespace (← decodeIdent (encodeIdent z1)))) := rfl

/-- One-step reduction of the decoder on an encoded `ImportSpecifier.Normal`. -/
theorem decodeImportSpecifier_step_Normal (n : Nat) (z1 : List NormalImportSpec) :
    decodeImportSpecifier (n + 1) (encodeImportSpecifier (ImportSpecifier.Normal z1)) = (do pure (ImportSpecifier.Normal (← decodeNormalImportSpecList (encodeNormalImportSpecList z1)))) := rfl

/-- One-step reduction of the list decoder on an encoded cons cell. -/
theorem decodeImportSpecifierList_step_cons (n : Nat) (z : ImportSpecifier) (zs : List ImportSpecifier) :
    decodeImportSpecifierList (n + 1) (encodeImportSpecifierList (z :: zs)) =
      (do pure (((← decodeImportSpecifier n (encodeImportSpecifier z))) :: (← decodeImportSpecifierList n (encodeImportSpecifierList zs)))) := rfl

/-- One-step reduction of the decoder on an encoded `ModExport.All`. -/
theorem decodeModExport_step_All (n : Nat) (z1 : Lit) :
    decodeModExport (n + 1) (encodeModExport (ModExport.All z1)) = (do pure (ModExport.All (← decodeLit n (encodeLit z1)))) := rfl

/-- One-step reduction of the decoder on an encoded `ModExport.Default`. -/
theorem decodeModExport_step_Default (n : Nat) (z1 : DefaultExportDecl) :
    decodeModExport (n + 1) (encodeModExport (ModExport.Default z1)) = (do pure (ModExport.Default (← decodeDefaultExportDecl n (encodeDefaultExportDecl z1)))) := rfl

/-- One-step reduction of the decoder on an encoded `ModExport.Named`. -/
theorem decodeModExport_step_Named (n : Nat) (z1 : NamedExportDecl) :
    decodeModExport (n + 1) (encodeModExport (ModExport.Named z1)) = (do pure (ModExport.Named (← decodeNamedExportDecl n (encodeNamedExportDecl z1)))) := rfl

/-- One-step reduction of the decoder on an encoded `DefaultExportDecl.Decl`. -/
theorem decodeDefaultExportDecl_step_Decl (n : Nat) (z1 : Decl) :
    decodeDefaultExportDecl (n + 1) (encodeDefaultExportDecl (DefaultExportDecl.Decl z1)) = (do pure (DefaultExportDecl.Decl (← decodeDecl n (encodeDecl z1)))) := rfl

/-- One-step reduction of the decoder on an encoded `DefaultExportDecl.Expr`. -/
theorem decodeDefaultExportDecl_step_Expr (n : Nat) (z1 : Expr) :
    decodeDefaultExportDecl (n + 1) (encodeDefaultExportDecl (DefaultExportDecl.Expr z1)) = (do pure (DefaultExportDecl.Expr (← decodeExpr n (encodeExpr z1)))) := rfl

/-- One-step reduction of the decoder on an encoded `NamedExportDecl.Decl`. -/
theorem decodeNamedExportDecl_step_Decl (n : Nat) (z1 : Decl) :
    decodeNamedExportDecl (n + 1) (encodeNamedExportDecl (NamedExportDecl.Decl z1)) = (do pure (NamedExportDecl.Decl (← decodeDecl n (encodeDecl z1)))) := rfl

/-- One-step reduction of the decoder on an encoded `NamedExportDecl.Specifier`. -/
theorem decodeNamedExportDecl_step_Specifier (n : Nat) (z1 : List ExportSpecifier) (z2 : Option Lit) :
    decodeNamedExportDecl (n + 1) (encodeNamedExportDecl (NamedExportDecl.Specifier z1 z2)) = (do pure (NamedExportDecl.Specifier (← decodeExportSpecifierList (encodeExportSpecifierList z1)) (← decodeOptLit n (encodeOptLit z2)))) := rfl

/-- One-step reduction of the decoder on an encoded `Stmt.Expr`. -/
theorem decodeStmt_step_Expr (n : Nat) (z1 : Expr) :
    decodeStmt (n + 1) (encodeStmt (Stmt.Expr z1)) = (do pure (Stmt.Expr (← decodeExpr n (encodeExpr z1)))) := rfl

/-- One-step reduction of the decoder on an encoded `Stmt.Block`. -/
theorem decodeStmt_step_Block (n : Nat) (z1 : List ProgramPart) :
    decodeStmt (n + 1) (encodeStmt (Stmt.Block z1)) = (do pure (Stmt.Block (← decodeProgramPartList n (encodeProgramPartList z1)))) := rfl

/-- One-step reduction of the decoder on an encoded `Stmt.Empty`. -/
theorem decodeStmt_step_Empty (n : Nat)  :
    decodeStmt (n + 1) (encodeStmt (Stmt.Empty)) = some Stmt.Empty := rfl

/-- One-step reduction of the decoder on an encoded `Stmt.Debugger`. -/
theorem decodeStmt_step_Debugger (n : Nat)  :
    decodeStmt (n + 1) (encodeStmt (Stmt.Debugger)) = some Stmt.Debugger := rfl

/-- One-step reduction of the decoder on an encoded `Stmt.With`. -/
theorem decodeStmt_step_With (n : Nat) (z1 : Expr) (z2 : Stmt) :
    decodeStmt (n + 1) (encodeStmt (Stmt.With z1 z2)) = (do pure (Stmt.With (← decodeExpr n (encodeExpr z1)) (← decodeStmt n (encodeStmt z2)))) := rfl

/-- One-step reduction of the decoder on an encoded `Stmt.Return`. -/
theorem decodeStmt_step_Return (n : Nat) (z1 : Option Expr) :
    decodeStmt (n + 1) (encodeStmt (Stmt.Return z1)) = (do pure (Stmt.Return (← decodeOptExpr n (encodeOptExpr z1)))) := rfl

/-- One-step reduction of the decoder on an encoded `Stmt.Labeled`. -/
theorem decodeStmt_step_Labeled (n : Nat) (z1 : Ident) (z2 : Stmt) :
    decodeStmt (n + 1) (encodeStmt (Stmt.Labeled z1 z2)) = (do pure (Stmt.Labeled (← decodeIdent (encodeIdent z1)) (← decodeStmt n (encodeStmt z2)))) := rfl

/-- One-step reduction of the decoder on an encoded `Stmt.Break`. -/
theorem decodeStmt_step_Break (n : Nat) (z1 : Option Ident) :
    decodeStmt (n + 1) (encodeStmt (Stmt.Break z1)) = (do pure (Stmt.Break (← decodeOptIdent (encodeOptIdent z1)))) := rfl

/-- One-step reduction of the decoder on an encoded `Stmt.Continue`. -/
theorem decodeStmt_step_Continue (n : Nat) (z1 : Option Ident) :
    decodeStmt (n + 1) (encodeStmt (Stmt.Continue z1)) = (do pure (Stmt.Continue (← decodeOptIdent (encodeOptIdent z1)))) := rfl

/-- One-step reduction of the decoder on an encoded `Stmt.If`. -/
theorem decodeStmt_step_If (n : Nat) (z1 : Expr) (z2 : Stmt) (z3 : Option Stmt) :
    decodeStmt (n + 1) (encodeStmt (Stmt.If z1 z2 z3)) = (do pure (Stmt.If (← decodeExpr n (encodeExpr z1)) (← decodeStmt n (encodeStmt z2)) (← decodeOptStmt n (encodeOptStmt z3)))) := rfl

/-- One-step reduction of the decoder on an encoded `Stmt.Switch`. -/
theorem decodeStmt_step_Switch (n : Nat) (z1 : Expr) (z2 : List SwitchCase) :
    decodeStmt (n + 1) (encodeStmt (Stmt.Switch z1 z2)) = (do pure (Stmt.Switch (← decodeExpr n (encodeExpr z1)) (← decodeSwitchCaseList n (encodeSwitchCaseList z2)))) := rfl

/-- One-step reduction of the decoder on an encoded `Stmt.Throw`. -/
theorem decodeStmt_step_Throw (n : Nat) (z1 : Expr) :
    decodeStmt (n + 1) (encodeStmt (Stmt.Throw z1)) = (do pure (Stmt.Throw (← decodeExpr n (encodeExpr z1)))) := rfl

/-- One-step reduction of the decoder on an encoded `Stmt.Try`. -/
theorem decodeStmt_step_Try (n : Nat) (z1 : List ProgramPart) (z2 : Option CatchClause) (z3 : Option (List ProgramPart)) :
    decodeStmt (n + 1) (encodeStmt (Stmt.Try z1 z2 z3)) = (do pure (Stmt.Try (← decodeProgramPartList n (encodeProgramPartList z1)) (← decodeOptCatchClause n (encodeOptCatchClause z2)) (← decodeOptProgramPartList n (encodeOptProgramPartList z3)))) := rfl

/-- One-step reduction of the decoder on an encoded `Stmt.While`. -/
theorem decodeStmt_step_While (n : Nat) (z1 : Expr) (z2 : Stmt) :
    decodeStmt (n + 1) (encodeStmt (Stmt.While z1 z2)) = (do pure (Stmt.While (← decodeExpr n (encodeExpr z1)) (← decodeStmt n (encodeStmt z2)))) := rfl

/-- One-step reduction of the decoder on an encoded `Stmt.DoWhile`. -/
theorem decodeStmt_step_DoWhile (n : Nat) (z1 : Stmt) (z2 : Expr) :
    decodeStmt (n + 1) (encodeStmt (Stmt.DoWhile z1 z2)) = (do pure (Stmt.DoWhile (← decodeStmt n (encodeStmt z1)) (← decodeExpr n (encodeExpr z2)))) := rfl

/-- One-step reduction of the decoder on an encoded `Stmt.For`. -/
theorem decodeStmt_step_For (n : Nat) (z1 : Option LoopInit) (z2 : Option Expr) (z3 : Option Expr) (z4 : Stmt) :
    decodeStmt (n + 1) (encodeStmt (Stmt.For z1 z2 z3 z4)) = (do pure (Stmt.For (← decodeOptLoopInit n (encodeOptLoopInit z1)) (← decodeOptExpr n (encodeOptExpr z2)) (← decodeOptExpr n (encodeOptExpr z3)) (← decodeStmt n (encodeStmt z4)))) := rfl

/-- One-step reduction of the decoder on an encoded `Stmt.ForIn`. -/
theorem decodeStmt_step_ForIn (n : Nat) (z1 : LoopLeft) (z2 : Expr) (z3 : Stmt) :
    decodeStmt (n + 1) (encodeStmt (Stmt.ForIn z1 z2 z3)) = (do pure (Stmt.ForIn (← decodeLoopLeft n (encodeLoopLeft z1)) (← decodeExpr n (encodeExpr z2)) (← decodeStmt n (encodeStmt z3)))) := rfl

/-- One-step reduction of the decoder on an encoded `Stmt.ForOf`. -/
theorem decodeStmt_step_ForOf (n : Nat) (z1 : LoopLeft) (z2 : Expr) (z3 : Stmt) :
    decodeStmt (n + 1) (encodeStmt (Stmt.ForOf z1 z2 z3)) = (do pure (Stmt.ForOf (← decodeLoopLeft n (encodeLoopLeft z1)) (← decodeExpr n (encodeExpr z2)) (← decodeStmt n (encodeStmt z3)))) := rfl

/-- One-step reduction of the decoder on an encoded `Stmt.Var`. -/
theorem decodeStmt_step_Var (n : Nat) (z1 : List VarDecl) :
    decodeStmt (n + 1) (encodeStmt (Stmt.Var z1)) = (do pure (Stmt.Var (← decodeVarDeclList n (encodeVarDeclList z1)))) := rfl

/-- One-step reduction of the decoder on an encoded `SwitchCase.mk`. -/
theorem decodeSwitchCase_step_mk (n : Nat) (z1 : Option Expr) (z2 : List ProgramPart) :
    decodeSwitchCase (n + 1) (encodeSwitchCase (SwitchCase.mk z1 z2)) = (do pure (SwitchCase.mk (← decodeOptExpr n (encodeOptExpr z1)) (← decodeProgramPartList n (encodeProgramPartList z2)))) := rfl

/-- One-step reduction of the list decoder on an encoded cons cell. -/
theorem decodeSwitchCaseList_step_cons (n : Nat) (z : SwitchCase) (zs : List SwitchCase) :
    decodeSwitchCaseList (n + 1) (encodeSwitchCaseList (z :: zs)) =
      (do pure (((← decodeSwitchCase n (encodeSwitchCase z))) :: (← decodeSwitchCaseList n (encodeSwitchCaseList zs)))) := rfl

/-- One-step reduction of the decoder on an encoded `CatchClause.mk`. -/
theorem decodeCatchClause_step_mk (n : Nat) (z1 : Option Pat) (z2 : List ProgramPart) :
    decodeCatchClause (n + 1) (encodeCatchClause (CatchClause.mk z1 z2)) = (do pure (CatchClause.mk (← decodeOptPat n (encodeOptPat z1)) (← decodeProgramPartList n (encodeProgramPartList z2)))) := rfl

/-- One-step reduction of the decoder on an encoded `LoopInit.Variable`. -/
theorem decodeLoopInit_step_Variable (n : Nat) (z1 : VarKind) (z2 : List VarDecl) :
    decodeLoopInit (n + 1) (encodeLoopInit (LoopInit.Variable z1 z2)) = (do pure (LoopInit.Variable (← decodeVarKind (encodeVarKind z1)) (← decodeVarDeclList n (encodeVarDeclList z2)))) := rfl

/-- One-step reduction of the decoder on an encoded `LoopInit.Expr`. -/
theorem decodeLoopInit_step_Expr (n : Nat) (z1 : Expr) :
    decodeLoopInit (n + 1) (encodeLoopInit (LoopInit.Expr z1)) = (do pure (LoopInit.Expr (← decodeExpr n (encodeExpr z1)))) := rfl

/-- One-step reduction of the decoder on an encoded `LoopLeft.Variable`. -/
theorem decodeLoopLeft_step_Variable (n : Nat) (z1 : VarKind) (z2 : VarDecl) :
    decodeLoopLeft (n + 1) (encodeLoopLeft (LoopLeft.Variable z1 z2)) = (do pure (LoopLeft.Variable (← decodeVarKind (encodeVarKind z1)) (← decodeVarDecl n (encodeVarDecl z2)))) := rfl

/-- One-step reduction of the decoder on an encoded `LoopLeft.Pat`. -/
theorem decodeLoopLeft_step_Pat (n : Nat) (z1 : Pat) :
    decodeLoopLeft (n + 1) (encodeLoopLeft (LoopLeft.Pat z1)) = (do pure (LoopLeft.Pat (← decodePat n (encodePat z1)))) := rfl

/-- One-step reduction of the decoder on an encoded `LoopLeft.Expr`. -/
theorem decodeLoopLeft_step_Expr (n : Nat) (z1 : Expr) :
    decodeLoopLeft (n + 1) (encodeLoopLeft (LoopLeft.Expr z1)) = (do pure (LoopLeft.Expr (← decodeExpr n (encodeExpr z1)))) := rfl

/-- One-step reduction of the decoder on an encoded `ProgramPart.Dir`. -/
theorem decodeProgramPart_step_Dir (n : Nat) (z1 : Dir) :
    decodeProgramPart (n + 1) (encodeProgramPart (ProgramPart.Dir z1)) = (do pure (ProgramPart.Dir (← decodeDir n (encodeDir z1)))) := rfl

/-- One-step reduction of the decoder on an encoded `ProgramPart.Decl`. -/
theorem decodeProgramPart_step_Decl (n : Nat) (z1 : Decl) :
    decodeProgramPart (n + 1) (encodeProgramPart (ProgramPart.Decl z1)) = (do pure (ProgramPart.Decl (← decodeDecl n (encodeDecl z1)))) := rfl

/-- One-step reduction of the decoder on an encoded `ProgramPart.Stmt`. -/
theorem decodeProgramPart_step_Stmt (n : Nat) (z1 : Stmt) :
    decodeProgramPart (n + 1) (encodeProgramPart (ProgramPart.Stmt z1)) = (do pure (ProgramPart.Stmt (← decodeStmt n (encodeStmt z1)))) := rfl

/-- One-step reduction of the list decoder on an encoded cons cell. -/
theorem decodeProgramPartList_step_cons (n : Nat) (z : ProgramPart) (zs : List ProgramPart) :
    decodeProgramPartList (n + 1) (encodeProgramPartList (z :: zs)) =
      (do pure (((← decodeProgramPart n (encodeProgramPart z))) :: (← decodeProgramPartList n (encodeProgramPartList zs)))) := rfl

/-- One-step reduction of the optional-list decoder on an encoded value. -/
theorem decodeOptProgramPartList_step_some (n : Nat) (z : List ProgramPart) :
    decodeOptProgramPartList (n + 1) (encodeOptProgramPartList (some z)) = (decodeProgramPartList n (encodeProgramPartList z)).map some := rfl

/-- One-step reduction of the decoder on an encoded `Dir.mk`. -/
theorem decodeDir_step_mk (n : Nat) (z1 : Lit) (z2 : Cow) :
    decodeDir (n + 1) (encodeDir (Dir.mk z1 z2)) = (do pure (Dir.mk (← decodeLit n (encodeLit z1)) (← decodeCow (encodeCow z2)))) := rfl

/-- One-step reduction of the `Program` decoder on an encoded module. -/
theorem decodeProgram_step_Mod (n : Nat) (ps : List ProgramPart) :
    decodeProgram (n + 1) (encodeProgram (Program.Mod ps)) =
      (do pure (Program.Mod (← decodeProgramPartList n (encodeProgramPartList ps)))) := rfl

/-- One-step reduction of the `Program` decoder on an encoded script. -/
theorem decodeProgram_step_Script (n : Nat) (ps : List ProgramPart) :
    decodeProgram (n + 1) (encodeProgram (Program.Script ps)) =
      (do pure (Program.Script (← decodeProgramPartList n (encodeProgramPartList ps)))) := rfl

/-- Bounded round-trip of the adapter: decoding an encoded node, with fuel
at least its size, yields its owned normal form, for every node family at
once. -/
theorem decodeEncodeAux : ∀ n : Nat,
    (∀ x : Expr, sizeOf x ≤ n → decodeExpr n (encodeExpr x) = some (normExpr x)) ∧
    (∀ x : List Expr, sizeOf x ≤ n → decodeExprList n (encodeExprList x) = some (normExprList x)) ∧
    (∀ x : Option Expr, sizeOf x ≤ n → decodeOptExpr n (encodeOptExpr x) = some (normOptExpr x)) ∧
    (∀ x : List (Option Expr), sizeOf x ≤ n → decodeOptExprList n (encodeOptExprList x) = some (normOptExprList x)) ∧
    (∀ x : Lit, sizeOf x ≤ n → decodeLit n (encodeLit x) = some (normLit x)) ∧
    (∀ x : Option Lit, sizeOf x ≤ n → decodeOptLit n (encodeOptLit x) = some (normOptLit x)) ∧
    (∀ x : TemplateLit, sizeOf x ≤ n → decodeTemplateLit n (encodeTemplateLit x) = some (normTemplateLit x)) ∧
    (∀ x : AssignLeft, sizeOf x ≤ n → decodeAssignLeft n (encodeAssignLeft x) = some (normAssignLeft x)) ∧
    (∀ x : ObjProp, sizeOf x ≤ n → decodeObjProp n (encodeObjProp x) = some (normObjProp x)) ∧
    (∀ x : List ObjProp, sizeOf x ≤ n → decodeObjPropList n (encodeObjPropList x) = some (normObjPropList x)) ∧
    (∀ x : PropKey, sizeOf x ≤ n → decodePropKey n (encodePropKey x) = some (normPropKey x)) ∧
    (∀ x : PropValue, sizeOf x ≤ n → decodePropValue n (encodePropValue x) = some (normPropValue x)) ∧
    (∀ x : Func, sizeOf x ≤ n → decodeFunc n (encodeFunc x) = some (normFunc x)) ∧
    (∀ x : FuncArg, sizeOf x ≤ n → decodeFuncArg n (encodeFuncArg x) = some (normFuncArg x)) ∧
    (∀ x : List FuncArg, sizeOf x ≤ n → decodeFuncArgList n (encodeFuncArgList x) = some (normFuncArgList x)) ∧
    (∀ x : FuncBody, sizeOf x ≤ n → decodeFuncBody n (encodeFuncBody x) = some (normFuncBody x)) ∧
    (∀ x : ArrowFuncBody, sizeOf x ≤ n → decodeArrowFuncBody n (encodeArrowFuncBody x) = some (normArrowFuncBody x)) ∧
    (∀ x : Class, sizeOf x ≤ n → decodeClass n (encodeClass x) = some (normClass x)) ∧
    (∀ x : ClassBody, sizeOf x ≤ n → decodeClassBody n (encodeClassBody x) = some (normClassBody x)) ∧
    (∀ x : Pat, sizeOf x ≤ n → decodePat n (encodePat x) = some (normPat x)) ∧
    (∀ x : Option Pat, sizeOf x ≤ n → decodeOptPat n (encodeOptPat x) = some (normOptPat x)) ∧
    (∀ x : List ObjPatPart, sizeOf x ≤ n → decodeObjPatPartList n (encodeObjPatPartList x) = some (normObjPatPartList x)) ∧
    (∀ x : ObjPatPart, sizeOf x ≤ n → decodeObjPatPart n (encodeObjPatPart x) = some (normObjPatPart x)) ∧
    (∀ x : Option ArrayPatPart, sizeOf x ≤ n → decodeOptArrayPatPart n (encodeOptArrayPatPart x) = some (normOptArrayPatPart x)) ∧
    (∀ x : List (Option ArrayPatPart), sizeOf x ≤ n → decodeOptArrayPatPartList n (encodeOptArrayPatPartList x) = some (normOptArrayPatPartList x)) ∧
    (∀ x : ArrayPatPart, sizeOf x ≤ n → decodeArrayPatPart n (encodeArrayPatPart x) = some (normArrayPatPart x)) ∧
    (∀ x : AssignPat, sizeOf x ≤ n → decodeAssignPat n (encodeAssignPat x) = some (normAssignPat x)) ∧
    (∀ x : VarDecl, sizeOf x ≤ n → decodeVarDecl n (encodeVarDecl x) = some (normVarDecl x)) ∧
    (∀ x : List VarDecl, sizeOf x ≤ n → decodeVarDeclList n (encodeVarDeclList x) = some (normVarDeclList x)) ∧
    (∀ x : Decl, sizeOf x ≤ n → decodeDecl n (encodeDecl x) = some (normDecl x)) ∧
    (∀ x : ModImport, sizeOf x ≤ n → decodeModImport n (encodeModImport x) = some (normModImport x)) ∧
    (∀ x : ImportSpecifier, sizeOf x ≤ n → decodeImportSpecifier n (encodeImportSpecifier x) = some (normImportSpecifier x)) ∧
    (∀ x : List ImportSpecifier, sizeOf x ≤ n → decodeImportSpecifierList n (encodeImportSpecifierList x) = some (normImportSpecifierList x)) ∧
    (∀ x : ModExport, sizeOf x ≤ n → decodeModExport n (encodeModExport x) = some (normModExport x)) ∧
    (∀ x : DefaultExportDecl, sizeOf x ≤ n → decodeDefaultExportDecl n (encodeDefaultExportDecl x) = some (normDefaultExportDecl x)) ∧
    (∀ x : NamedExportDecl, sizeOf x ≤ n → decodeNamedExportDecl n (encodeNamedExportDecl x) = some (normNamedExportDecl x)) ∧
    (∀ x : Stmt, sizeOf x ≤ n → decodeStmt n (encodeStmt x) = some (normStmt x)) ∧
    (∀ x : Option Stmt, sizeOf x ≤ n → decodeOptStmt n (encodeOptStmt x) = some (normOptStmt x)) ∧
    (∀ x : SwitchCase, sizeOf x ≤ n → decodeSwitchCase n (encodeSwitchCase x) = some (normSwitchCase x)) ∧
    (∀ x : List SwitchCase, sizeOf x ≤ n → decodeSwitchCaseList n (encodeSwitchCaseList x) = some (normSwitchCaseList x)) ∧
    (∀ x : CatchClause, sizeOf x ≤ n → decodeCatchClause n (encodeCatchClause x) = some (normCatchClause x)) ∧
    (∀ x : Option CatchClause, sizeOf x ≤ n → decodeOptCatchClause n (encodeOptCatchClause x) = some (normOptCatchClause x)) ∧
    (∀ x : LoopInit, sizeOf x ≤ n → decodeLoopInit n (encodeLoopInit x) = some (normLoopInit x)) ∧
    (∀ x : Option LoopInit, sizeOf x ≤ n → decodeOptLoopInit n (encodeOptLoopInit x) = some (normOptLoopInit x)) ∧
    (∀ x : LoopLeft, sizeOf x ≤ n → decodeLoopLeft n (encodeLoopLeft x) = some (normLoopLeft x)) ∧
    (∀ x : ProgramPart, sizeOf x ≤ n → decodeProgramPart n (encodeProgramPart x) = some (normProgramPart x)) ∧
    (∀ x : List ProgramPart, sizeOf x ≤ n → decodeProgramPartList n (encodeProgramPartList x) = some (normProgramPartList x)) ∧
    (∀ x : Option (List ProgramPart), sizeOf x ≤ n → decodeOptProgramPartList n (encodeOptProgramPartList x) = some (normOptProgramPartList x)) ∧
    (∀ x : Dir, sizeOf x ≤ n → decodeDir n (encodeDir x) = some (normDir x)) := by
  intro n
  induction n with
  | zero =>
    refine ⟨?_, ?_, ?_, ?_, ?_, ?_, ?_, ?_, ?_, ?_, ?_, ?_, ?_, ?_, ?_, ?_, ?_, ?_, ?_, ?_, ?_, ?_, ?_, ?_, ?_, ?_, ?_, ?_, ?_, ?_, ?_, ?_, ?_, ?_, ?_, ?_, ?_, ?_, ?_, ?_, ?_, ?_, ?_, ?_, ?_, ?_, ?_, ?_, ?_⟩
    all_goals intro x h
    all_goals (cases x <;> simp at h <;> omega)
  | succ n ih =>
    obtain ⟨ihE, ihEL, ihOE, ihOEL, ihL, ihOL, ihTL, ihALf, ihOP, ihOPL, ihPK, ihPV, ihF, ihFA, ihFAL, ihFB, ihAFB, ihCl, ihCB, ihP, ihOPt, ihOPPl, ihOPPart, ihOAPP, ihOAPPL, ihAPP, ihAPat, ihVD, ihVDL, ihD, ihMI, ihIS, ihISL, ihME, ihDED, ihNED, ihS, ihOS, ihSCase, ihSCL, ihCC, ihOCC, ihLI, ihOLI, ihLL, ihPPart, ihPPL, ihOPPL2, ihDIR⟩ := ih
    refine ⟨?_, ?_, ?_, ?_, ?_, ?_, ?_, ?_, ?_, ?_, ?_, ?_, ?_, ?_, ?_, ?_, ?_, ?_, ?_, ?_, ?_, ?_, ?_, ?_, ?_, ?_, ?_, ?_, ?_, ?_, ?_, ?_, ?_, ?_, ?_, ?_, ?_, ?_, ?_, ?_, ?_, ?_, ?_, ?_, ?_, ?_, ?_, ?_, ?_⟩
    · intro x h
      cases x with
      | Ident z1 =>
        rw [decodeExpr_step_Ident, decodeIdent_encodeIdent z1]
        all_goals rfl
      | Lit z1 =>
        rw [decodeExpr_step_Lit, ihL z1 (by simp at h; omega)]
        all_goals rfl
      | This =>
        rw [decodeExpr_step_This]
        all_goals rfl
      | Array z1 =>
        rw [decodeExpr_step_Array, ihOEL z1 (by simp at h; omega)]
        all_goals rfl
      | Obj z1 =>
        rw [decodeExpr_step_Obj, ihOPL z1 (by simp at h; omega)]
        all_goals rfl
      | Func z1 =>
        rw [decodeExpr_step_Func, ihF z1 (by simp at h; omega)]
        all_goals rfl
      | Class z1 =>
        rw [decodeExpr_step_Class, ihCl z1 (by simp at h; omega)]
        all_goals rfl
      | Unary z1 z2 z3 =>
        rw [decodeExpr_step_Unary, decodeUnaryOp_enc z1, ihE z3 (by simp at h; omega)]
        all_goals rfl
      | Update z1 z2 z3 =>
        rw [decodeExpr_step_Update, decodeUpdateOp_enc z1, ihE z3 (by simp at h; omega)]
        all_goals rfl
      | Binary z1 z2 z3 =>
        rw [decodeExpr_step_Binary, decodeBinaryOp_enc z1, ihE z2 (by simp at h; omega), ihE z3 (by simp at h; omega)]
        all_goals rfl
      | Logical z1 z2 z3 =>
        rw [decodeExpr_step_Logical, decodeLogicalOp_enc z1, ihE z2 (by simp at h; omega), ihE z3 (by simp at h; omega)]
        all_goals rfl
      | Assign z1 z2 z3 =>
        rw [decodeExpr_step_Assign, decodeAssignOp_enc z1, ihALf z2 (by simp at h; omega), ihE z3 (by simp at h; omega)]
        all_goals rfl
      | Conditional z1 z2 z3 =>
        rw [decodeExpr_step_Conditional, ihE z1 (by simp at h; omega), ihE z2 (by simp at h; omega), ihE z3 (by simp at h; omega)]
        all_goals rfl
      | Call z1 z2 =>
        rw [decodeExpr_step_Call, ihE z1 (by simp at h; omega), ihEL z2 (by simp at h; omega)]
        all_goals rfl
      | New z1 z2 =>
        rw [decodeExpr_step_New, ihE z1 (by simp at h; omega), ihEL z2 (by simp at h; omega)]
        all_goals rfl
      | Member z1 z2 z3 =>
        rw [decodeExpr_step_Member, ihE z1 (by simp at h; omega), ihE z2 (by simp at h; omega)]
        all_goals rfl
      | Sequence z1 =>
        rw [decodeExpr_step_Sequence, ihEL z1 (by simp at h; omega)]
        all_goals rfl
      | Spread z1 =>
        rw [decodeExpr_step_Spread, ihE z1 (by simp at h; omega)]
        all_goals rfl
      | ArrowFunc z1 z2 z3 =>
        rw [decodeExpr_step_ArrowFunc, ihFAL z1 (by simp at h; omega), ihAFB z2 (by simp at h; omega)]
        all_goals rfl
      | Yield z1 z2 =>
        rw [decodeExpr_step_Yield, ihOE z1 (by simp at h; omega)]
        all_goals rfl
      | TaggedTemplate z1 z2 =>
        rw [decodeExpr_step_TaggedTemplate, ihE z1 (by simp at h; omega), ihTL z2 (by simp at h; omega)]
        all_goals rfl
      | MetaProp z1 z2 =>
        rw [decodeExpr_step_MetaProp, decodeIdent_encodeIdent z1, decodeIdent_encodeIdent z2]
        all_goals rfl
    · intro x h
      cases x with
      | nil => rfl
      | cons z zs =>
        rw [decodeExprList_step_cons, ihE z (by simp at h; omega), ihEL zs (by simp at h; omega)]
        all_goals rfl
    · intro x h
      cases x with
      | none => rfl
      | some z =>
        simp only [encodeOptExpr, normOptExpr]
        rw [decodeOptExpr_not_null n _ (encodeExpr_ne_null z), ihE z (by simp at h; omega)]
        all_goals rfl
    · intro x h
      cases x with
      | nil => rfl
      | cons z zs =>
        rw [decodeOptExprList_step_cons, ihOE z (by simp at h; omega), ihOEL zs (by simp at h; omega)]
        all_goals rfl
    · intro x h
      cases x with
      | Null =>
        rw [decodeLit_step_Null]
        all_goals rfl
      | Boolean z1 =>
        rw [decodeLit_step_Boolean]
        all_goals rfl
      | Number z1 =>
        rw [decodeLit_step_Number, decodeCow_encodeCow z1]
        all_goals rfl
      | String z1 =>
        rw [decodeLit_step_String, decodeCow_encodeCow z1]
        all_goals rfl
      | RegEx z1 z2 =>
        rw [decodeLit_step_RegEx, decodeCow_encodeCow z1, decodeCow_encodeCow z2]
        all_goals rfl
      | Template z1 =>
        rw [decodeLit_step_Template, ihTL z1 (by simp at h; omega)]
        all_goals rfl
    · intro x h
      cases x with
      | none => rfl
      | some z =>
        simp only [encodeOptLit, normOptLit]
        rw [decodeOptLit_not_null n _ (encodeLit_ne_null z), ihL z (by simp at h; omega)]
        all_goals rfl
    · intro x h
      cases x with
      | mk z1 z2 =>
        rw [decodeTemplateLit_step_mk, decodeCowList_encodeCowList z1, ihEL z2 (by simp at h; omega)]
        all_goals rfl
    · intro x h
      cases x with
      | Pat z1 =>
        rw [decodeAssignLeft_step_Pat, ihP z1 (by simp at h; omega)]
        all_goals rfl
      | Expr z1 =>
        rw [decodeAssignLeft_step_Expr, ihE z1 (by simp at h; omega)]
        all_goals rfl
    · intro x h
      cases x with
      | mk z1 z2 z3 z4 z5 =>
        rw [decodeObjProp_step_mk, ihPK z1 (by simp at h; omega), ihPV z2 (by simp at h; omega), decodePropKind_enc z3]
        all_goals rfl
    · intro x h
      cases x with
      | nil => rfl
      | cons z zs =>
        rw [decodeObjPropList_step_cons, ihOP z (by simp at h; omega), ihOPL zs (by simp at h; omega)]
        all_goals rfl
    · intro x h
      cases x with
      | Lit z1 =>
        rw [decodePropKey_step_Lit, ihL z1 (by simp at h; omega)]
        all_goals rfl
      | Expr z1 =>
        rw [decodePropKey_step_Expr, ihE z1 (by simp at h; omega)]
        all_goals rfl
      | Pat z1 =>
        rw [decodePropKey_step_Pat, ihP z1 (by simp at h; omega)]
        all_goals rfl
    · intro x h
      cases x with
      | Expr z1 =>
        rw [decodePropValue_step_Expr, ihE z1 (by simp at h; omega)]
        all_goals rfl
      | Pat z1 =>
        rw [decodePropValue_step_Pat, ihP z1 (by simp at h; omega)]
        all_goals rfl
      | None =>
        rw [decodePropValue_step_None]
        all_goals rfl
    · intro x h
      cases x with
      | mk z1 z2 z3 z4 z5 =>
        rw [decodeFunc_step_mk, decodeOptIdent_enc z1, ihFAL z2 (by simp at h; omega), ihFB z3 (by simp at h; omega)]
        all_goals rfl
    · intro x h
      cases x with
      | Expr z1 =>
        rw [decodeFuncArg_step_Expr, ihE z1 (by simp at h; omega)]
        all_goals rfl
      | Pat z1 =>
        rw [decodeFuncArg_step_Pat, ihP z1 (by simp at h; omega)]
        all_goals rfl
    · intro x h
      cases x with
      | nil => rfl
      | cons z zs =>
        rw [decodeFuncArgList_step_cons, ihFA z (by simp at h; omega), ihFAL zs (by simp at h; omega)]
        all_goals rfl
    · intro x h
      cases x with
      | mk z1 =>
        rw [decodeFuncBody_step_mk, ihPPL z1 (by simp at h; omega)]
        all_goals rfl
    · intro x h
      cases x with
      | FuncBody z1 =>
        rw [decodeArrowFuncBody_step_FuncBody, ihFB z1 (by simp at h; omega)]
        all_goals rfl
      | Expr z1 =>
        rw [decodeArrowFuncBody_step_Expr, ihE z1 (by simp at h; omega)]
        all_goals rfl
    · intro x h
      cases x with
      | mk z1 z2 z3 =>
        rw [decodeClass_step_mk, decodeOptIdent_enc z1, ihOE z2 (by simp at h; omega), ihCB z3 (by simp at h; omega)]
        all_goals rfl
    · intro x h
      cases x with
      | mk z1 =>
        rw [decodeClassBody_step_mk, ihOPL z1 (by simp at h; omega)]
        all_goals rfl
    · intro x h
      cases x with
      | Ident z1 =>
        rw [decodePat_step_Ident, decodeIdent_encodeIdent z1]
        all_goals rfl
      | Obj z1 =>
        rw [decodePat_step_Obj, ihOPPl z1 (by simp at h; omega)]
        all_goals rfl
      | Array z1 =>
        rw [decodePat_step_Array, ihOAPPL z1 (by simp at h; omega)]
        all_goals rfl
      | RestElement z1 =>
        rw [decodePat_step_RestElement, ihP z1 (by simp at h; omega)]
        all_goals rfl
      | Assign z1 =>
        rw [decodePat_step_Assign, ihAPat z1 (by simp at h; omega)]
        all_goals rfl
    · intro x h
      cases x with
      | none => rfl
      | some z =>
        simp only [encodeOptPat, normOptPat]
        rw [decodeOptPat_not_null n _ (encodePat_ne_null z), ihP z (by simp at h; omega)]
        all_goals rfl
    · intro x h
      cases x with
      | nil => rfl
      | cons z zs =>
        rw [decodeObjPatPartList_step_cons, ihOPPart z (by simp at h; omega), ihOPPl zs (by simp at h; omega)]
        all_goals rfl
    · intro x h
      cases x with
      | Assign z1 =>
        rw [decodeObjPatPart_step_Assign, ihOP z1 (by simp at h; omega)]
        all_goals rfl
      | Rest z1 =>
        rw [decodeObjPatPart_step_Rest, ihP z1 (by simp at h; omega)]
        all_goals rfl
    · intro x h
      cases x with
      | none => rfl
      | some z =>
        simp only [encodeOptArrayPatPart, normOptArrayPatPart]
        rw [decodeOptArrayPatPart_not_null n _ (encodeArrayPatPart_ne_null z), ihAPP z (by simp at h; omega)]
        all_goals rfl
    · intro x h
      cases x with
      | nil => rfl
      | cons z zs =>
        rw [decodeOptArrayPatPartList_step_cons, ihOAPP z (by simp at h; omega), ihOAPPL zs (by simp at h; omega)]
        all_goals rfl
    · intro x h
      cases x with
      | Pat z1 =>
        rw [decodeArrayPatPart_step_Pat, ihP z1 (by simp at h; omega)]
        all_goals rfl
      | Expr z1 =>
        rw [decodeArrayPatPart_step_Expr, ihE z1 (by simp at h; omega)]
        all_goals rfl
    · intro x h
      cases x with
      | mk z1 z2 =>
        rw [decodeAssignPat_step_mk, ihP z1 (by simp at h; omega), ihE z2 (by simp at h; omega)]
        all_goals rfl
    · intro x h
      cases x with
      | mk z1 z2 =>
        rw [decodeVarDecl_step_mk, ihP z1 (by simp at h; omega), ihOE z2 (by simp at h; omega)]
        all_goals rfl
    · intro x h
      cases x with
      | nil => rfl
      | cons z zs =>
        rw [decodeVarDeclList_step_cons, ihVD z (by simp at h; omega), ihVDL zs (by simp at h; omega)]
        all_goals rfl
    · intro x h
      cases x with
      | Var z1 z2 =>
        rw [decodeDecl_step_Var, decodeVarKind_enc z1, ihVDL z2 (by simp at h; omega)]
        all_goals rfl
      | Func z1 =>
        rw [decodeDecl_step_Func, ihF z1 (by simp at h; omega)]
        all_goals rfl
      | Class z1 =>
        rw [decodeDecl_step_Class, ihCl z1 (by simp at h; omega)]
        all_goals rfl
      | Import z1 =>
        rw [decodeDecl_step_Import, ihMI z1 (by simp at h; omega)]
        all_goals rfl
      | Export z1 =>
        rw [decodeDecl_step_Export, ihME z1 (by simp at h; omega)]
        all_goals rfl
    · intro x h
      cases x with
      | mk z1 z2 =>
        rw [decodeModImport_step_mk, ihISL z1 (by simp at h; omega), ihL z2 (by simp at h; omega)]
        all_goals rfl
    · intro x h
      cases x with
      | Default z1 =>
        rw [decodeImportSpecifier_step_Default, decodeIdent_encodeIdent z1]
        all_goals rfl
      | Namespace z1 =>
        rw [decodeImportSpecifier_step_Namespace, decodeIdent_encodeIdent z1]
        all_goals rfl
      | Normal z1 =>
        rw [decodeImportSpecifier_step_Normal, decodeNormalImportSpecList_enc z1]
        all_goals rfl
    · intro x h
      cases x with
      | nil => rfl
      | cons z zs =>
        rw [decodeImportSpecifierList_step_cons, ihIS z (by simp at h; omega), ihISL zs (by simp at h; omega)]
        all_goals rfl
    · intro x h
      cases x with
      | All z1 =>
        rw [decodeModExport_step_All, ihL z1 (by simp at h; omega)]
        all_goals rfl
      | Default z1 =>
        rw [decodeModExport_step_Default, ihDED z1 (by simp at h; omega)]
        all_goals rfl
      | Named z1 =>
        rw [decodeModExport_step_Named, ihNED z1 (by simp at h; omega)]
        all_goals rfl
    · intro x h
      cases x with
      | Decl z1 =>
        rw [decodeDefaultExportDecl_step_Decl, ihD z1 (by simp at h; omega)]
        all_goals rfl
      | Expr z1 =>
        rw [decodeDefaultExportDecl_step_Expr, ihE z1 (by simp at h; omega)]
        all_goals rfl
    · intro x h
      cases x with
      | Decl z1 =>
        rw [decodeNamedExportDecl_step_Decl, ihD z1 (by simp at h; omega)]
        all_goals rfl
      | Specifier z1 z2 =>
        rw [decodeNamedExportDecl_step_Specifier, decodeExportSpecifierList_enc z1, ihOL z2 (by simp at h; omega)]
        all_goals rfl
    · intro x h
      cases x with
      | Expr z1 =>
        rw [decodeStmt_step_Expr, ihE z1 (by simp at h; omega)]
        all_goals rfl
      | Block z1 =>
        rw [decodeStmt_step_Block, ihPPL z1 (by simp at h; omega)]
        all_goals rfl
      | Empty =>
        rw [decodeStmt_step_Empty]
        all_goals rfl
      | Debugger =>
        rw [decodeStmt_step_Debugger]
        all_goals rfl
      | With z1 z2 =>
        rw [decodeStmt_step_With, ihE z1 (by simp at h; omega), ihS z2 (by simp at h; omega)]
        all_goals rfl
      | Return z1 =>
        rw [decodeStmt_step_Return, ihOE z1 (by simp at h; omega)]
        all_goals rfl
      | Labeled z1 z2 =>
        rw [decodeStmt_step_Labeled, decodeIdent_encodeIdent z1, ihS z2 (by simp at h; omega)]
        all_goals rfl
      | Break z1 =>
        rw [decodeStmt_step_Break, decodeOptIdent_enc z1]
        all_goals rfl
      | Continue z1 =>
        rw [decodeStmt_step_Continue, decodeOptIdent_enc z1]
        all_goals rfl
      | If z1 z2 z3 =>
        rw [decodeStmt_step_If, ihE z1 (by simp at h; omega), ihS z2 (by simp at h; omega), ihOS z3 (by simp at h; omega)]
        all_goals rfl
      | Switch z1 z2 =>
        rw [decodeStmt_step_Switch, ihE z1 (by simp at h; omega), ihSCL z2 (by simp at h; omega)]
        all_goals rfl
      | Throw z1 =>
        rw [decodeStmt_step_Throw, ihE z1 (by simp at h; omega)]
        all_goals rfl
      | Try z1 z2 z3 =>
        rw [decodeStmt_step_Try, ihPPL z1 (by simp at h; omega), ihOCC z2 (by simp at h; omega), ihOPPL2 z3 (by simp at h; omega)]
        all_goals rfl
      | While z1 z2 =>
        rw [decodeStmt_step_While, ihE z1 (by simp at h; omega), ihS z2 (by simp at h; omega)]
        all_goals rfl
      | DoWhile z1 z2 =>
        rw [decodeStmt_step_DoWhile, ihS z1 (by simp at h; omega), ihE z2 (by simp at h; omega)]
        all_goals rfl
      | For z1 z2 z3 z4 =>
        rw [decodeStmt_step_For, ihOLI z1 (by simp at h; omega), ihOE z2 (by simp at h; omega), ihOE z3 (by simp at h; omega), ihS z4 (by simp at h; omega)]
        all_goals rfl
      | ForIn z1 z2 z3 =>
        rw [decodeStmt_step_ForIn, ihLL z1 (by simp at h; omega), ihE z2 (by simp at h; omega), ihS z3 (by simp at h; omega)]
        all_goals rfl
      | ForOf z1 z2 z3 =>
        rw [decodeStmt_step_ForOf, ihLL z1 (by simp at h; omega), ihE z2 (by simp at h; omega), ihS z3 (by simp at h; omega)]
        all_goals rfl
      | Var z1 =>
        rw [decodeStmt_step_Var, ihVDL z1 (by simp at h; omega)]
        all_goals rfl
    · intro x h
      cases x with
      | none => rfl
      | some z =>
        simp only [encodeOptStmt, normOptStmt]
        rw [decodeOptStmt_not_null n _ (encodeStmt_ne_null z), ihS z (by simp at h; omega)]
        all_goals rfl
    · intro x h
      cases x with
      | mk z1 z2 =>
        rw [decodeSwitchCase_step_mk, ihOE z1 (by simp at h; omega), ihPPL z2 (by simp at h; omega)]
        all_goals rfl
    · intro x h
      cases x with
      | nil => rfl
      | cons z zs =>
        rw [decodeSwitchCaseList_step_cons, ihSCase z (by simp at h; omega), ihSCL zs (by simp at h; omega)]
        all_goals rfl
    · intro x h
      cases x with
      | mk z1 z2 =>
        rw [decodeCatchClause_step_mk, ihOPt z1 (by simp at h; omega), ihPPL z2 (by simp at h; omega)]
        all_goals rfl
    · intro x h
      cases x with
      | none => rfl
      | some z =>
        simp only [encodeOptCatchClause, normOptCatchClause]
        rw [decodeOptCatchClause_not_null n _ (encodeCatchClause_ne_null z), ihCC z (by simp at h; omega)]
        all_goals rfl
    · intro x h
      cases x with
      | Variable z1 z2 =>
        rw [decodeLoopInit_step_Variable, decodeVarKind_enc z1, ihVDL z2 (by simp at h; omega)]
        all_goals rfl
      | Expr z1 =>
        rw [decodeLoopInit_step_Expr, ihE z1 (by simp at h; omega)]
        all_goals rfl
    · intro x h
      cases x with
      | none => rfl
      | some z =>
        simp only [encodeOptLoopInit, normOptLoopInit]
        rw [decodeOptLoopInit_not_null n _ (encodeLoopInit_ne_null z), ihLI z (by simp at h; omega)]
        all_goals rfl
    · intro x h
      cases x with
      | Variable z1 z2 =>
        rw [decodeLoopLeft_step_Variable, decodeVarKind_enc z1, ihVD z2 (by simp at h; omega)]
        all_goals rfl
      | Pat z1 =>
        rw [decodeLoopLeft_step_Pat, ihP z1 (by simp at h; omega)]
        all_goals rfl
      | Expr z1 =>
        rw [decodeLoopLeft_step_Expr, ihE z1 (by simp at h; omega)]
        all_goals rfl
    · intro x h
      cases x with
      | Dir z1 =>
        rw [decodeProgramPart_step_Dir, ihDIR z1 (by simp at h; omega)]
        all_goals rfl
      | Decl z1 =>
        rw [decodeProgramPart_step_Decl, ihD z1 (by simp at h; omega)]
        all_goals rfl
      | Stmt z1 =>
        rw [decodeProgramPart_step_Stmt, ihS z1 (by simp at h; omega)]
        all_goals rfl
    · intro x h
      cases x with
      | nil => rfl
      | cons z zs =>
        rw [decodeProgramPartList_step_cons, ihPPart z (by simp at h; omega), ihPPL zs (by simp at h; omega)]
        all_goals rfl
    · intro x h
      cases x with
      | none => rfl
      | some z =>
        rw [decodeOptProgramPartList_step_some, ihPPL z (by simp at h; omega)]
        all_goals rfl
    · intro x h
      cases x with
      | mk z1 z2 =>
        rw [decodeDir_step_mk, ihL z1 (by simp at h; omega), decodeCow_encodeCow z2]
        all_goals rfl


/-!
Corollaries of the two bounded inductions, and the claim theorems.
-/

/-- The owned normal form of an `Expr` is idempotent. -/
theorem normExpr_idem (e : Expr) : normExpr (normExpr e) = normExpr e :=
  (normIdemAux (sizeOf e)).1 e (le_refl _)

/-- The owned normal form of a `Pat` is idempotent. -/
theorem normPat_idem (p : Pat) : normPat (normPat p) = normPat p :=
  (normIdemAux (sizeOf p)).2.2.2.2.2.2.2.2.2.2.2.2.2.2.2.2.2.2.2.1 p (le_refl _)

/-- The owned normal form of a `Decl` is idempotent. -/
theorem normDecl_idem (d : Decl) : normDecl (normDecl d) = normDecl d :=
  (normIdemAux (sizeOf d)).2.2.2.2.2.2.2.2.2.2.2.2.2.2.2.2.2.2.2.2.2.2.2.2.2.2.2.2.2.1 d (le_refl _)

/-- The owned normal form of a `Stmt` is idempotent. -/
theorem normStmt_idem (s : Stmt) : normStmt (normStmt s) = normStmt s :=
  (normIdemAux (sizeOf s)).2.2.2.2.2.2.2.2.2.2.2.2.2.2.2.2.2.2.2.2.2.2.2.2.2.2.2.2.2.2.2.2.2.2.2.2.1 s (le_refl _)

/-- The owned normal form of a `ProgramPart` list is idempotent. -/
theorem normProgramPartList_idem (ps : List ProgramPart) :
    normProgramPartList (normProgramPartList ps) = normProgramPartList ps :=
  (normIdemAux (sizeOf ps)).2.2.2.2.2.2.2.2.2.2.2.2.2.2.2.2.2.2.2.2.2.2.2.2.2.2.2.2.2.2.2.2.2.2.2.2.2.2.2.2.2.2.2.2.2.2.1 ps (le_refl _)

/-- The owned normal form of a `Program` is idempotent. -/
theorem normProgram_idem (p : Program) : normProgram (normProgram p) = normProgram p := by
  cases p with
  | Mod ps => simp only [normProgram]; rw [normProgramPartList_idem ps]
  | Script ps => simp only [normProgram]; rw [normProgramPartList_idem ps]

/-- Decoding an encoded `Expr` with fuel its size yields its normal form. -/
theorem decodeExpr_encodeExpr (e : Expr) :
    decodeExpr (sizeOf e) (encodeExpr e) = some (normExpr e) :=
  (decodeEncodeAux (sizeOf e)).1 e (le_refl _)

/-- Decoding an encoded `Pat` with fuel its size yields its normal form. -/
theorem decodePat_encodePat (p : Pat) :
    decodePat (sizeOf p) (encodePat p) = some (normPat p) :=
  (decodeEncodeAux (sizeOf p)).2.2.2.2.2.2.2.2.2.2.2.2.2.2.2.2.2.2.2.1 p (le_refl _)

/-- Decoding an encoded `Decl` with fuel its size yields its normal form. -/
theorem decodeDecl_encodeDecl (d : Decl) :
    decodeDecl (sizeOf d) (encodeDecl d) = some (normDecl d) :=
  (decodeEncodeAux (sizeOf d)).2.2.2.2.2.2.2.2.2.2.2.2.2.2.2.2.2.2.2.2.2.2.2.2.2.2.2.2.2.1 d (le_refl _)

/-- Decoding an encoded `Stmt` with fuel its size yields its normal form. -/
theorem decodeStmt_encodeStmt (s : Stmt) :
    decodeStmt (sizeOf s) (encodeStmt s) = some (normStmt s) :=
  (decodeEncodeAux (sizeOf s)).2.2.2.2.2.2.2.2.2.2.2.2.2.2.2.2.2.2.2.2.2.2.2.2.2.2.2.2.2.2.2.2.2.2.2.2.1 s (le_refl _)

/-- Decoding an encoded `ProgramPart` list with fuel its size yields its
normal form. -/
theorem decodeProgramPartList_enc (ps : List ProgramPart) :
    decodeProgramPartList (sizeOf ps) (encodeProgramPartList ps) = some (normProgramPartList ps) :=
  (decodeEncodeAux (sizeOf ps)).2.2.2.2.2.2.2.2.2.2.2.2.2.2.2.2.2.2.2.2.2.2.2.2.2.2.2.2.2.2.2.2.2.2.2.2.2.2.2.2.2.2.2.2.2.2.1 ps (le_refl _)

/-- Decoding an encoded `Program` with fuel its size yields its normal
form. -/
theorem decodeProgram_encodeProgram (p : Program) :
    decodeProgram (sizeOf p) (encodeProgram p) = some (normProgram p) := by
  cases p with
  | Mod ps =>
    have hs : sizeOf (Program.Mod ps) = sizeOf ps + 1 := by simp <;> omega
    rw [hs, decodeProgram_step_Mod, decodeProgramPartList_enc ps]
    all_goals rfl
  | Script ps =>
    have hs : sizeOf (Program.Script ps) = sizeOf ps + 1 := by simp <;> omega
    rw [hs, decodeProgram_step_Script, decodeProgramPartList_enc ps]
    all_goals rfl

/-!
Claim theorems.
-/

/-- C1 (counterexample): the claim quantifies over every `line` and
`column`, but at `line = 0` the u32 subtraction in `from_with_pos`
underflows (a debug-mode panic), so no identifier carrying
`SourcePos(line-1, column-1)` is returned at all. -/
theorem from_with_pos_underflow_counterexample :
    Ident.from_with_pos "a" 0 10 = none := rfl

/-- C1 (amended): for every name and all coordinates `line ≥ 1` and
`column ≥ 1`, `from_with_pos` stores the 1-based external coordinates as
0-based internal ones — span start `SourcePos(line-1, column-1)` — with
`in_map = true`. -/
theorem from_with_pos_stores_adjusted_position (s : String) (line column : Nat)
    (hl : 1 ≤ line) (hc : 1 ≤ column) :
    Ident.from_with_pos s line column =
      some { name := .borrowed s
             s_loc := { start := { line := line - 1, col := column - 1 }
                        in_map := true } } := by
  simp [Ident.from_with_pos, checkedSub, hl, hc]

/-- C1 witness: `from_with_pos(name, 5, 10)` yields internal
`SourcePos(4, 9)` with `in_map = true`. -/
theorem from_with_pos_stores_adjusted_position_witness :
    Ident.from_with_pos "x" 5 10 =
      some { name := .borrowed "x"
             s_loc := { start := { line := 4, col := 9 }, in_map := true } } :=
  from_with_pos_stores_adjusted_position "x" 5 10 (by decide) (by decide)

/-- C2: identifier equality is structural over the text value and
indifferent to borrowed vs owned representation: the identifier built
from a borrowed slice equals (under the derived `PartialEq`) the one
built from an owned copy of the same text with the same span. -/
theorem ident_equality_ignores_representation (s : String) (loc : SourceSpan) :
    Ident.rustEq (Ident.from_with_span s loc) (Ident.new s loc) = true := by
  simp [Ident.rustEq, Ident.from_with_span, Ident.new, Cow.value]

/-- C3: `Program::module(parts)` and `Program::script(parts)` built from
the identical parts list are unequal under the tree's equality, and each
constructor stores the parts list unchanged and in order. -/
theorem program_module_script_unequal (parts : List ProgramPart) :
    ¬ Program.rustEq (Program.module parts) (Program.script parts) ∧
    Program.module parts = Program.Mod parts ∧
    Program.script parts = Program.Script parts := by
  refine ⟨?_, rfl, rfl⟩
  intro h
  simp [Program.rustEq, Program.module, Program.script, normProgram] at h

/-- C4: for every node of every modelled variant, decoding the encoded
document of that node returns the node unchanged up to the tree's
representation-insensitive equality (the derived `PartialEq`, which
ignores borrowed vs owned text), under the adapter's supported two-way
tagged configuration. -/
theorem decode_encode_roundtrip :
    (∀ p : Program, ∃ q, decodeProgram (sizeOf p) (encodeProgram p) = some q ∧ Program.rustEq q p) ∧
    (∀ e : Expr, ∃ q, decodeExpr (sizeOf e) (encodeExpr e) = some q ∧ Expr.rustEq q e) ∧
    (∀ s : Stmt, ∃ q, decodeStmt (sizeOf s) (encodeStmt s) = some q ∧ Stmt.rustEq q s) ∧
    (∀ d : Decl, ∃ q, decodeDecl (sizeOf d) (encodeDecl d) = some q ∧ Decl.rustEq q d) ∧
    (∀ p : Pat, ∃ q, decodePat (sizeOf p) (encodePat p) = some q ∧ Pat.rustEq q p) :=
  ⟨fun p => ⟨normProgram p, decodeProgram_encodeProgram p, normProgram_idem p⟩,
   fun e => ⟨normExpr e, decodeExpr_encodeExpr e, normExpr_idem e⟩,
   fun s => ⟨normStmt s, decodeStmt_encodeStmt s, normStmt_idem s⟩,
   fun d => ⟨normDecl d, decodeDecl_encodeDecl d, normDecl_idem d⟩,
   fun p => ⟨normPat p, decodePat_encodePat p, normPat_idem p⟩⟩

/-- C5: under the external-schema-compatible (esprima) mode, the three
`VarKind` values render exactly as the lower-case keyword strings. -/
theorem varkind_renders_lowercase_keywords :
    VarKind.serializeEsprima .Var = "var" ∧
    VarKind.serializeEsprima .Let = "let" ∧
    VarKind.serializeEsprima .Const = "const" := by
  refine ⟨?_, ?_, ?_⟩ <;> decide

/-- C6: an array-pattern hole is an explicit `none` slot that never
collapses the sequence: `[a, , b]` is the length-3 sequence
`[some a, none, some b]`, distinguished both structurally and by the
tree's equality from the length-2 sequence `[some a, some b]`. -/
theorem array_pattern_holes_preserved (a b : ArrayPatPart) :
    Pat.Array [some a, none, some b] ≠ Pat.Array [some a, some b] ∧
    ¬ Pat.rustEq (Pat.Array [some a, none, some b]) (Pat.Array [some a, some b]) := by
  constructor
  · intro h
    simp at h
  · intro h
    simp [Pat.rustEq, normPat, normOptArrayPatPartList, normOptArrayPatPart] at h

/-- C7: every node constructor is a total function that performs no
validation and returns a node holding exactly the supplied children in
the supplied order; `Class::new` only adds the boxing of `super_class`
(erased here) and the `ClassBody` wrapper. -/
theorem constructors_total_identity :
    (∀ id params body generator is_async,
        Func.new id params body generator is_async = Func.mk id params body generator is_async) ∧
    (∀ id super_class body,
        Class.new id super_class body = Class.mk id super_class (ClassBody.mk body)) ∧
    (∀ parts, Program.module parts = Program.Mod parts) ∧
    (∀ parts, Program.script parts = Program.Script parts) ∧
    (∀ d, ProgramPart.decl d = ProgramPart.Decl d) ∧
    (∀ s, ProgramPart.stmt s = ProgramPart.Stmt s) ∧
    (∀ s loc, Ident.new s loc = { name := Cow.owned s, s_loc := loc }) ∧
    (∀ e, FuncArg.expr e = FuncArg.Expr e) ∧
    (∀ p, FuncArg.pat p = FuncArg.Pat p) :=
  ⟨fun _ _ _ _ _ => rfl, fun _ _ _ => rfl, fun _ => rfl, fun _ => rfl,
   fun _ => rfl, fun _ => rfl, fun _ _ => rfl, fun _ => rfl, fun _ => rfl⟩

/-- C8: `Ident::from(name)` carries the default zero-valued span — start
position line 0, col 0 — with `in_map = false`, the synthesized-position
marker. -/
theorem ident_from_zero_span (s : String) :
    Ident.from s =
      { name := .borrowed s
        s_loc := { start := { line := 0, col := 0 }, in_map := false } } := rfl

/-- C9: `from_with_pos` subtracts 1 from `line` and `column` as u32
arithmetic, so it produces a value exactly under the unstated
precondition `line ≥ 1` and `column ≥ 1`; with `line = 0` or
`column = 0` the subtraction underflows (a panic under checked
arithmetic, modelled as `none`) instead of producing a usable
position. -/
theorem from_with_pos_precondition (s : String) (line column : Nat) :
    (Ident.from_with_pos s line column).isSome ↔ (1 ≤ line ∧ 1 ≤ column) := by
  unfold Ident.from_with_pos checkedSub
  by_cases h1 : 1 ≤ line <;> by_cases h2 : 1 ≤ column <;> simp [h1, h2]

/-- C10: identifier equality compares the span along with the name: for
every name, the identifier with the default span from `Ident::from` is
unequal to the one `from_with_pos(s, 5, 10)` returns, whose span is
`SourcePos(4, 9)` with `in_map = true`. -/
theorem ident_equality_span_sensitive (s : String) (i : Ident)
    (h : Ident.from_with_pos s 5 10 = some i) :
    Ident.rustEq (Ident.from s) i = false := by
  simp only [Ident.from_with_pos, checkedSub] at h
  simp at h
  subst h
  simp [Ident.rustEq, Ident.from, SourceSpan.default, SourcePos.default, Cow.value]

/-- C10 witness: at the concrete name `"a"`. -/
theorem ident_equality_span_sensitive_witness :
    Ident.rustEq (Ident.from "a")
      { name := .borrowed "a"
        s_loc := { start := { line := 4, col := 9 }, in_map := true } } = false :=
  ident_equality_span_sensitive "a" _ rfl

end Resast
